import Mathlib

/-!
# OpenThread CoAP example applications: a verification development

Shallow embedding of the CoAP resource logic of the example applications and
theorems about it.  One namespace per application, named after it:
`ot_coap_led`, `ot_coap_bme280`, `ot_coap_button` (plain CoAP),
`ot_coaps_button` (DTLS with a pre-shared key), `ot_coaps_x509_button` and
`ot_coaps_x509_led` (DTLS with certificates), `ot_srp_coap_led` (service
registration).  Statements about several applications are in `applications`.

Conventions of the embedding

* Bytes are natural numbers below 256; a C `int` is an `Int`.  The global
  `led_state` only ever holds 0 or 1 (`run_invariant`), so `1 - led_state`
  never leaves the range of `int`.
* The `double` arguments of the `%.2f` conversions are exact rationals.
* Calls into the OpenThread stack and the GPIO driver are recorded, in program
  order, as a list of `Effect`s.  What the stack answers to each call is not
  decided by the application: it is an input of the embedded function
  (`StackEnv`).
* The locals `message_type` and `response_code` of `led_send_response`, which
  the C code assigns in the branches of two `if` chains that otherwise return
  early, are `Option` values; `none` is the early-return branch.
-/

namespace openthread

/-! ## Declarations of the OpenThread headers used by the applications -/

/-- Modelled from the spec: the CoAP message type of `openthread/coap.h`, the
two-bit header field with the four values Confirmable, NonConfirmable,
Acknowledgment and Reset. -/
inductive otCoapType where
  | OT_COAP_TYPE_CONFIRMABLE
  | OT_COAP_TYPE_NON_CONFIRMABLE
  | OT_COAP_TYPE_ACKNOWLEDGMENT
  | OT_COAP_TYPE_RESET
  deriving DecidableEq, Repr

/-- Modelled from the spec: the macro `OT_COAP_CODE(c, d)` of `openthread/coap.h`,
the code byte `c.dd` with a three-bit class and a five-bit detail. -/
def OT_COAP_CODE (c d : Nat) : Nat := (c % 8) * 32 + d % 32

/-- Modelled from the spec: request method GET, code 0.01. -/
def OT_COAP_CODE_GET : Nat := OT_COAP_CODE 0 1

/-- Modelled from the spec: request method PUT, code 0.03. -/
def OT_COAP_CODE_PUT : Nat := OT_COAP_CODE 0 3

/-- Modelled from the spec: response code Changed, 2.04. -/
def OT_COAP_CODE_CHANGED : Nat := OT_COAP_CODE 2 4

/-- Modelled from the spec: response code Content, 2.05. -/
def OT_COAP_CODE_CONTENT : Nat := OT_COAP_CODE 2 5

/-- Modelled from the spec: the `otError` value of a successful stack call. -/
def OT_ERROR_NONE : Nat := 0

/-- Modelled from the spec: the well-known default port of the plain
(not DTLS-secured) CoAP transport. -/
def OT_DEFAULT_COAP_PORT : Nat := 5683

/-- Modelled from the spec: the numeric content-format identifier of
`application/json`. -/
def OT_COAP_OPTION_CONTENT_FORMAT_JSON : Nat := 50

end openthread

namespace ot_coap_led

open openthread
open openthread.otCoapType

/-! ## Data model -/

/-- An inbound CoAP message as the handler reads it: `otCoapMessageGetType`,
`otCoapMessageGetCode`, and the bytes from `otMessageGetOffset` on. -/
structure Request where
  type : otCoapType
  code : Nat
  payload : List Nat
  deriving DecidableEq, Repr

/-- The content of an outbound message as built by the stack calls: type and
code from `otCoapMessageInitResponse`, payload bytes from `otMessageAppend`. -/
structure CoapMessage where
  type : otCoapType
  code : Nat
  payload : List Nat
  deriving DecidableEq, Repr

/-- What the stack answers to the calls of one `led_send_response`:
whether `otCoapNewMessage` returns a message (not `NULL`), and the `otError`
of each later call. -/
structure StackEnv where
  otCoapNewMessage : Bool
  otCoapMessageInitResponse : Nat
  otCoapMessageSetPayloadMarker : Nat
  otMessageAppend : Nat
  otCoapSendResponse : Nat
  deriving DecidableEq, Repr

/-- One call into the GPIO driver or the OpenThread stack, with its arguments
and, for stack calls, its result. -/
inductive Effect where
  | gpio_pin_set_dt (value : Int)
  | gpio_pin_toggle_dt
  | otCoapNewMessage (allocated : Bool)
  | otCoapMessageInitResponse (type : otCoapType) (code : Nat) (error : Nat)
  | otCoapMessageSetPayloadMarker (error : Nat)
  | otMessageAppend (bytes : List Nat) (error : Nat)
  | otCoapSendResponse (message : CoapMessage) (error : Nat)
  | otMessageFree
  deriving DecidableEq, Repr

/-- Initial value of the global `int led_state = 0;`. -/
def led_state_init : Int := 0

/-! ## `led_send_response` -/

/-- The byte stored by `buf[0] = led_state + 0x30;` (an `int` converted to
`char`). -/
def state_byte (led_state : Int) : Nat := ((led_state + 0x30) % 256).toNat

/-- Embedding of `led_send_response`: the calls it makes, in order, for the
request `p_request_message` when the global `led_state` has the given value. -/
def led_send_response (env : StackEnv) (p_request_message : Request)
    (led_state : Int) : List Effect :=
  -- p_response = otCoapNewMessage(p_instance, NULL);
  if env.otCoapNewMessage = false then
    [Effect.otCoapNewMessage false]
  else
    let message_type : Option otCoapType :=
      if p_request_message.type = OT_COAP_TYPE_CONFIRMABLE then
        some OT_COAP_TYPE_ACKNOWLEDGMENT
      else if p_request_message.type = OT_COAP_TYPE_NON_CONFIRMABLE then
        some OT_COAP_TYPE_NON_CONFIRMABLE
      else none
    match message_type with
    | none => [Effect.otCoapNewMessage true, Effect.otMessageFree]
    | some message_type =>
      let response_code : Option Nat :=
        if p_request_message.code = OT_COAP_CODE_GET then
          some OT_COAP_CODE_CONTENT
        else if p_request_message.code = OT_COAP_CODE_PUT then
          some OT_COAP_CODE_CHANGED
        else none
      match response_code with
      | none => [Effect.otCoapNewMessage true, Effect.otMessageFree]
      | some response_code =>
        let init := Effect.otCoapMessageInitResponse message_type response_code
          env.otCoapMessageInitResponse
        if env.otCoapMessageInitResponse ≠ OT_ERROR_NONE then
          [Effect.otCoapNewMessage true, init, Effect.otMessageFree]
        else
          let marker := Effect.otCoapMessageSetPayloadMarker
            env.otCoapMessageSetPayloadMarker
          if env.otCoapMessageSetPayloadMarker ≠ OT_ERROR_NONE then
            [Effect.otCoapNewMessage true, init, marker, Effect.otMessageFree]
          else
            let buf : List Nat := [state_byte led_state]
            let append := Effect.otMessageAppend buf env.otMessageAppend
            if env.otMessageAppend ≠ OT_ERROR_NONE then
              [Effect.otCoapNewMessage true, init, marker, append,
                Effect.otMessageFree]
            else
              let send := Effect.otCoapSendResponse
                ⟨message_type, response_code, buf⟩ env.otCoapSendResponse
              if env.otCoapSendResponse ≠ OT_ERROR_NONE then
                [Effect.otCoapNewMessage true, init, marker, append, send,
                  Effect.otMessageFree]
              else
                [Effect.otCoapNewMessage true, init, marker, append, send]

/-! ## `led_requested` -/

/-- Result of `otMessageRead(p_message, otMessageGetOffset(p_message), buf, 1)`
on the one-byte local `buf`: the first payload byte when there is one;
otherwise no byte is copied and `buf[0]` keeps its prior content `buf0`. -/
def otMessageRead (p_message : Request) (buf0 : Nat) : Nat :=
  match p_message.payload with
  | [] => buf0
  | b :: _ => b

/-- Embedding of the resource handler `led_requested`.  `buf0` is the content
of the uninitialised local `buf[0]` on entry, `led_state` the value of the
global on entry.  Returns the value of the global on exit and the calls made,
in order. -/
def led_requested (env : StackEnv) (buf0 : Nat) (p_message : Request)
    (led_state : Int) : Int × List Effect :=
  let method_code := p_message.code
  let message_type := p_message.type
  if message_type = OT_COAP_TYPE_CONFIRMABLE ∨
      message_type = OT_COAP_TYPE_NON_CONFIRMABLE then
    if method_code = OT_COAP_CODE_PUT then
      let buf := otMessageRead p_message buf0
      let upd : Int × List Effect :=
        if buf = '0'.toNat then
          (0, [Effect.gpio_pin_set_dt 0])
        else if buf = '1'.toNat then
          (1, [Effect.gpio_pin_set_dt 1])
        else if buf = '2'.toNat then
          (1 - led_state, [Effect.gpio_pin_toggle_dt])
        else
          (led_state, [])
      if message_type = OT_COAP_TYPE_CONFIRMABLE then
        (upd.1, upd.2 ++ led_send_response env p_message upd.1)
      else
        upd
    else if method_code = OT_COAP_CODE_GET then
      (led_state, led_send_response env p_message led_state)
    else
      (led_state, [])
  else
    (led_state, [])

/-! ## Observations on a trace of calls -/

/-- The responses handed to the transport and accepted by it: the messages of
the `otCoapSendResponse` calls that returned `OT_ERROR_NONE`. -/
def emitted : List Effect → List CoapMessage
  | [] => []
  | Effect.otCoapSendResponse m e :: rest =>
      if e = OT_ERROR_NONE then m :: emitted rest else emitted rest
  | _ :: rest => emitted rest

/-- The commands given to the LED output. -/
def led_commands : List Effect → List Effect
  | [] => []
  | Effect.gpio_pin_set_dt v :: rest => Effect.gpio_pin_set_dt v :: led_commands rest
  | Effect.gpio_pin_toggle_dt :: rest => Effect.gpio_pin_toggle_dt :: led_commands rest
  | _ :: rest => led_commands rest

/-- Every stack call of one `led_send_response` succeeds. -/
def StackEnv.ok (env : StackEnv) : Prop :=
  env.otCoapNewMessage = true ∧
  env.otCoapMessageInitResponse = OT_ERROR_NONE ∧
  env.otCoapMessageSetPayloadMarker = OT_ERROR_NONE ∧
  env.otMessageAppend = OT_ERROR_NONE ∧
  env.otCoapSendResponse = OT_ERROR_NONE

instance (env : StackEnv) : Decidable env.ok := by
  unfold StackEnv.ok; infer_instance

/-- A stack on which every call succeeds. -/
def env_ok : StackEnv := ⟨true, 0, 0, 0, 0⟩

/-- One delivery of an inbound message to the handler: the message, the stack
answers during the handler, and the prior content of the local `buf[0]`. -/
structure Delivery where
  env : StackEnv
  buf0 : Nat
  message : Request
  deriving DecidableEq, Repr

/-- The handler run on a sequence of deliveries, from the state `led_state`:
the final state and all calls made, in order. -/
def run (led_state : Int) : List Delivery → Int × List Effect
  | [] => (led_state, [])
  | d :: ds =>
      let r := led_requested d.env d.buf0 d.message led_state
      let rs := run r.1 ds
      (rs.1, r.2 ++ rs.2)

end ot_coap_led

namespace ot_coap_bme280

open openthread
open openthread.otCoapType

/-! ## Declarations of Zephyr and OpenThread used by the application -/

/-- Modelled from the spec: `struct sensor_value` of `zephyr/drivers/sensor.h`,
the two integer sub-fields of a reading: `val1` the whole part, `val2` the
fractional part in millionths. -/
structure sensor_value where
  val1 : Int
  val2 : Int
  deriving DecidableEq, Repr

/-- Modelled from the spec: `otExtAddress` of OpenThread, the 8 bytes `m8` of
an EUI-64. -/
structure otExtAddress where
  m8 : Fin 8 → Fin 256

/-- Range of the C type `int32_t`. -/
def is_int32 (v : Int) : Prop := -2147483648 ≤ v ∧ v ≤ 2147483647

instance (v : Int) : Decidable (is_int32 v) := by
  unfold is_int32; infer_instance

/-- Both sub-fields of a reading are `int32_t` values. -/
def sensor_value.in_range (v : sensor_value) : Prop :=
  is_int32 v.val1 ∧ is_int32 v.val2

instance (v : sensor_value) : Decidable v.in_range := by
  unfold sensor_value.in_range; infer_instance

/-! ## Formatted output (`snprintk` conversions) -/

/-- Upper-case hexadecimal digit of a value below 16. -/
def hex_digit_upper (d : Nat) : Char :=
  ['0', '1', '2', '3', '4', '5', '6', '7', '8', '9',
   'A', 'B', 'C', 'D', 'E', 'F'].getD d '?'

/-- Hexadecimal digits of `v`, most significant first, at least one digit.
`fuel` bounds the number of digits. -/
def hex_digits : Nat → Nat → List Char → List Char
  | 0, _, acc => acc
  | fuel + 1, v, acc =>
      if v / 16 = 0 then hex_digit_upper (v % 16) :: acc
      else hex_digits fuel (v / 16) (hex_digit_upper (v % 16) :: acc)

/-- Modelled from the spec: the conversion `%02X` of `snprintk`: upper-case
hexadecimal, padded with zeros on the left to at least two characters. -/
def fmt_02X (v : Nat) : List Char :=
  let ds := hex_digits (v + 1) v []
  List.replicate (2 - ds.length) '0' ++ ds

/-- Modelled from the spec: `snprintk(buf, size, ...)` stores at most
`size - 1` characters of the formatted text (and a terminating NUL). -/
def snprintk (size : Nat) (formatted : List Char) : List Char :=
  formatted.take (size - 1)

/-- Nearest integer to `r`, ties to the even neighbour. -/
def round_half_even (r : ℚ) : Int :=
  let f : Int := ⌊r⌋
  let d : ℚ := r - f
  if d < 1 / 2 then f
  else if 1 / 2 < d then f + 1
  else if f % 2 = 0 then f else f + 1

/-- Modelled from the spec: the conversion `%.2f` of `snprintk`, on the exact
value of its argument: an optional minus sign, the decimal digits of the whole
part, a point, and two fractional digits, the value being rounded to the
nearest hundredth. -/
def fmt_2f (x : ℚ) : List Char :=
  let a : ℚ := if x < 0 then -x else x
  let h : Nat := (round_half_even (a * 100)).toNat
  (if x < 0 then ['-'] else []) ++ Nat.toDigits 10 (h / 100) ++
    ['.', Nat.digitChar (h / 10 % 10), Nat.digitChar (h % 10)]

/-! ## `send_sensor_request` -/

/-- The loop of `send_sensor_request` that fills `eui64_id`: one
`snprintk(buf, sizeof(buf), "%02X", eui64.m8[i])` with `char buf[3]` and one
`strcat(eui64_id, buf)` for each `i` from 0 to 7, starting from the empty
string. -/
def eui64_id (eui64 : otExtAddress) : List Char :=
  (List.finRange 8).foldl
    (fun id i => id ++ snprintk 3 (fmt_02X (eui64.m8 i).val)) []

/-- The double passed for `temp`: `temp.val1 + temp.val2 / 1000000.0`, read
as exact arithmetic. -/
def temp_arg (temp : sensor_value) : ℚ := temp.val1 + temp.val2 / 1000000

/-- The double passed for `press`: `press.val1 * 10.0 + press.val2 / 100000.0`,
read as exact arithmetic. -/
def press_arg (press : sensor_value) : ℚ := press.val1 * 10 + press.val2 / 100000

/-- The double passed for `hum`: `hum.val1 + hum.val2 / 1000000.0`, read as
exact arithmetic. -/
def hum_arg (hum : sensor_value) : ℚ := hum.val1 + hum.val2 / 1000000

/-- The text of the format string
`{"id":"%s","temp":%.2f,"press":%.2f,"hum":%.2f}` with its arguments. -/
def json_format (id : List Char) (t p h : ℚ) : List Char :=
  "\x7b\"id\":\"".toList ++ id ++ "\",\"temp\":".toList ++ fmt_2f t ++
    ",\"press\":".toList ++ fmt_2f p ++ ",\"hum\":".toList ++ fmt_2f h ++
    "\x7d".toList

/-- Content of `char json_buf[100]` after the `snprintk` of
`send_sensor_request`. -/
def json_buf (eui64 : otExtAddress) (temp press hum : sensor_value) : List Char :=
  snprintk 100
    (json_format (eui64_id eui64) (temp_arg temp) (press_arg press) (hum_arg hum))

/-- The destination of a request: the text given to `otIp6AddressFromString`
for `mPeerAddr`, and `mPeerPort`. -/
structure otMessageInfo where
  mPeerAddr : String
  mPeerPort : Nat
  deriving DecidableEq, Repr

/-- The content of the request as built by the stack calls. -/
structure CoapRequest where
  type : otCoapType
  code : Nat
  uri_path : List String
  content_format : Option Nat
  payload : List Char
  deriving DecidableEq, Repr

/-- What the stack answers to the calls of one `send_sensor_request`. -/
structure RequestEnv where
  otCoapNewMessage : Bool
  otCoapMessageAppendUriPathOptions : Nat
  otCoapMessageAppendContentFormatOption : Nat
  otCoapMessageSetPayloadMarker : Nat
  otMessageAppend : Nat
  otCoapSendRequest : Nat
  deriving DecidableEq, Repr

/-- One call into the OpenThread stack, with its arguments and its result. -/
inductive Call where
  | otCoapNewMessage (allocated : Bool)
  | otCoapMessageInit (type : otCoapType) (code : Nat)
  | otCoapMessageAppendUriPathOptions (path : String) (error : Nat)
  | otCoapMessageAppendContentFormatOption (format : Nat) (error : Nat)
  | otCoapMessageSetPayloadMarker (error : Nat)
  | otMessageAppend (bytes : List Char) (error : Nat)
  | otCoapSendRequest (message : CoapRequest) (info : otMessageInfo) (error : Nat)
  | otMessageFree
  deriving DecidableEq, Repr

/-- The macro `SEND_TO_ADDR`. -/
def SEND_TO_ADDR : String := "ff03::1"

/-- Embedding of `send_sensor_request`: the stack calls it makes, in order,
for the EUI-64 returned by `otPlatRadioGetIeeeEui64` and the three readings
returned by `sensor_channel_get`. -/
def send_sensor_request (env : RequestEnv) (eui64 : otExtAddress)
    (temp press hum : sensor_value) : List Call :=
  let message_info : otMessageInfo := ⟨SEND_TO_ADDR, OT_DEFAULT_COAP_PORT⟩
  let json := json_buf eui64 temp press hum
  if env.otCoapNewMessage = false then
    [Call.otCoapNewMessage false]
  else
    let init := Call.otCoapMessageInit OT_COAP_TYPE_NON_CONFIRMABLE OT_COAP_CODE_PUT
    let uri := Call.otCoapMessageAppendUriPathOptions "sensor"
      env.otCoapMessageAppendUriPathOptions
    if env.otCoapMessageAppendUriPathOptions ≠ OT_ERROR_NONE then
      [Call.otCoapNewMessage true, init, uri, Call.otMessageFree]
    else
      let cf := Call.otCoapMessageAppendContentFormatOption
        OT_COAP_OPTION_CONTENT_FORMAT_JSON env.otCoapMessageAppendContentFormatOption
      if env.otCoapMessageAppendContentFormatOption ≠ OT_ERROR_NONE then
        [Call.otCoapNewMessage true, init, uri, cf, Call.otMessageFree]
      else
        let marker := Call.otCoapMessageSetPayloadMarker
          env.otCoapMessageSetPayloadMarker
        if env.otCoapMessageSetPayloadMarker ≠ OT_ERROR_NONE then
          [Call.otCoapNewMessage true, init, uri, cf, marker, Call.otMessageFree]
        else
          let append := Call.otMessageAppend json env.otMessageAppend
          if env.otMessageAppend ≠ OT_ERROR_NONE then
            [Call.otCoapNewMessage true, init, uri, cf, marker, append,
              Call.otMessageFree]
          else
            let send := Call.otCoapSendRequest
              ⟨OT_COAP_TYPE_NON_CONFIRMABLE, OT_COAP_CODE_PUT, ["sensor"],
                some OT_COAP_OPTION_CONTENT_FORMAT_JSON, json⟩
              message_info env.otCoapSendRequest
            if env.otCoapSendRequest ≠ OT_ERROR_NONE then
              [Call.otCoapNewMessage true, init, uri, cf, marker, append, send,
                Call.otMessageFree]
            else
              [Call.otCoapNewMessage true, init, uri, cf, marker, append, send]

/-- The payload bytes handed to `otMessageAppend` in a trace of calls. -/
def appended : List Call → List (List Char)
  | [] => []
  | Call.otMessageAppend bytes _ :: rest => bytes :: appended rest
  | _ :: rest => appended rest

/-- A stack on which every call succeeds. -/
def request_env_ok : RequestEnv := ⟨true, 0, 0, 0, 0, 0⟩

/-! ## Character classes of the telemetry text -/

/-- The decimal digits. -/
def dec_chars : List Char := "0123456789".toList

/-- The upper-case hexadecimal digits. -/
def hex_chars : List Char := "0123456789ABCDEF".toList

/-- A decimal number with exactly two fractional digits: an optional minus
sign, at least one digit, a point, two digits. -/
def two_decimals (l : List Char) : Prop :=
  ∃ sign whole d1 d2, l = sign ++ whole ++ ['.', d1, d2] ∧
    (sign = [] ∨ sign = ['-']) ∧ whole ≠ [] ∧ (∀ c ∈ whole, c ∈ dec_chars) ∧
    d1 ∈ dec_chars ∧ d2 ∈ dec_chars

/-- An example EUI-64, `F4:CE:36:00:0A:B1:9C:7F`. -/
def eui64_example : otExtAddress :=
  ⟨fun i => [0xF4, 0xCE, 0x36, 0x00, 0x0A, 0xB1, 0x9C, 0x7F].getD i.val 0⟩

end ot_coap_bme280

namespace ot_coap_led

open openthread
open openthread.otCoapType

/-! ## The LED output -/

/-- The logical level of the LED output after one call, from the level before:
`gpio_pin_set_dt` sets it, `gpio_pin_toggle_dt` flips it, any other call
leaves it. -/
def led_level_step (level : Int) : Effect → Int
  | Effect.gpio_pin_set_dt value => value
  | Effect.gpio_pin_toggle_dt => 1 - level
  | _ => level

/-- The logical level last commanded to the LED output after a trace of calls. -/
def led_level (level : Int) (trace : List Effect) : Int :=
  trace.foldl led_level_step level

/-- The LED command of `main`, after `init_led` and `init_coap`:
`gpio_pin_set_dt(&led, 0)`. -/
def main_led_command : List Effect := [Effect.gpio_pin_set_dt 0]

/-- The Response Deriver as the spec words it: Confirmable gives
Acknowledgment, NonConfirmable gives NonConfirmable, GET gives Content (2.05),
PUT gives Changed (2.04); any other type or code is an unsupported request. -/
def deriveResponse_spec (request : Request) : Option (otCoapType × Nat) :=
  let type : Option otCoapType :=
    match request.type with
    | OT_COAP_TYPE_CONFIRMABLE => some OT_COAP_TYPE_ACKNOWLEDGMENT
    | OT_COAP_TYPE_NON_CONFIRMABLE => some OT_COAP_TYPE_NON_CONFIRMABLE
    | _ => none
  let code : Option Nat :=
    if request.code = OT_COAP_CODE_GET then some (OT_COAP_CODE 2 5)
    else if request.code = OT_COAP_CODE_PUT then some (OT_COAP_CODE 2 4)
    else none
  match type, code with
  | some t, some c => some (t, c)
  | _, _ => none

/-- A send call that the transport accepted. -/
def Effect.accepted : Effect → Bool
  | Effect.otCoapSendResponse _ e => e == OT_ERROR_NONE
  | _ => false

end ot_coap_led

namespace openthread

/-! ## The build order of the spec -/

/-- The build order as the spec words it (Message Builder: each step is
executed only if every earlier step succeeded, and a failure path releases the
message).  For a list of steps, each a call paired with whether it succeeded,
the calls made are the steps up to and including the first failing one,
followed by `free` when there is a failing one. -/
def build_order_spec {α : Type} (free : α) : List (α × Bool) → List α
  | [] => []
  | (call, true) :: rest => call :: build_order_spec free rest
  | (call, false) :: _ => [call, free]

/-- No message leak, on the trace of calls of a builder that allocated its
message: either one send call accepted the message and it was not freed, or no
send call accepted it and it was freed exactly once, by the last call. -/
def no_leak {α : Type} [DecidableEq α] (free : α) (accepted : α → Bool)
    (trace : List α) : Prop :=
  (trace.countP accepted = 1 ∧ trace.count free = 0) ∨
  (trace.countP accepted = 0 ∧ trace.count free = 1 ∧ trace.getLast? = some free)

/-- A send call of a plain client that the transport accepted. -/
def request_accepted : ot_coap_bme280.Call → Bool
  | ot_coap_bme280.Call.otCoapSendRequest _ _ e => e == OT_ERROR_NONE
  | _ => false

/-! ## Declarations of `openthread/coap_secure.h` and `openthread/ip6.h` -/

/-- Modelled from the spec: the well-known default port of the DTLS-secured
CoAP transport. -/
def OT_DEFAULT_COAP_SECURE_PORT : Nat := 5684

/-- Modelled from the spec: an IPv6 address is a multicast address when its
first byte is `0xff`; on the text given to `otIp6AddressFromString`, when the
first group has four hexadecimal digits of which the first two are `ff`. -/
def is_multicast (address : String) : Bool :=
  match address.toList.takeWhile (fun c => c != ':') with
  | [a, b, _, _] => a.toLower == 'f' && b.toLower == 'f'
  | _ => false

/-- The credential material of a certificate-mode application, named after the
macro of the application that holds it. -/
inductive Credential where
  | DTLS_X509_CERT
  | DTLS_PRIVKEY
  | DTLS_CA_CERT
  deriving DecidableEq, Repr

/-- One call of a secured client, or of the `init_coap` of a secured
application, into the OpenThread stack, with its arguments and its result. -/
inductive SecureCall where
  | otCoapNewMessage (allocated : Bool)
  | otCoapMessageInit (type : otCoapType) (code : Nat)
  | otCoapMessageAppendUriPathOptions (path : String) (error : Nat)
  | otCoapMessageSetPayloadMarker (error : Nat)
  | otMessageAppend (bytes : List Char) (error : Nat)
  | otCoapSecureSendRequest (message : ot_coap_bme280.CoapRequest) (error : Nat)
  | otMessageFree
  | otCoapSecureSetPsk (psk : String) (psk_id : String)
  | otCoapSecureSetCertificate (cert : Credential) (key : Credential)
  | otCoapSecureSetCaCertificateChain (ca : Credential)
  | otCoapSecureSetSslAuthMode (verify_peer : Bool)
  | otCoapSecureStart (port : Nat) (error : Nat)
  | otIp6AddressFromString (text : String) (error : Nat)
  | otCoapSecureConnect (address : String) (port : Nat) (error : Nat)
  | otCoapSecureAddResource (uri_path : String)
  deriving DecidableEq, Repr

/-- What the stack answers to the calls of one `send_led_request` of a secured
client. -/
structure SecureRequestEnv where
  otCoapNewMessage : Bool
  otCoapMessageAppendUriPathOptions : Nat
  otCoapMessageSetPayloadMarker : Nat
  otMessageAppend : Nat
  otCoapSecureSendRequest : Nat
  deriving DecidableEq, Repr

/-- What the stack answers to the calls of the `init_coap` of a secured
client. -/
structure SecureInitEnv where
  otCoapSecureStart : Nat
  otIp6AddressFromString : Nat
  otCoapSecureConnect : Nat
  deriving DecidableEq, Repr

/-- A send call of a secured client that the transport accepted. -/
def SecureCall.accepted : SecureCall → Bool
  | SecureCall.otCoapSecureSendRequest _ e => e == OT_ERROR_NONE
  | _ => false

/-- A call that installs credentials or sets the authentication mode. -/
def SecureCall.is_credential : SecureCall → Bool
  | SecureCall.otCoapSecureSetPsk _ _ => true
  | SecureCall.otCoapSecureSetCertificate _ _ => true
  | SecureCall.otCoapSecureSetCaCertificateChain _ => true
  | SecureCall.otCoapSecureSetSslAuthMode _ => true
  | _ => false

/-- A call that installs a pre-shared key. -/
def SecureCall.is_psk : SecureCall → Bool
  | SecureCall.otCoapSecureSetPsk _ _ => true
  | _ => false

/-- A call that installs certificate material. -/
def SecureCall.is_certificate : SecureCall → Bool
  | SecureCall.otCoapSecureSetCertificate _ _ => true
  | SecureCall.otCoapSecureSetCaCertificateChain _ => true
  | _ => false

/-- A call that starts the secure service or attempts a connection. -/
def SecureCall.is_start_or_connect : SecureCall → Bool
  | SecureCall.otCoapSecureStart _ _ => true
  | SecureCall.otCoapSecureConnect _ _ _ => true
  | _ => false

end openthread

namespace ot_coap_button

open openthread
open openthread.otCoapType
open ot_coap_bme280 (Call CoapRequest otMessageInfo)

/-- The macro `SEND_TO_ADDR`. -/
def SEND_TO_ADDR : String := "ff03::1"

/-- What the stack answers to the calls of one `send_led_request`. -/
structure ButtonEnv where
  otCoapNewMessage : Bool
  otCoapMessageAppendUriPathOptions : Nat
  otCoapMessageSetPayloadMarker : Nat
  otMessageAppend : Nat
  otCoapSendRequest : Nat
  deriving DecidableEq, Repr

/-- Embedding of `send_led_request` of the plain button client: the stack
calls it makes, in order. -/
def send_led_request (env : ButtonEnv) : List Call :=
  let buf : List Char := "2".toList
  let message_info : otMessageInfo := ⟨SEND_TO_ADDR, OT_DEFAULT_COAP_PORT⟩
  if env.otCoapNewMessage = false then
    [Call.otCoapNewMessage false]
  else
    let init := Call.otCoapMessageInit OT_COAP_TYPE_CONFIRMABLE OT_COAP_CODE_PUT
    let uri := Call.otCoapMessageAppendUriPathOptions "led"
      env.otCoapMessageAppendUriPathOptions
    if env.otCoapMessageAppendUriPathOptions ≠ OT_ERROR_NONE then
      [Call.otCoapNewMessage true, init, uri, Call.otMessageFree]
    else
      let marker := Call.otCoapMessageSetPayloadMarker
        env.otCoapMessageSetPayloadMarker
      if env.otCoapMessageSetPayloadMarker ≠ OT_ERROR_NONE then
        [Call.otCoapNewMessage true, init, uri, marker, Call.otMessageFree]
      else
        let append := Call.otMessageAppend buf env.otMessageAppend
        if env.otMessageAppend ≠ OT_ERROR_NONE then
          [Call.otCoapNewMessage true, init, uri, marker, append, Call.otMessageFree]
        else
          let send := Call.otCoapSendRequest
            ⟨OT_COAP_TYPE_CONFIRMABLE, OT_COAP_CODE_PUT, ["led"], none, buf⟩
            message_info env.otCoapSendRequest
          if env.otCoapSendRequest ≠ OT_ERROR_NONE then
            [Call.otCoapNewMessage true, init, uri, marker, append, send,
              Call.otMessageFree]
          else
            [Call.otCoapNewMessage true, init, uri, marker, append, send]

end ot_coap_button

namespace ot_coaps_button

open openthread
open openthread.otCoapType

/-- The global `psk`. -/
def psk : String := "1234"

/-- The global `psk_id`. -/
def psk_id : String := "my-id"

/-- The global `server_address`. -/
def server_address : String := "fd3a:3a7a:3ffe:406f:d732:851f:52af:fd79"

/-- Embedding of `send_led_request` of the PSK client: the stack calls it
makes, in order. -/
def send_led_request (env : SecureRequestEnv) : List SecureCall :=
  let buf : List Char := "2".toList
  if env.otCoapNewMessage = false then
    [SecureCall.otCoapNewMessage false]
  else
    let init := SecureCall.otCoapMessageInit OT_COAP_TYPE_CONFIRMABLE OT_COAP_CODE_PUT
    let uri := SecureCall.otCoapMessageAppendUriPathOptions "led"
      env.otCoapMessageAppendUriPathOptions
    if env.otCoapMessageAppendUriPathOptions ≠ OT_ERROR_NONE then
      [SecureCall.otCoapNewMessage true, init, uri, SecureCall.otMessageFree]
    else
      let marker := SecureCall.otCoapMessageSetPayloadMarker
        env.otCoapMessageSetPayloadMarker
      if env.otCoapMessageSetPayloadMarker ≠ OT_ERROR_NONE then
        [SecureCall.otCoapNewMessage true, init, uri, marker, SecureCall.otMessageFree]
      else
        let append := SecureCall.otMessageAppend buf env.otMessageAppend
        if env.otMessageAppend ≠ OT_ERROR_NONE then
          [SecureCall.otCoapNewMessage true, init, uri, marker, append,
            SecureCall.otMessageFree]
        else
          let send := SecureCall.otCoapSecureSendRequest
            ⟨OT_COAP_TYPE_CONFIRMABLE, OT_COAP_CODE_PUT, ["led"], none, buf⟩
            env.otCoapSecureSendRequest
          if env.otCoapSecureSendRequest ≠ OT_ERROR_NONE then
            [SecureCall.otCoapNewMessage true, init, uri, marker, append, send,
              SecureCall.otMessageFree]
          else
            [SecureCall.otCoapNewMessage true, init, uri, marker, append, send]

/-- Embedding of `init_coap` of the PSK client: the stack calls it makes, in
order. -/
def init_coap (env : SecureInitEnv) : List SecureCall :=
  let set_psk := SecureCall.otCoapSecureSetPsk psk psk_id
  let start := SecureCall.otCoapSecureStart OT_DEFAULT_COAP_SECURE_PORT
    env.otCoapSecureStart
  if env.otCoapSecureStart ≠ OT_ERROR_NONE then
    [set_psk, start]
  else
    let parse := SecureCall.otIp6AddressFromString server_address
      env.otIp6AddressFromString
    if env.otIp6AddressFromString ≠ OT_ERROR_NONE then
      [set_psk, start, parse]
    else
      [set_psk, start, parse,
        SecureCall.otCoapSecureConnect server_address OT_DEFAULT_COAP_SECURE_PORT
          env.otCoapSecureConnect]

end ot_coaps_button

namespace ot_coaps_x509_button

open openthread
open openthread.otCoapType

/-- The global `server_address`. -/
def server_address : String := "fd3a:3a7a:3ffe:406f:d732:851f:52af:fd79"

/-- Embedding of `send_led_request` of the certificate client: the stack calls
it makes, in order. -/
def send_led_request (env : SecureRequestEnv) : List SecureCall :=
  let buf : List Char := "2".toList
  if env.otCoapNewMessage = false then
    [SecureCall.otCoapNewMessage false]
  else
    let init := SecureCall.otCoapMessageInit OT_COAP_TYPE_CONFIRMABLE OT_COAP_CODE_PUT
    let uri := SecureCall.otCoapMessageAppendUriPathOptions "led"
      env.otCoapMessageAppendUriPathOptions
    if env.otCoapMessageAppendUriPathOptions ≠ OT_ERROR_NONE then
      [SecureCall.otCoapNewMessage true, init, uri, SecureCall.otMessageFree]
    else
      let marker := SecureCall.otCoapMessageSetPayloadMarker
        env.otCoapMessageSetPayloadMarker
      if env.otCoapMessageSetPayloadMarker ≠ OT_ERROR_NONE then
        [SecureCall.otCoapNewMessage true, init, uri, marker, SecureCall.otMessageFree]
      else
        let append := SecureCall.otMessageAppend buf env.otMessageAppend
        if env.otMessageAppend ≠ OT_ERROR_NONE then
          [SecureCall.otCoapNewMessage true, init, uri, marker, append,
            SecureCall.otMessageFree]
        else
          let send := SecureCall.otCoapSecureSendRequest
            ⟨OT_COAP_TYPE_CONFIRMABLE, OT_COAP_CODE_PUT, ["led"], none, buf⟩
            env.otCoapSecureSendRequest
          if env.otCoapSecureSendRequest ≠ OT_ERROR_NONE then
            [SecureCall.otCoapNewMessage true, init, uri, marker, append, send,
              SecureCall.otMessageFree]
          else
            [SecureCall.otCoapNewMessage true, init, uri, marker, append, send]

/-- Embedding of `init_coap` of the certificate client: the stack calls it
makes, in order. -/
def init_coap (env : SecureInitEnv) : List SecureCall :=
  let set_cert := SecureCall.otCoapSecureSetCertificate Credential.DTLS_X509_CERT
    Credential.DTLS_PRIVKEY
  let set_ca := SecureCall.otCoapSecureSetCaCertificateChain Credential.DTLS_CA_CERT
  let auth := SecureCall.otCoapSecureSetSslAuthMode true
  let start := SecureCall.otCoapSecureStart OT_DEFAULT_COAP_SECURE_PORT
    env.otCoapSecureStart
  if env.otCoapSecureStart ≠ OT_ERROR_NONE then
    [set_cert, set_ca, auth, start]
  else
    let parse := SecureCall.otIp6AddressFromString server_address
      env.otIp6AddressFromString
    if env.otIp6AddressFromString ≠ OT_ERROR_NONE then
      [set_cert, set_ca, auth, start, parse]
    else
      [set_cert, set_ca, auth, start, parse,
        SecureCall.otCoapSecureConnect server_address OT_DEFAULT_COAP_SECURE_PORT
          env.otCoapSecureConnect]

end ot_coaps_x509_button

namespace ot_coaps_x509_led

open openthread
open openthread.otCoapType
open ot_coap_led (Request CoapMessage state_byte otMessageRead)

/-- What the stack answers to the calls of one `led_send_response` of the
secured LED server. -/
structure SecureStackEnv where
  otCoapNewMessage : Bool
  otCoapMessageInitResponse : Nat
  otCoapMessageSetPayloadMarker : Nat
  otMessageAppend : Nat
  otCoapSecureSendResponse : Nat
  deriving DecidableEq, Repr

/-- One call of the secured LED handler into the GPIO driver or the OpenThread
stack, with its arguments and, for stack calls, its result. -/
inductive SecureEffect where
  | gpio_pin_set_dt (value : Int)
  | gpio_pin_toggle_dt
  | otCoapNewMessage (allocated : Bool)
  | otCoapMessageInitResponse (type : otCoapType) (code : Nat) (error : Nat)
  | otCoapMessageSetPayloadMarker (error : Nat)
  | otMessageAppend (bytes : List Nat) (error : Nat)
  | otCoapSecureSendResponse (message : CoapMessage) (error : Nat)
  | otMessageFree
  deriving DecidableEq, Repr

/-- A send call that the transport accepted. -/
def SecureEffect.accepted : SecureEffect → Bool
  | SecureEffect.otCoapSecureSendResponse _ e => e == OT_ERROR_NONE
  | _ => false

/-- Initial value of the global `int led_state = 0;`. -/
def led_state_init : Int := 0

/-- Embedding of `led_send_response` of the secured LED server: the calls it
makes, in order. -/
def led_send_response (env : SecureStackEnv) (p_request_message : Request)
    (led_state : Int) : List SecureEffect :=
  if env.otCoapNewMessage = false then
    [SecureEffect.otCoapNewMessage false]
  else
    let message_type : Option otCoapType :=
      if p_request_message.type = OT_COAP_TYPE_CONFIRMABLE then
        some OT_COAP_TYPE_ACKNOWLEDGMENT
      else if p_request_message.type = OT_COAP_TYPE_NON_CONFIRMABLE then
        some OT_COAP_TYPE_NON_CONFIRMABLE
      else none
    match message_type with
    | none => [SecureEffect.otCoapNewMessage true, SecureEffect.otMessageFree]
    | some message_type =>
      let response_code : Option Nat :=
        if p_request_message.code = OT_COAP_CODE_GET then
          some OT_COAP_CODE_CONTENT
        else if p_request_message.code = OT_COAP_CODE_PUT then
          some OT_COAP_CODE_CHANGED
        else none
      match response_code with
      | none => [SecureEffect.otCoapNewMessage true, SecureEffect.otMessageFree]
      | some response_code =>
        let init := SecureEffect.otCoapMessageInitResponse message_type response_code
          env.otCoapMessageInitResponse
        if env.otCoapMessageInitResponse ≠ OT_ERROR_NONE then
          [SecureEffect.otCoapNewMessage true, init, SecureEffect.otMessageFree]
        else
          let marker := SecureEffect.otCoapMessageSetPayloadMarker
            env.otCoapMessageSetPayloadMarker
          if env.otCoapMessageSetPayloadMarker ≠ OT_ERROR_NONE then
            [SecureEffect.otCoapNewMessage true, init, marker,
              SecureEffect.otMessageFree]
          else
            let buf : List Nat := [state_byte led_state]
            let append := SecureEffect.otMessageAppend buf env.otMessageAppend
            if env.otMessageAppend ≠ OT_ERROR_NONE then
              [SecureEffect.otCoapNewMessage true, init, marker, append,
                SecureEffect.otMessageFree]
            else
              let send := SecureEffect.otCoapSecureSendResponse
                ⟨message_type, response_code, buf⟩ env.otCoapSecureSendResponse
              if env.otCoapSecureSendResponse ≠ OT_ERROR_NONE then
                [SecureEffect.otCoapNewMessage true, init, marker, append, send,
                  SecureEffect.otMessageFree]
              else
                [SecureEffect.otCoapNewMessage true, init, marker, append, send]

/-- Embedding of the resource handler `led_requested` of the secured LED
server; `buf0` is the content of the uninitialised local `buf[0]` on entry. -/
def led_requested (env : SecureStackEnv) (buf0 : Nat) (p_message : Request)
    (led_state : Int) : Int × List SecureEffect :=
  let method_code := p_message.code
  let message_type := p_message.type
  if message_type = OT_COAP_TYPE_CONFIRMABLE ∨
      message_type = OT_COAP_TYPE_NON_CONFIRMABLE then
    if method_code = OT_COAP_CODE_PUT then
      let buf := otMessageRead p_message buf0
      let upd : Int × List SecureEffect :=
        if buf = '0'.toNat then
          (0, [SecureEffect.gpio_pin_set_dt 0])
        else if buf = '1'.toNat then
          (1, [SecureEffect.gpio_pin_set_dt 1])
        else if buf = '2'.toNat then
          (1 - led_state, [SecureEffect.gpio_pin_toggle_dt])
        else
          (led_state, [])
      if message_type = OT_COAP_TYPE_CONFIRMABLE then
        (upd.1, upd.2 ++ led_send_response env p_message upd.1)
      else
        upd
    else if method_code = OT_COAP_CODE_GET then
      (led_state, led_send_response env p_message led_state)
    else
      (led_state, [])
  else
    (led_state, [])

/-- Embedding of `init_coap` of the secured LED server: the stack calls it
makes, in order, `start_error` being the result of `otCoapSecureStart`. -/
def init_coap (start_error : Nat) : List SecureCall :=
  let set_cert := SecureCall.otCoapSecureSetCertificate Credential.DTLS_X509_CERT
    Credential.DTLS_PRIVKEY
  let set_ca := SecureCall.otCoapSecureSetCaCertificateChain Credential.DTLS_CA_CERT
  let auth := SecureCall.otCoapSecureSetSslAuthMode true
  let start := SecureCall.otCoapSecureStart OT_DEFAULT_COAP_SECURE_PORT start_error
  if start_error ≠ OT_ERROR_NONE then
    [set_cert, set_ca, auth, start]
  else
    [set_cert, set_ca, auth, start, SecureCall.otCoapSecureAddResource "led"]

/-- The stack answers of the plain server that correspond to those of the
secured one: the answer of the send primitive is that of
`otCoapSecureSendResponse`. -/
def plain_env (env : SecureStackEnv) : ot_coap_led.StackEnv :=
  ⟨env.otCoapNewMessage, env.otCoapMessageInitResponse,
    env.otCoapMessageSetPayloadMarker, env.otMessageAppend,
    env.otCoapSecureSendResponse⟩

/-- A call of the secured handler with the send primitive
`otCoapSecureSendResponse` replaced by `otCoapSendResponse`. -/
def plain_effect : SecureEffect → ot_coap_led.Effect
  | SecureEffect.gpio_pin_set_dt v => ot_coap_led.Effect.gpio_pin_set_dt v
  | SecureEffect.gpio_pin_toggle_dt => ot_coap_led.Effect.gpio_pin_toggle_dt
  | SecureEffect.otCoapNewMessage a => ot_coap_led.Effect.otCoapNewMessage a
  | SecureEffect.otCoapMessageInitResponse t c e =>
      ot_coap_led.Effect.otCoapMessageInitResponse t c e
  | SecureEffect.otCoapMessageSetPayloadMarker e =>
      ot_coap_led.Effect.otCoapMessageSetPayloadMarker e
  | SecureEffect.otMessageAppend b e => ot_coap_led.Effect.otMessageAppend b e
  | SecureEffect.otCoapSecureSendResponse m e =>
      ot_coap_led.Effect.otCoapSendResponse m e
  | SecureEffect.otMessageFree => ot_coap_led.Effect.otMessageFree

end ot_coaps_x509_led

namespace ot_srp_coap_led

open openthread
open openthread.otCoapType
open ot_coap_led (Request CoapMessage StackEnv Effect state_byte otMessageRead)

/-- Initial value of the global `int led_state = 0;`. -/
def led_state_init : Int := 0

/-- Embedding of `led_send_response` of the SRP variant: the calls it makes,
in order. -/
def led_send_response (env : StackEnv) (p_request_message : Request)
    (led_state : Int) : List Effect :=
  if env.otCoapNewMessage = false then
    [Effect.otCoapNewMessage false]
  else
    let message_type : Option otCoapType :=
      if p_request_message.type = OT_COAP_TYPE_CONFIRMABLE then
        some OT_COAP_TYPE_ACKNOWLEDGMENT
      else if p_request_message.type = OT_COAP_TYPE_NON_CONFIRMABLE then
        some OT_COAP_TYPE_NON_CONFIRMABLE
      else none
    match message_type with
    | none => [Effect.otCoapNewMessage true, Effect.otMessageFree]
    | some message_type =>
      let response_code : Option Nat :=
        if p_request_message.code = OT_COAP_CODE_GET then
          some OT_COAP_CODE_CONTENT
        else if p_request_message.code = OT_COAP_CODE_PUT then
          some OT_COAP_CODE_CHANGED
        else none
      match response_code with
      | none => [Effect.otCoapNewMessage true, Effect.otMessageFree]
      | some response_code =>
        let init := Effect.otCoapMessageInitResponse message_type response_code
          env.otCoapMessageInitResponse
        if env.otCoapMessageInitResponse ≠ OT_ERROR_NONE then
          [Effect.otCoapNewMessage true, init, Effect.otMessageFree]
        else
          let marker := Effect.otCoapMessageSetPayloadMarker
            env.otCoapMessageSetPayloadMarker
          if env.otCoapMessageSetPayloadMarker ≠ OT_ERROR_NONE then
            [Effect.otCoapNewMessage true, init, marker, Effect.otMessageFree]
          else
            let buf : List Nat := [state_byte led_state]
            let append := Effect.otMessageAppend buf env.otMessageAppend
            if env.otMessageAppend ≠ OT_ERROR_NONE then
              [Effect.otCoapNewMessage true, init, marker, append,
                Effect.otMessageFree]
            else
              let send := Effect.otCoapSendResponse
                ⟨message_type, response_code, buf⟩ env.otCoapSendResponse
              if env.otCoapSendResponse ≠ OT_ERROR_NONE then
                [Effect.otCoapNewMessage true, init, marker, append, send,
                  Effect.otMessageFree]
              else
                [Effect.otCoapNewMessage true, init, marker, append, send]

/-- Embedding of the resource handler `led_requested` of the SRP variant;
`buf0` is the content of the uninitialised local `buf[0]` on entry. -/
def led_requested (env : StackEnv) (buf0 : Nat) (p_message : Request)
    (led_state : Int) : Int × List Effect :=
  let method_code := p_message.code
  let message_type := p_message.type
  if message_type = OT_COAP_TYPE_CONFIRMABLE ∨
      message_type = OT_COAP_TYPE_NON_CONFIRMABLE then
    if method_code = OT_COAP_CODE_PUT then
      let buf := otMessageRead p_message buf0
      let upd : Int × List Effect :=
        if buf = '0'.toNat then
          (0, [Effect.gpio_pin_set_dt 0])
        else if buf = '1'.toNat then
          (1, [Effect.gpio_pin_set_dt 1])
        else if buf = '2'.toNat then
          (1 - led_state, [Effect.gpio_pin_toggle_dt])
        else
          (led_state, [])
      if message_type = OT_COAP_TYPE_CONFIRMABLE then
        (upd.1, upd.2 ++ led_send_response env p_message upd.1)
      else
        upd
    else if method_code = OT_COAP_CODE_GET then
      (led_state, led_send_response env p_message led_state)
    else
      (led_state, [])
  else
    (led_state, [])

end ot_srp_coap_led

namespace ot_srp_coap_led

open openthread

/-! ## Service registration -/

/-- Modelled from the spec: the device role returned by
`otThreadGetDeviceRole`; child, router and leader are the attached roles. -/
inductive otDeviceRole where
  | OT_DEVICE_ROLE_DISABLED
  | OT_DEVICE_ROLE_DETACHED
  | OT_DEVICE_ROLE_CHILD
  | OT_DEVICE_ROLE_ROUTER
  | OT_DEVICE_ROLE_LEADER
  deriving DecidableEq, Repr

open otDeviceRole

/-- Modelled from the spec: the bit of `otChangedFlags` that reports a change
of the device role, `1 << 2` in `openthread/instance.h`. -/
def OT_CHANGED_THREAD_ROLE : Nat := 4

/-- The global `HOST_NAME`. -/
def HOST_NAME : String := "ot-example"

/-- The global `SRP_INSTANCE_NAME`. -/
def SRP_INSTANCE_NAME : String := "ot-service"

/-- The global `SRP_SERVICE_NAME`. -/
def SRP_SERVICE_NAME : String := "_example._udp"

/-- Initial value of the global `bool is_srp_client_running = false;`. -/
def is_srp_client_running_init : Bool := false

/-- What the SRP client answers to the calls of one `init_srp`. -/
structure SrpEnv where
  otSrpClientSetHostName : Nat
  otSrpClientEnableAutoHostAddress : Nat
  otSrpClientBuffersAllocateService : Bool
  otSrpClientAddService : Nat
  deriving DecidableEq, Repr

/-- One step of `init_srp`: a call into the SRP client with its arguments and
result, or a write through the service entry; `entry` tells whether the entry
pointer used is a real entry (`true`) or `NULL` (`false`). -/
inductive SrpCall where
  | otSrpClientSetCallback
  | otSrpClientSetHostName (name : String) (error : Nat)
  | otSrpClientEnableAutoHostAddress (error : Nat)
  | otSrpClientBuffersAllocateService (allocated : Bool)
  | write_instance_name (entry : Bool) (name : String)
  | write_service_name (entry : Bool) (name : String)
  | write_port (entry : Bool) (port : Nat)
  | otSrpClientAddService (entry : Bool) (error : Nat)
  | otSrpClientEnableAutoStartMode
  deriving DecidableEq, Repr

/-- Embedding of `init_srp`: the value of the global `is_srp_client_running`
on exit, from its value on entry, and the steps made, in order.  After a failed
`otSrpClientBuffersAllocateService` the code logs an error and goes on with the
`NULL` entry. -/
def init_srp (env : SrpEnv) (is_srp_client_running : Bool) :
    Bool × List SrpCall :=
  let set_host := SrpCall.otSrpClientSetHostName HOST_NAME env.otSrpClientSetHostName
  if env.otSrpClientSetHostName ≠ OT_ERROR_NONE then
    (is_srp_client_running, [SrpCall.otSrpClientSetCallback, set_host])
  else
    let auto_host := SrpCall.otSrpClientEnableAutoHostAddress
      env.otSrpClientEnableAutoHostAddress
    if env.otSrpClientEnableAutoHostAddress ≠ OT_ERROR_NONE then
      (is_srp_client_running, [SrpCall.otSrpClientSetCallback, set_host, auto_host])
    else
      let entry := env.otSrpClientBuffersAllocateService
      let steps := [SrpCall.otSrpClientSetCallback, set_host, auto_host,
        SrpCall.otSrpClientBuffersAllocateService entry,
        SrpCall.write_instance_name entry SRP_INSTANCE_NAME,
        SrpCall.write_service_name entry SRP_SERVICE_NAME,
        SrpCall.write_port entry OT_DEFAULT_COAP_PORT,
        SrpCall.otSrpClientAddService entry env.otSrpClientAddService]
      if env.otSrpClientAddService ≠ OT_ERROR_NONE then
        (is_srp_client_running, steps)
      else
        (true, steps ++ [SrpCall.otSrpClientEnableAutoStartMode])

/-- Embedding of `on_thread_state_changed`: `flags` are the changed flags of
the notification, `role` what `otThreadGetDeviceRole` returns during it. -/
def on_thread_state_changed (flags : Nat) (role : otDeviceRole) (env : SrpEnv)
    (is_srp_client_running : Bool) : Bool × List SrpCall :=
  if flags &&& OT_CHANGED_THREAD_ROLE ≠ 0 then
    match role with
    | OT_DEVICE_ROLE_CHILD | OT_DEVICE_ROLE_ROUTER | OT_DEVICE_ROLE_LEADER =>
        if !is_srp_client_running then init_srp env is_srp_client_running
        else (is_srp_client_running, [])
    | _ => (is_srp_client_running, [])
  else (is_srp_client_running, [])

/-- One state-change notification: its flags, the device role during it, and
what the SRP client answers if `init_srp` runs. -/
structure Notification where
  flags : Nat
  role : otDeviceRole
  env : SrpEnv
  deriving DecidableEq, Repr

/-- The callback run on a sequence of notifications: for each notification, in
order, the steps it caused; and the final value of `is_srp_client_running`. -/
def notify (is_srp_client_running : Bool) :
    List Notification → Bool × List (List SrpCall)
  | [] => (is_srp_client_running, [])
  | n :: ns =>
      let r := on_thread_state_changed n.flags n.role n.env is_srp_client_running
      let rs := notify r.1 ns
      (rs.1, r.2 :: rs.2)

/-- Number of successful registrations of the service in a trace of steps: the
`otSrpClientAddService` calls that returned `OT_ERROR_NONE`. -/
def registrations : List SrpCall → Nat
  | [] => 0
  | SrpCall.otSrpClientAddService _ e :: rest =>
      (if e = OT_ERROR_NONE then 1 else 0) + registrations rest
  | _ :: rest => registrations rest

/-- Every call of one `init_srp` that is checked succeeds. -/
def SrpEnv.ok (env : SrpEnv) : Prop :=
  env.otSrpClientSetHostName = OT_ERROR_NONE ∧
  env.otSrpClientEnableAutoHostAddress = OT_ERROR_NONE ∧
  env.otSrpClientAddService = OT_ERROR_NONE

instance (env : SrpEnv) : Decidable env.ok := by
  unfold SrpEnv.ok; infer_instance

/-- Every call of one `init_srp` succeeds, the allocation of the service entry
included. -/
def SrpEnv.all_succeed (env : SrpEnv) : Prop :=
  env.otSrpClientSetHostName = OT_ERROR_NONE ∧
  env.otSrpClientEnableAutoHostAddress = OT_ERROR_NONE ∧
  env.otSrpClientBuffersAllocateService = true ∧
  env.otSrpClientAddService = OT_ERROR_NONE

instance (env : SrpEnv) : Decidable env.all_succeed := by
  unfold SrpEnv.all_succeed; infer_instance

/-- The attached roles. -/
def otDeviceRole.attached : otDeviceRole → Bool
  | OT_DEVICE_ROLE_CHILD => true
  | OT_DEVICE_ROLE_ROUTER => true
  | OT_DEVICE_ROLE_LEADER => true
  | _ => false

/-- An SRP client on which every call succeeds. -/
def srp_env_ok : SrpEnv := ⟨0, 0, true, 0⟩

end ot_srp_coap_led

namespace ot_coap_button

open openthread
open ot_coap_bme280 (CoapRequest)

/-- A stack on which every call of `send_led_request` succeeds. -/
def button_env_ok : ButtonEnv := ⟨true, 0, 0, 0, 0⟩

/-- A stack on which every call of a secured `send_led_request` succeeds. -/
def secure_request_env_ok : SecureRequestEnv := ⟨true, 0, 0, 0, 0⟩

/-- The request as the LED handler reads it once the transport has delivered
it: its type, its code, and its payload bytes. -/
def delivered (message : CoapRequest) : ot_coap_led.Request :=
  ⟨message.type, message.code, message.payload.map Char.toNat⟩

end ot_coap_button


/-! # Theorems -/

namespace ot_coap_led

open openthread
open openthread.otCoapType

/-! ## Helper lemmas -/

/-- The numeric values of the CoAP codes used by the handler. -/
theorem code_values :
    OT_COAP_CODE_GET = 1 ∧ OT_COAP_CODE_PUT = 3 ∧
    OT_COAP_CODE_CHANGED = 68 ∧ OT_COAP_CODE_CONTENT = 69 := by
  decide

theorem emitted_append (xs ys : List Effect) :
    emitted (xs ++ ys) = emitted xs ++ emitted ys := by
  induction xs with
  | nil => rfl
  | cons x xs ih =>
    cases x <;> simp [emitted, ih]
    split <;> simp

/-- The responses emitted by one `led_send_response`: the one derived from the
request when every stack call succeeds and the request is supported, none
otherwise. -/
theorem emitted_led_send_response (env : StackEnv) (req : Request) (s : Int) :
    emitted (led_send_response env req s) =
      if env.ok ∧ (req.type = OT_COAP_TYPE_CONFIRMABLE ∨
          req.type = OT_COAP_TYPE_NON_CONFIRMABLE) ∧
          (req.code = OT_COAP_CODE_GET ∨ req.code = OT_COAP_CODE_PUT) then
        [⟨if req.type = OT_COAP_TYPE_CONFIRMABLE then OT_COAP_TYPE_ACKNOWLEDGMENT
            else OT_COAP_TYPE_NON_CONFIRMABLE,
          if req.code = OT_COAP_CODE_GET then OT_COAP_CODE_CONTENT
            else OT_COAP_CODE_CHANGED,
          [state_byte s]⟩]
      else [] := by
  obtain ⟨a, e1, e2, e3, e4⟩ := env
  obtain ⟨t, c, p⟩ := req
  have hpg : OT_COAP_CODE_PUT ≠ OT_COAP_CODE_GET := by decide
  cases a <;> cases t <;>
    by_cases h1 : c = OT_COAP_CODE_GET <;>
    by_cases h2 : c = OT_COAP_CODE_PUT <;>
    by_cases k1 : e1 = OT_ERROR_NONE <;>
    by_cases k2 : e2 = OT_ERROR_NONE <;>
    by_cases k3 : e3 = OT_ERROR_NONE <;>
    by_cases k4 : e4 = OT_ERROR_NONE <;>
    simp [led_send_response, emitted, StackEnv.ok, h1, h2, k1, k2, k3, k4, hpg]

/-- The state after one `led_requested`, as a function of the request, the
prior content of `buf[0]` and the prior state. -/
theorem led_requested_state (env : StackEnv) (buf0 : Nat) (req : Request) (s : Int) :
    (led_requested env buf0 req s).1 =
      if (req.type = OT_COAP_TYPE_CONFIRMABLE ∨ req.type = OT_COAP_TYPE_NON_CONFIRMABLE) ∧
          req.code = OT_COAP_CODE_PUT then
        if otMessageRead req buf0 = '0'.toNat then 0
        else if otMessageRead req buf0 = '1'.toNat then 1
        else if otMessageRead req buf0 = '2'.toNat then 1 - s
        else s
      else s := by
  unfold led_requested
  simp only []
  split_ifs <;> simp_all

/-- The state stays in `{0, 1}` across one `led_requested`. -/
theorem led_requested_state_bit (env : StackEnv) (buf0 : Nat) (req : Request) (s : Int)
    (hs : s = 0 ∨ s = 1) :
    (led_requested env buf0 req s).1 = 0 ∨ (led_requested env buf0 req s).1 = 1 := by
  rw [led_requested_state]
  split_ifs <;> omega

/-- The responses emitted by one `led_requested`. -/
theorem emitted_led_requested (env : StackEnv) (buf0 : Nat) (req : Request) (s : Int) :
    emitted (led_requested env buf0 req s).2 =
      if env.ok ∧ ((req.type = OT_COAP_TYPE_CONFIRMABLE ∧
            (req.code = OT_COAP_CODE_GET ∨ req.code = OT_COAP_CODE_PUT)) ∨
          (req.type = OT_COAP_TYPE_NON_CONFIRMABLE ∧ req.code = OT_COAP_CODE_GET)) then
        [⟨if req.type = OT_COAP_TYPE_CONFIRMABLE then OT_COAP_TYPE_ACKNOWLEDGMENT
            else OT_COAP_TYPE_NON_CONFIRMABLE,
          if req.code = OT_COAP_CODE_GET then OT_COAP_CODE_CONTENT
            else OT_COAP_CODE_CHANGED,
          [state_byte (led_requested env buf0 req s).1]⟩]
      else [] := by
  have hpg : OT_COAP_CODE_PUT ≠ OT_COAP_CODE_GET := by decide
  have hgp : OT_COAP_CODE_GET ≠ OT_COAP_CODE_PUT := by decide
  obtain ⟨t, c, p⟩ := req
  by_cases h1 : c = OT_COAP_CODE_GET <;> by_cases h2 : c = OT_COAP_CODE_PUT <;>
    by_cases hk : env.ok <;> cases t <;>
    simp [led_requested, emitted_append, emitted_led_send_response, emitted,
      h1, h2, hk, hpg, hgp] <;>
    split_ifs <;> simp [emitted]

theorem otMessageRead_head (req : Request) (buf0 b : Nat)
    (h : req.payload.head? = some b) : otMessageRead req buf0 = b := by
  unfold otMessageRead
  cases hp : req.payload with
  | nil => simp [hp] at h
  | cons x xs => simpa [hp] using h

theorem led_commands_append (xs ys : List Effect) :
    led_commands (xs ++ ys) = led_commands xs ++ led_commands ys := by
  induction xs with
  | nil => rfl
  | cons x xs ih => cases x <;> simp [led_commands, ih]

/-- `led_send_response` gives no command to the LED output. -/
theorem led_commands_led_send_response (env : StackEnv) (req : Request) (s : Int) :
    led_commands (led_send_response env req s) = [] := by
  obtain ⟨a, e1, e2, e3, e4⟩ := env
  obtain ⟨t, c, p⟩ := req
  cases a <;> cases t <;>
    by_cases h1 : c = OT_COAP_CODE_GET <;>
    by_cases h2 : c = OT_COAP_CODE_PUT <;>
    by_cases k1 : e1 = OT_ERROR_NONE <;>
    by_cases k2 : e2 = OT_ERROR_NONE <;>
    by_cases k3 : e3 = OT_ERROR_NONE <;>
    by_cases k4 : e4 = OT_ERROR_NONE <;>
    simp [led_send_response, led_commands, h1, h2, k1, k2, k3, k4]

/-- The LED commands of one `led_requested`. -/
theorem led_commands_led_requested (env : StackEnv) (buf0 : Nat) (req : Request)
    (s : Int) :
    led_commands (led_requested env buf0 req s).2 =
      if (req.type = OT_COAP_TYPE_CONFIRMABLE ∨ req.type = OT_COAP_TYPE_NON_CONFIRMABLE) ∧
          req.code = OT_COAP_CODE_PUT then
        if otMessageRead req buf0 = '0'.toNat then [Effect.gpio_pin_set_dt 0]
        else if otMessageRead req buf0 = '1'.toNat then [Effect.gpio_pin_set_dt 1]
        else if otMessageRead req buf0 = '2'.toNat then [Effect.gpio_pin_toggle_dt]
        else []
      else [] := by
  unfold led_requested
  simp only []
  split_ifs <;>
    simp_all [led_commands, led_commands_append, led_commands_led_send_response]

/-- Every `otMessageAppend` of one `led_send_response` carries the single byte
`state_byte s`. -/
theorem append_led_send_response (env : StackEnv) (req : Request) (s : Int)
    (bytes : List Nat) (err : Nat)
    (h : Effect.otMessageAppend bytes err ∈ led_send_response env req s) :
    bytes = [state_byte s] := by
  obtain ⟨a, e1, e2, e3, e4⟩ := env
  obtain ⟨t, c, p⟩ := req
  have hpg : OT_COAP_CODE_PUT ≠ OT_COAP_CODE_GET := by decide
  revert h
  cases a <;> cases t <;>
    by_cases h1 : c = OT_COAP_CODE_GET <;>
    by_cases h2 : c = OT_COAP_CODE_PUT <;>
    by_cases k1 : e1 = OT_ERROR_NONE <;>
    by_cases k2 : e2 = OT_ERROR_NONE <;>
    by_cases k3 : e3 = OT_ERROR_NONE <;>
    by_cases k4 : e4 = OT_ERROR_NONE <;>
    simp [led_send_response, h1, h2, k1, k2, k3, k4, hpg] <;>
    intros <;> assumption

theorem state_byte_bit (s : Int) (hs : s = 0 ∨ s = 1) :
    (s = 0 ∧ state_byte s = '0'.toNat) ∨ (s = 1 ∧ state_byte s = '1'.toNat) := by
  rcases hs with h | h <;> subst h <;> decide

/-- Every `otMessageAppend` of one `led_requested` carries the single byte of
the state on exit. -/
theorem append_led_requested (env : StackEnv) (buf0 : Nat) (req : Request) (s : Int)
    (bytes : List Nat) (err : Nat)
    (h : Effect.otMessageAppend bytes err ∈ (led_requested env buf0 req s).2) :
    bytes = [state_byte (led_requested env buf0 req s).1] := by
  unfold led_requested at h ⊢
  simp only [] at h ⊢
  split_ifs at h ⊢ <;> simp at h <;>
    exact append_led_send_response _ _ _ _ _ h

/-- Every response emitted by one `led_requested` carries the single byte of
the state on exit. -/
theorem emitted_led_requested_payload (env : StackEnv) (buf0 : Nat) (req : Request)
    (s : Int) (m : CoapMessage) (hm : m ∈ emitted (led_requested env buf0 req s).2) :
    m.payload = [state_byte (led_requested env buf0 req s).1] := by
  rw [emitted_led_requested] at hm
  by_cases hc : env.ok ∧ ((req.type = OT_COAP_TYPE_CONFIRMABLE ∧
            (req.code = OT_COAP_CODE_GET ∨ req.code = OT_COAP_CODE_PUT)) ∨
          (req.type = OT_COAP_TYPE_NON_CONFIRMABLE ∧ req.code = OT_COAP_CODE_GET))
  · rw [if_pos hc, List.mem_singleton] at hm
    rw [hm]
  · rw [if_neg hc] at hm
    exact absurd hm (List.not_mem_nil _)

/-- From a state in `{0, 1}`, any sequence of deliveries ends in a state in
`{0, 1}`, every appended payload is the single byte `'0'` or `'1'`, and so is
the payload of every emitted response. -/
theorem run_invariant (ds : List Delivery) :
    ∀ s : Int, (s = 0 ∨ s = 1) →
      ((run s ds).1 = 0 ∨ (run s ds).1 = 1) ∧
      (∀ bytes err, Effect.otMessageAppend bytes err ∈ (run s ds).2 →
        bytes = ['0'.toNat] ∨ bytes = ['1'.toNat]) ∧
      (∀ m ∈ emitted (run s ds).2,
        m.payload = ['0'.toNat] ∨ m.payload = ['1'.toNat]) := by
  induction ds with
  | nil => intro s hs; simp [run, emitted, hs]
  | cons d ds ih =>
    intro s hs
    have hbit := led_requested_state_bit d.env d.buf0 d.message s hs
    obtain ⟨ih1, ih2, ih3⟩ := ih _ hbit
    have hb := state_byte_bit _ hbit
    refine ⟨by simpa [run] using ih1, ?_, ?_⟩
    · intro bytes err hmem
      simp only [run, List.mem_append] at hmem
      rcases hmem with hmem | hmem
      · rw [append_led_requested _ _ _ _ _ _ hmem]
        rcases hb with ⟨_, h⟩ | ⟨_, h⟩ <;> simp [h]
      · exact ih2 bytes err hmem
    · intro m hm
      simp only [run, emitted_append, List.mem_append] at hm
      rcases hm with hm | hm
      · rw [emitted_led_requested_payload _ _ _ _ _ hm]
        rcases hb with ⟨_, h⟩ | ⟨_, h⟩ <;> simp [h]
      · exact ih3 m hm

/-- A sequence of GET deliveries leaves the state unchanged and every emitted
response carries the byte of that state. -/
theorem run_get (ds : List Delivery) (s : Int)
    (hget : ∀ d ∈ ds, d.message.code = OT_COAP_CODE_GET) :
    (run s ds).1 = s ∧
    (∀ m ∈ emitted (run s ds).2, m.payload = [state_byte s]) := by
  have hgp : OT_COAP_CODE_GET ≠ OT_COAP_CODE_PUT := by decide
  induction ds with
  | nil => simp [run, emitted]
  | cons d ds ih =>
    have hd : d.message.code = OT_COAP_CODE_GET := hget d (List.mem_cons_self _ _)
    have hst : (led_requested d.env d.buf0 d.message s).1 = s := by
      rw [led_requested_state]; simp [hd, hgp]
    obtain ⟨ih1, ih2⟩ := ih (fun x hx => hget x (List.mem_cons_of_mem _ hx))
    refine ⟨by simp [run, hst, ih1], ?_⟩
    intro m hm
    simp only [run, emitted_append, List.mem_append, hst] at hm
    rcases hm with hm | hm
    · rw [emitted_led_requested_payload _ _ _ _ _ hm, hst]
    · exact ih2 m hm

/-- With a working stack, each GET delivery of type Confirmable or
NonConfirmable is answered, all with the same payload. -/
theorem run_get_payloads (ds : List Delivery) (s : Int)
    (hget : ∀ d ∈ ds, d.message.code = OT_COAP_CODE_GET ∧
      (d.message.type = OT_COAP_TYPE_CONFIRMABLE ∨
        d.message.type = OT_COAP_TYPE_NON_CONFIRMABLE) ∧ d.env.ok) :
    (emitted (run s ds).2).map (fun m => m.payload) =
      List.replicate ds.length [state_byte s] := by
  have hgp : OT_COAP_CODE_GET ≠ OT_COAP_CODE_PUT := by decide
  induction ds with
  | nil => simp [run, emitted]
  | cons d ds ih =>
    obtain ⟨hd, ht, hk⟩ := hget d (List.mem_cons_self _ _)
    have hst : (led_requested d.env d.buf0 d.message s).1 = s := by
      rw [led_requested_state]; simp [hd, hgp]
    have ih1 := ih (fun x hx => hget x (List.mem_cons_of_mem _ hx))
    simp only [run, emitted_append, List.map_append, hst, ih1, List.length_cons,
      List.replicate_succ]
    rw [emitted_led_requested, hst]
    rcases ht with ht | ht <;> simp [hd, ht, hk]

/-- Type, code and payload of a response emitted by `led_send_response`. -/
theorem emitted_led_send_response_mem (env : StackEnv) (req : Request) (s : Int)
    (m : CoapMessage) (hm : m ∈ emitted (led_send_response env req s)) :
    m = ⟨if req.type = OT_COAP_TYPE_CONFIRMABLE then OT_COAP_TYPE_ACKNOWLEDGMENT
            else OT_COAP_TYPE_NON_CONFIRMABLE,
          if req.code = OT_COAP_CODE_GET then OT_COAP_CODE_CONTENT
            else OT_COAP_CODE_CHANGED,
          [state_byte s]⟩ := by
  rw [emitted_led_send_response] at hm
  by_cases hc : env.ok ∧ (req.type = OT_COAP_TYPE_CONFIRMABLE ∨
          req.type = OT_COAP_TYPE_NON_CONFIRMABLE) ∧
          (req.code = OT_COAP_CODE_GET ∨ req.code = OT_COAP_CODE_PUT)
  · rw [if_pos hc, List.mem_singleton] at hm
    exact hm
  · rw [if_neg hc] at hm
    exact absurd hm (List.not_mem_nil _)

/-- State and LED commands after a PUT of type Confirmable or NonConfirmable
whose first payload byte is `b`. -/
theorem led_requested_put (env : StackEnv) (buf0 : Nat) (req : Request)
    (s : Int) (b : Nat)
    (ht : req.type = OT_COAP_TYPE_CONFIRMABLE ∨ req.type = OT_COAP_TYPE_NON_CONFIRMABLE)
    (hc : req.code = OT_COAP_CODE_PUT)
    (hb : req.payload.head? = some b) :
    (led_requested env buf0 req s).1 =
      (if b = '0'.toNat then 0 else if b = '1'.toNat then 1
        else if b = '2'.toNat then 1 - s else s) ∧
    led_commands (led_requested env buf0 req s).2 =
      (if b = '0'.toNat then [Effect.gpio_pin_set_dt 0]
        else if b = '1'.toNat then [Effect.gpio_pin_set_dt 1]
        else if b = '2'.toNat then [Effect.gpio_pin_toggle_dt] else []) := by
  have hr := otMessageRead_head req buf0 b hb
  have hcond : (req.type = OT_COAP_TYPE_CONFIRMABLE ∨
      req.type = OT_COAP_TYPE_NON_CONFIRMABLE) ∧ req.code = OT_COAP_CODE_PUT := ⟨ht, hc⟩
  rw [led_requested_state, led_commands_led_requested, hr, if_pos hcond, if_pos hcond]
  exact ⟨rfl, rfl⟩

/-! ## Response derivation -/

/-- C1: response derivation in `led_send_response`, once the response message
is allocated.  For a request of type Confirmable or NonConfirmable with code GET
or PUT, `otCoapMessageInitResponse` is called with type Acknowledgment
(Confirmable request) or NonConfirmable (NonConfirmable request) and code
Content 2.05 (GET) or Changed 2.04 (PUT), and every response sent has that type
and code.  For a request of type Acknowledgment or Reset, or with any other
code, the calls are exactly: allocate, free; no response is initialised or
sent. -/
theorem led_send_response_derivation (env : StackEnv) (req : Request) (s : Int)
    (halloc : env.otCoapNewMessage = true) :
    (∀ t c,
      (req.type = OT_COAP_TYPE_CONFIRMABLE ∧ t = OT_COAP_TYPE_ACKNOWLEDGMENT ∨
        req.type = OT_COAP_TYPE_NON_CONFIRMABLE ∧ t = OT_COAP_TYPE_NON_CONFIRMABLE) →
      (req.code = OT_COAP_CODE_GET ∧ c = OT_COAP_CODE 2 5 ∨
        req.code = OT_COAP_CODE_PUT ∧ c = OT_COAP_CODE 2 4) →
      (∃ rest, led_send_response env req s =
        Effect.otCoapNewMessage true ::
          Effect.otCoapMessageInitResponse t c env.otCoapMessageInitResponse :: rest) ∧
      (∀ m ∈ emitted (led_send_response env req s), m.type = t ∧ m.code = c)) ∧
    ((req.type = OT_COAP_TYPE_ACKNOWLEDGMENT ∨ req.type = OT_COAP_TYPE_RESET ∨
        (req.code ≠ OT_COAP_CODE_GET ∧ req.code ≠ OT_COAP_CODE_PUT)) →
      led_send_response env req s =
        [Effect.otCoapNewMessage true, Effect.otMessageFree]) := by
  obtain ⟨a, e1, e2, e3, e4⟩ := env
  obtain ⟨ty, co, p⟩ := req
  have hpg : OT_COAP_CODE_PUT ≠ OT_COAP_CODE_GET := by decide
  simp only at halloc
  subst halloc
  refine ⟨?_, ?_⟩
  · intro t c ht hc
    refine ⟨?_, ?_⟩
    · rcases ht with ⟨h, rfl⟩ | ⟨h, rfl⟩ <;> rcases hc with ⟨h', rfl⟩ | ⟨h', rfl⟩ <;>
        simp only at h h' <;> subst h h' <;>
        by_cases k1 : e1 = OT_ERROR_NONE <;>
        by_cases k2 : e2 = OT_ERROR_NONE <;>
        by_cases k3 : e3 = OT_ERROR_NONE <;>
        by_cases k4 : e4 = OT_ERROR_NONE <;>
        simp [led_send_response, k1, k2, k3, k4, hpg, OT_COAP_CODE_CONTENT,
          OT_COAP_CODE_CHANGED]
    · intro m hm
      rw [emitted_led_send_response_mem _ _ _ _ hm]
      rcases ht with ⟨h, rfl⟩ | ⟨h, rfl⟩ <;> rcases hc with ⟨h', rfl⟩ | ⟨h', rfl⟩ <;>
        simp only at h h' <;> subst h h' <;>
        simp [hpg, OT_COAP_CODE_CONTENT, OT_COAP_CODE_CHANGED]
  · intro h
    rcases h with h | h | ⟨h1, h2⟩
    · simp only at h; subst h; simp [led_send_response]
    · simp only at h; subst h; simp [led_send_response]
    · simp only at h1 h2
      cases ty <;> simp [led_send_response, h1, h2]

/-- Witness for C1: a Confirmable GET on a working stack, prior state 0. -/
theorem led_send_response_derivation_witness :
    env_ok.otCoapNewMessage = true ∧
    (∃ rest, led_send_response env_ok ⟨OT_COAP_TYPE_CONFIRMABLE, OT_COAP_CODE_GET, []⟩ 0 =
      Effect.otCoapNewMessage true ::
        Effect.otCoapMessageInitResponse OT_COAP_TYPE_ACKNOWLEDGMENT (OT_COAP_CODE 2 5)
          env_ok.otCoapMessageInitResponse :: rest) :=
  ⟨rfl, ((led_send_response_derivation env_ok
    ⟨OT_COAP_TYPE_CONFIRMABLE, OT_COAP_CODE_GET, []⟩ 0 rfl).1
      OT_COAP_TYPE_ACKNOWLEDGMENT (OT_COAP_CODE 2 5)
      (Or.inl ⟨rfl, rfl⟩) (Or.inl ⟨rfl, rfl⟩)).1⟩

/-! ## Response policy of the handler -/

/-- C2, as stated, fails: with every stack call succeeding, a Confirmable
message whose code is POST (0.02) makes `led_requested` do nothing at all, and so
does a GET whose message type is Reset or Acknowledgment; neither is answered. -/
theorem led_requested_policy_counterexample :
    env_ok.ok ∧
    led_requested env_ok 0 ⟨OT_COAP_TYPE_CONFIRMABLE, OT_COAP_CODE 0 2, ['1'.toNat]⟩ 0
      = (0, []) ∧
    led_requested env_ok 0 ⟨OT_COAP_TYPE_RESET, OT_COAP_CODE_GET, []⟩ 0 = (0, []) ∧
    led_requested env_ok 0 ⟨OT_COAP_TYPE_ACKNOWLEDGMENT, OT_COAP_CODE_GET, []⟩ 0
      = (0, []) := by
  decide

/-- C2, amended: `led_requested` emits at most one response, and it emits one
exactly when every stack call of `led_send_response` succeeds and either the
message is Confirmable with code GET or PUT, or it is NonConfirmable with code
GET.  So a NonConfirmable PUT is never answered, and neither is a message of
another type (Acknowledgment, Reset) or with another code. -/
theorem led_requested_response_policy (env : StackEnv) (buf0 : Nat) (req : Request)
    (s : Int) :
    (emitted (led_requested env buf0 req s).2).length ≤ 1 ∧
    (emitted (led_requested env buf0 req s).2 ≠ [] ↔
      env.ok ∧
      ((req.type = OT_COAP_TYPE_CONFIRMABLE ∧
          (req.code = OT_COAP_CODE_GET ∨ req.code = OT_COAP_CODE_PUT)) ∨
        (req.type = OT_COAP_TYPE_NON_CONFIRMABLE ∧ req.code = OT_COAP_CODE_GET))) ∧
    (req.type = OT_COAP_TYPE_NON_CONFIRMABLE → req.code = OT_COAP_CODE_PUT →
      emitted (led_requested env buf0 req s).2 = []) := by
  have hpg : OT_COAP_CODE_PUT ≠ OT_COAP_CODE_GET := by decide
  rw [emitted_led_requested]
  by_cases hc : env.ok ∧ ((req.type = OT_COAP_TYPE_CONFIRMABLE ∧
            (req.code = OT_COAP_CODE_GET ∨ req.code = OT_COAP_CODE_PUT)) ∨
          (req.type = OT_COAP_TYPE_NON_CONFIRMABLE ∧ req.code = OT_COAP_CODE_GET))
  · rw [if_pos hc]
    refine ⟨by simp, by simp [hc], ?_⟩
    intro ht hp
    rcases hc.2 with ⟨h, _⟩ | ⟨_, h⟩
    · rw [ht] at h; exact absurd h (by decide)
    · rw [hp] at h; exact absurd h hpg
  · rw [if_neg hc]
    exact ⟨by simp, by simp [hc], fun _ _ => rfl⟩

/-! ## Actuator control -/

/-- C3: actuator control semantics of `led_requested`.  For a PUT of type
Confirmable or NonConfirmable whose first payload byte is `b`, from any prior
state `s`: `'0'` gives state 0 and the command set-to-0, `'1'` gives state 1 and
the command set-to-1, `'2'` gives state `1 - s` and the command toggle; these
are the only commands given to the LED output. -/
theorem led_requested_put_semantics (env : StackEnv) (buf0 : Nat) (req : Request)
    (s : Int) (b : Nat)
    (ht : req.type = OT_COAP_TYPE_CONFIRMABLE ∨ req.type = OT_COAP_TYPE_NON_CONFIRMABLE)
    (hc : req.code = OT_COAP_CODE_PUT)
    (hb : req.payload.head? = some b) :
    (b = '0'.toNat →
      (led_requested env buf0 req s).1 = 0 ∧
      led_commands (led_requested env buf0 req s).2 = [Effect.gpio_pin_set_dt 0]) ∧
    (b = '1'.toNat →
      (led_requested env buf0 req s).1 = 1 ∧
      led_commands (led_requested env buf0 req s).2 = [Effect.gpio_pin_set_dt 1]) ∧
    (b = '2'.toNat →
      (led_requested env buf0 req s).1 = 1 - s ∧
      led_commands (led_requested env buf0 req s).2 = [Effect.gpio_pin_toggle_dt]) := by
  have h01 : ¬ ('1'.toNat = '0'.toNat) := by decide
  have h02 : ¬ ('2'.toNat = '0'.toNat) := by decide
  have h12 : ¬ ('2'.toNat = '1'.toNat) := by decide
  obtain ⟨hst, hcmd⟩ := led_requested_put env buf0 req s b ht hc hb
  rw [hst, hcmd]
  refine ⟨?_, ?_, ?_⟩ <;> intro h <;> subst h
  · rw [if_pos rfl, if_pos rfl]; exact ⟨rfl, rfl⟩
  · rw [if_neg h01, if_pos rfl, if_neg h01, if_pos rfl]; exact ⟨rfl, rfl⟩
  · rw [if_neg h02, if_neg h12, if_pos rfl, if_neg h02, if_neg h12, if_pos rfl]
    exact ⟨rfl, rfl⟩

/-- Witness for C3: a NonConfirmable PUT `'2'` from state 1. -/
theorem led_requested_put_semantics_witness :
    (led_requested env_ok 0 ⟨OT_COAP_TYPE_NON_CONFIRMABLE, OT_COAP_CODE_PUT, ['2'.toNat]⟩ 1).1
      = 1 - 1 ∧
    led_commands
      (led_requested env_ok 0 ⟨OT_COAP_TYPE_NON_CONFIRMABLE, OT_COAP_CODE_PUT, ['2'.toNat]⟩ 1).2
      = [Effect.gpio_pin_toggle_dt] :=
  (led_requested_put_semantics env_ok 0
    ⟨OT_COAP_TYPE_NON_CONFIRMABLE, OT_COAP_CODE_PUT, ['2'.toNat]⟩ 1 '2'.toNat
    (Or.inr rfl) rfl rfl).2.2 rfl

/-- C4: toggle law.  From any state `s` (in particular the reachable states 0
and 1), handling two successive PUT requests of type Confirmable or
NonConfirmable whose payload byte is `'2'` leaves `led_state` equal to `s`. -/
theorem led_requested_toggle_twice (d1 d2 : Delivery) (s : Int)
    (ht1 : d1.message.type = OT_COAP_TYPE_CONFIRMABLE ∨
      d1.message.type = OT_COAP_TYPE_NON_CONFIRMABLE)
    (hc1 : d1.message.code = OT_COAP_CODE_PUT)
    (hb1 : d1.message.payload.head? = some '2'.toNat)
    (ht2 : d2.message.type = OT_COAP_TYPE_CONFIRMABLE ∨
      d2.message.type = OT_COAP_TYPE_NON_CONFIRMABLE)
    (hc2 : d2.message.code = OT_COAP_CODE_PUT)
    (hb2 : d2.message.payload.head? = some '2'.toNat) :
    (run s [d1, d2]).1 = s := by
  have h02 : ¬ ('2'.toNat = '0'.toNat) := by decide
  have h12 : ¬ ('2'.toNat = '1'.toNat) := by decide
  have h1 := (led_requested_put d1.env d1.buf0 d1.message s _ ht1 hc1 hb1).1
  have h2 := (led_requested_put d2.env d2.buf0 d2.message (1 - s) _ ht2 hc2 hb2).1
  rw [if_neg h02, if_neg h12, if_pos rfl] at h1 h2
  simp only [run, h1, h2]
  omega

/-- Witness for C4: a Confirmable then a NonConfirmable PUT `'2'`, from state 1. -/
theorem led_requested_toggle_twice_witness :
    (run 1 [⟨env_ok, 0, ⟨OT_COAP_TYPE_CONFIRMABLE, OT_COAP_CODE_PUT, ['2'.toNat]⟩⟩,
      ⟨env_ok, 0, ⟨OT_COAP_TYPE_NON_CONFIRMABLE, OT_COAP_CODE_PUT, ['2'.toNat]⟩⟩]).1 = 1 :=
  led_requested_toggle_twice
    ⟨env_ok, 0, ⟨OT_COAP_TYPE_CONFIRMABLE, OT_COAP_CODE_PUT, ['2'.toNat]⟩⟩
    ⟨env_ok, 0, ⟨OT_COAP_TYPE_NON_CONFIRMABLE, OT_COAP_CODE_PUT, ['2'.toNat]⟩⟩ 1
    (Or.inl rfl) rfl rfl (Or.inr rfl) rfl rfl

/-! ## GET -/

/-- C5: GET idempotence.  A GET request of type Confirmable or NonConfirmable
leaves `led_state` equal to the prior state `s`, and every response it emits
carries the single byte `state_byte s`, a function of `s` alone.  Hence after
any number of successive such GET requests the state is still `s`, every
response emitted carries that same single byte, and when the stack calls
succeed there is one such response for each request. -/
theorem led_requested_get_idempotent (ds : List Delivery) (s : Int)
    (hget : ∀ d ∈ ds, d.message.code = OT_COAP_CODE_GET ∧
      (d.message.type = OT_COAP_TYPE_CONFIRMABLE ∨
        d.message.type = OT_COAP_TYPE_NON_CONFIRMABLE)) :
    (∀ d ∈ ds,
      (led_requested d.env d.buf0 d.message s).1 = s ∧
      ∀ m ∈ emitted (led_requested d.env d.buf0 d.message s).2,
        m.payload = [state_byte s]) ∧
    (run s ds).1 = s ∧
    (∀ m ∈ emitted (run s ds).2, m.payload = [state_byte s]) ∧
    ((∀ d ∈ ds, d.env.ok) →
      (emitted (run s ds).2).map (fun m => m.payload) =
        List.replicate ds.length [state_byte s]) := by
  have hgp : OT_COAP_CODE_GET ≠ OT_COAP_CODE_PUT := by decide
  have hrun := run_get ds s (fun d hd => (hget d hd).1)
  refine ⟨?_, hrun.1, hrun.2, ?_⟩
  · intro d hd
    have hst : (led_requested d.env d.buf0 d.message s).1 = s := by
      rw [led_requested_state]; simp [(hget d hd).1, hgp]
    refine ⟨hst, ?_⟩
    intro m hm
    rw [emitted_led_requested_payload _ _ _ _ _ hm, hst]
  · intro hok
    exact run_get_payloads ds s (fun d hd => ⟨(hget d hd).1, (hget d hd).2, hok d hd⟩)

/-- Witness for C5: three GET requests in state 1 on a working stack all return
the byte `'1'`. -/
theorem led_requested_get_idempotent_witness :
    (run 1 [⟨env_ok, 0, ⟨OT_COAP_TYPE_CONFIRMABLE, OT_COAP_CODE_GET, []⟩⟩,
        ⟨env_ok, 7, ⟨OT_COAP_TYPE_NON_CONFIRMABLE, OT_COAP_CODE_GET, []⟩⟩,
        ⟨env_ok, 0, ⟨OT_COAP_TYPE_CONFIRMABLE, OT_COAP_CODE_GET, []⟩⟩]).1 = 1 ∧
    (emitted (run 1 [⟨env_ok, 0, ⟨OT_COAP_TYPE_CONFIRMABLE, OT_COAP_CODE_GET, []⟩⟩,
        ⟨env_ok, 7, ⟨OT_COAP_TYPE_NON_CONFIRMABLE, OT_COAP_CODE_GET, []⟩⟩,
        ⟨env_ok, 0, ⟨OT_COAP_TYPE_CONFIRMABLE, OT_COAP_CODE_GET, []⟩⟩]).2).map
      (fun m => m.payload) = [['1'.toNat], ['1'.toNat], ['1'.toNat]] :=
  have h := led_requested_get_idempotent
    [⟨env_ok, 0, ⟨OT_COAP_TYPE_CONFIRMABLE, OT_COAP_CODE_GET, []⟩⟩,
      ⟨env_ok, 7, ⟨OT_COAP_TYPE_NON_CONFIRMABLE, OT_COAP_CODE_GET, []⟩⟩,
      ⟨env_ok, 0, ⟨OT_COAP_TYPE_CONFIRMABLE, OT_COAP_CODE_GET, []⟩⟩] 1 (by decide)
  ⟨h.2.1, h.2.2.2 (by decide)⟩

/-! ## Response payload invariant -/

/-- C6: response payload invariant.  Starting from the initial state
`led_state = 0`, after any finite sequence of inbound messages handled by
`led_requested` (whatever the stack answers and whatever the local buffer held),
`led_state` is 0 or 1; every payload appended to a response is exactly one byte,
the ASCII digit `'0'` (0x30) or `'1'` (0x31), and so is the payload of every
response emitted; it is never `'2'`. -/
theorem led_state_response_invariant (ds : List Delivery) :
    ((run led_state_init ds).1 = 0 ∨ (run led_state_init ds).1 = 1) ∧
    (∀ bytes err, Effect.otMessageAppend bytes err ∈ (run led_state_init ds).2 →
      bytes = [0x30] ∨ bytes = [0x31]) ∧
    (∀ m ∈ emitted (run led_state_init ds).2,
      (m.payload = ['0'.toNat] ∨ m.payload = ['1'.toNat]) ∧
      m.payload.length = 1 ∧ m.payload ≠ ['2'.toNat]) := by
  obtain ⟨h1, h2, h3⟩ := run_invariant ds led_state_init (Or.inl rfl)
  refine ⟨h1, h2, ?_⟩
  intro m hm
  have h := h3 m hm
  refine ⟨h, ?_, ?_⟩
  · rcases h with h | h <;> simp [h]
  · rcases h with h | h <;> rw [h] <;> decide

/-! ## End-to-end scenarios -/

/-- C7, as stated, fails: a Confirmable PUT `'1'` in state 0, when
`otCoapNewMessage` returns no message, commands the LED on and sets the state
to 1, and no response is emitted. -/
theorem led_requested_put_ack_counterexample :
    led_requested ⟨false, 0, 0, 0, 0⟩ 0
        ⟨OT_COAP_TYPE_CONFIRMABLE, OT_COAP_CODE_PUT, ['1'.toNat]⟩ 0 =
      (1, [Effect.gpio_pin_set_dt 1, Effect.otCoapNewMessage false]) ∧
    emitted (led_requested ⟨false, 0, 0, 0, 0⟩ 0
        ⟨OT_COAP_TYPE_CONFIRMABLE, OT_COAP_CODE_PUT, ['1'.toNat]⟩ 0).2 = [] := by
  decide

/-- C7, amended: PUT acknowledgment reads back the updated state.  For every
prior state `s` and every Confirmable PUT whose payload byte `b` is `'0'`, `'1'`
or `'2'`, `led_requested` updates the state and, when every stack call of
`led_send_response` succeeds, emits exactly one response, of type Acknowledgment
and code Changed, whose single payload byte is the byte of the state after the
update (`'0'` or `'1'` when `s` is 0 or 1); when one of the stack calls fails it
emits no response.  In particular a Confirmable PUT `'1'` commands the LED on,
sets the state to 1 and, on a working stack, is answered (Acknowledgment,
Changed) with payload `'1'`. -/
theorem led_requested_put_ack (env : StackEnv) (buf0 : Nat) (req : Request)
    (s : Int) (b : Nat)
    (ht : req.type = OT_COAP_TYPE_CONFIRMABLE)
    (hc : req.code = OT_COAP_CODE_PUT)
    (hb : req.payload.head? = some b)
    (hb012 : b = '0'.toNat ∨ b = '1'.toNat ∨ b = '2'.toNat) :
    emitted (led_requested env buf0 req s).2 =
      (if env.ok then
        [⟨OT_COAP_TYPE_ACKNOWLEDGMENT, OT_COAP_CODE_CHANGED,
          [state_byte (led_requested env buf0 req s).1]⟩]
      else []) ∧
    (led_requested env buf0 req s).1 =
      (if b = '0'.toNat then 0 else if b = '1'.toNat then 1 else 1 - s) ∧
    ((s = 0 ∨ s = 1) →
      ((led_requested env buf0 req s).1 = 0 ∧
        state_byte (led_requested env buf0 req s).1 = '0'.toNat) ∨
      ((led_requested env buf0 req s).1 = 1 ∧
        state_byte (led_requested env buf0 req s).1 = '1'.toNat)) ∧
    (b = '1'.toNat →
      (led_requested env buf0 req s).1 = 1 ∧
      led_commands (led_requested env buf0 req s).2 = [Effect.gpio_pin_set_dt 1] ∧
      emitted (led_requested env buf0 req s).2 =
        (if env.ok then
          [⟨OT_COAP_TYPE_ACKNOWLEDGMENT, OT_COAP_CODE_CHANGED, ['1'.toNat]⟩]
        else [])) := by
  have hpg : OT_COAP_CODE_PUT ≠ OT_COAP_CODE_GET := by decide
  obtain ⟨hst, hcmd⟩ := led_requested_put env buf0 req s b (Or.inl ht) hc hb
  have hem : emitted (led_requested env buf0 req s).2 =
      (if env.ok then
        [⟨OT_COAP_TYPE_ACKNOWLEDGMENT, OT_COAP_CODE_CHANGED,
          [state_byte (led_requested env buf0 req s).1]⟩]
      else []) := by
    rw [emitted_led_requested]
    by_cases hok : env.ok <;> simp [hok, ht, hc, hpg]
  refine ⟨hem, ?_, ?_, ?_⟩
  · rw [hst]
    rcases hb012 with h | h | h <;> subst h <;> rfl
  · intro hs
    exact state_byte_bit _ (led_requested_state_bit env buf0 req s hs)
  · intro h
    subst h
    have h1 : (led_requested env buf0 req s).1 = 1 := by rw [hst]; rfl
    refine ⟨h1, by rw [hcmd]; rfl, ?_⟩
    rw [hem, h1]; rfl

/-- Witness for C7: a Confirmable PUT `'1'` in state 0 on a working stack. -/
theorem led_requested_put_ack_witness :
    env_ok.ok ∧
    (led_requested env_ok 0 ⟨OT_COAP_TYPE_CONFIRMABLE, OT_COAP_CODE_PUT, ['1'.toNat]⟩ 0).1 = 1 ∧
    led_commands
      (led_requested env_ok 0 ⟨OT_COAP_TYPE_CONFIRMABLE, OT_COAP_CODE_PUT, ['1'.toNat]⟩ 0).2
      = [Effect.gpio_pin_set_dt 1] ∧
    emitted
      (led_requested env_ok 0 ⟨OT_COAP_TYPE_CONFIRMABLE, OT_COAP_CODE_PUT, ['1'.toNat]⟩ 0).2
      = [⟨OT_COAP_TYPE_ACKNOWLEDGMENT, OT_COAP_CODE_CHANGED, ['1'.toNat]⟩] := by
  have h := (led_requested_put_ack env_ok 0
    ⟨OT_COAP_TYPE_CONFIRMABLE, OT_COAP_CODE_PUT, ['1'.toNat]⟩ 0 '1'.toNat
    rfl rfl rfl (Or.inr (Or.inl rfl))).2.2.2 rfl
  refine ⟨by decide, h.1, h.2.1, ?_⟩
  rw [h.2.2]
  decide

/-- C8, as stated, fails: a NonConfirmable GET in state 0, when
`otCoapSendResponse` reports an error, builds the response, frees it and emits
nothing. -/
theorem led_requested_get_off_counterexample :
    led_requested ⟨true, 0, 0, 0, 1⟩ 0
        ⟨OT_COAP_TYPE_NON_CONFIRMABLE, OT_COAP_CODE_GET, []⟩ 0 =
      (0, [Effect.otCoapNewMessage true,
        Effect.otCoapMessageInitResponse OT_COAP_TYPE_NON_CONFIRMABLE
          OT_COAP_CODE_CONTENT OT_ERROR_NONE,
        Effect.otCoapMessageSetPayloadMarker OT_ERROR_NONE,
        Effect.otMessageAppend ['0'.toNat] OT_ERROR_NONE,
        Effect.otCoapSendResponse
          ⟨OT_COAP_TYPE_NON_CONFIRMABLE, OT_COAP_CODE_CONTENT, ['0'.toNat]⟩ 1,
        Effect.otMessageFree]) ∧
    emitted (led_requested ⟨true, 0, 0, 0, 1⟩ 0
        ⟨OT_COAP_TYPE_NON_CONFIRMABLE, OT_COAP_CODE_GET, []⟩ 0).2 = [] := by
  decide

/-- C8, amended: GET when off.  A GET request of type Confirmable or
NonConfirmable handled while `led_state = 0` leaves the state at 0 and calls
`led_send_response`; when every stack call of `led_send_response` succeeds it is
answered by exactly one response with code Content and the single payload byte
`'0'`, of type Acknowledgment for a Confirmable request and NonConfirmable for a
NonConfirmable request; when one of the stack calls fails no response is
emitted. -/
theorem led_requested_get_off (env : StackEnv) (buf0 : Nat) (req : Request)
    (hc : req.code = OT_COAP_CODE_GET) :
    (req.type = OT_COAP_TYPE_CONFIRMABLE →
      led_requested env buf0 req 0 =
        (0, led_send_response env req 0) ∧
      emitted (led_requested env buf0 req 0).2 =
        (if env.ok then
          [⟨OT_COAP_TYPE_ACKNOWLEDGMENT, OT_COAP_CODE_CONTENT, ['0'.toNat]⟩]
        else [])) ∧
    (req.type = OT_COAP_TYPE_NON_CONFIRMABLE →
      led_requested env buf0 req 0 =
        (0, led_send_response env req 0) ∧
      emitted (led_requested env buf0 req 0).2 =
        (if env.ok then
          [⟨OT_COAP_TYPE_NON_CONFIRMABLE, OT_COAP_CODE_CONTENT, ['0'.toNat]⟩]
        else [])) := by
  have hgp : OT_COAP_CODE_GET ≠ OT_COAP_CODE_PUT := by decide
  have hsb : state_byte 0 = '0'.toNat := by decide
  refine ⟨?_, ?_⟩ <;> intro ht
  · refine ⟨by simp [led_requested, ht, hc, hgp], ?_⟩
    rw [emitted_led_requested, led_requested_state]
    by_cases hok : env.ok <;> simp [hok, ht, hc, hgp, hsb]
  · refine ⟨by simp [led_requested, ht, hc, hgp], ?_⟩
    rw [emitted_led_requested, led_requested_state]
    by_cases hok : env.ok <;> simp [hok, ht, hc, hgp, hsb]

/-- Witness for C8: a NonConfirmable GET in state 0 on a working stack. -/
theorem led_requested_get_off_witness :
    env_ok.ok ∧
    emitted (led_requested env_ok 0 ⟨OT_COAP_TYPE_NON_CONFIRMABLE, OT_COAP_CODE_GET, []⟩ 0).2 =
      [⟨OT_COAP_TYPE_NON_CONFIRMABLE, OT_COAP_CODE_CONTENT, ['0'.toNat]⟩] := by
  have h := ((led_requested_get_off env_ok 0
    ⟨OT_COAP_TYPE_NON_CONFIRMABLE, OT_COAP_CODE_GET, []⟩ rfl).2 rfl).2
  refine ⟨by decide, ?_⟩
  rw [h]
  decide

end ot_coap_led

namespace ot_coap_bme280

open openthread
open openthread.otCoapType

/-! ## Helper lemmas -/

theorem digitChar_dec (n : Nat) (h : n < 10) : Nat.digitChar n ∈ dec_chars := by
  interval_cases n <;> decide

theorem toDigitsCore_dec (fuel : Nat) : ∀ (n : Nat) (acc : List Char),
    (∀ c ∈ acc, c ∈ dec_chars) →
    ∀ c ∈ Nat.toDigitsCore 10 fuel n acc, c ∈ dec_chars := by
  induction fuel with
  | zero => intro n acc hacc c hc; simpa [Nat.toDigitsCore] using hacc c hc
  | succ f ih =>
    intro n acc hacc c hc
    have hd : Nat.digitChar (n % 10) ∈ dec_chars := digitChar_dec _ (Nat.mod_lt _ (by decide))
    have hacc2 : ∀ c ∈ Nat.digitChar (n % 10) :: acc, c ∈ dec_chars := by
      intro c hc
      rcases List.mem_cons.1 hc with h | h
      · rw [h]; exact hd
      · exact hacc c h
    simp only [Nat.toDigitsCore] at hc
    split_ifs at hc
    · exact hacc2 c hc
    · exact ih _ _ hacc2 c hc

theorem toDigits_dec (n : Nat) : ∀ c ∈ Nat.toDigits 10 n, c ∈ dec_chars :=
  toDigitsCore_dec (n + 1) n [] (by simp)

theorem toDigits_ne_nil (n : Nat) : Nat.toDigits 10 n ≠ [] := by
  unfold Nat.toDigits
  simp only [Nat.toDigitsCore]
  split_ifs
  · simp
  · intro h
    have := Nat.toDigitsCore_lens_eq 10 n (n / 10) (Nat.digitChar (n % 10)) []
    rw [h] at this
    simp at this

theorem toDigits_length_le (n k : Nat) (hk : 0 < k) (h : n < 10 ^ k) :
    (Nat.toDigits 10 n).length ≤ k :=
  Nat.toDigitsCore_length 10 (by decide) (n + 1) n k h hk

theorem round_half_even_le (r : ℚ) : round_half_even r ≤ ⌊r⌋ + 1 := by
  unfold round_half_even
  simp only []
  split_ifs <;> omega

theorem fmt_2f_two_decimals (x : ℚ) : two_decimals (fmt_2f x) := by
  unfold fmt_2f
  simp only []
  refine ⟨if x < 0 then ['-'] else [], Nat.toDigits 10 _, _, _, rfl, ?_, toDigits_ne_nil _,
    toDigits_dec _, digitChar_dec _ (Nat.mod_lt _ (by decide)),
    digitChar_dec _ (Nat.mod_lt _ (by decide))⟩
  split_ifs <;> simp

theorem fmt_2f_length (x : ℚ) (k B : Nat) (hk : 0 < k) (hB : B < 10 ^ k)
    (hlo : -(B : ℚ) < x) (hhi : x < B) : (fmt_2f x).length ≤ k + 4 := by
  unfold fmt_2f
  simp only []
  set a : ℚ := if x < 0 then -x else x with ha
  have ha0 : 0 ≤ a := by
    rw [ha]; split_ifs with h
    · linarith
    · linarith
  have haB : a < B := by
    rw [ha]; split_ifs with h
    · linarith
    · linarith
  have hfl : ⌊a * 100⌋ + 1 ≤ (100 * B : Int) := by
    have : ⌊a * 100⌋ < (100 * B : Int) := by
      rw [Int.floor_lt]
      push_cast
      linarith
    omega
  have hr : round_half_even (a * 100) ≤ (100 * B : Int) :=
    le_trans (round_half_even_le _) hfl
  have hh : (round_half_even (a * 100)).toNat / 100 < 10 ^ k := by
    have : (round_half_even (a * 100)).toNat ≤ 100 * B := by
      omega
    omega
  have hlen := toDigits_length_le _ k hk hh
  have hsign : (if x < 0 then ['-'] else ([] : List Char)).length ≤ 1 := by
    split_ifs <;> simp
  simp only [List.length_append, List.length_cons, List.length_nil]
  omega


set_option maxRecDepth 100000 in
theorem fmt_02X_byte : ∀ b : Fin 256,
    snprintk 3 (fmt_02X b.val) =
      [hex_digit_upper (b.val / 16), hex_digit_upper (b.val % 16)] := by
  decide

theorem hex_digit_upper_mem (d : Nat) (h : d < 16) : hex_digit_upper d ∈ hex_chars := by
  interval_cases d <;> decide

theorem eui64_id_eq (eui64 : otExtAddress) :
    eui64_id eui64 = (List.finRange 8).flatMap (fun i =>
      [hex_digit_upper ((eui64.m8 i).val / 16), hex_digit_upper ((eui64.m8 i).val % 16)]) := by
  simp [eui64_id, List.finRange, fmt_02X_byte]

theorem eui64_id_length (eui64 : otExtAddress) : (eui64_id eui64).length = 16 := by
  rw [eui64_id_eq]
  simp [List.finRange]

theorem eui64_id_hex (eui64 : otExtAddress) : ∀ c ∈ eui64_id eui64, c ∈ hex_chars := by
  intro c hc
  rw [eui64_id_eq, List.mem_flatMap] at hc
  obtain ⟨i, _, hi⟩ := hc
  have h1 : (eui64.m8 i).val / 16 < 16 := by have := (eui64.m8 i).isLt; omega
  have h2 : (eui64.m8 i).val % 16 < 16 := Nat.mod_lt _ (by decide)
  simp only [List.mem_cons, List.mem_singleton, List.not_mem_nil, or_false] at hi
  rcases hi with h | h
  · rw [h]; exact hex_digit_upper_mem _ h1
  · rw [h]; exact hex_digit_upper_mem _ h2

theorem temp_arg_bound (v : sensor_value) (h : v.in_range) :
    -((2147485796 : Nat) : ℚ) < temp_arg v ∧ temp_arg v < ((2147485796 : Nat) : ℚ) := by
  obtain ⟨⟨a1, a2⟩, ⟨b1, b2⟩⟩ := h
  have a1' : (-2147483648 : ℚ) ≤ v.val1 := by exact_mod_cast a1
  have a2' : (v.val1 : ℚ) ≤ 2147483647 := by exact_mod_cast a2
  have b1' : (-2147483648 : ℚ) ≤ v.val2 := by exact_mod_cast b1
  have b2' : (v.val2 : ℚ) ≤ 2147483647 := by exact_mod_cast b2
  unfold temp_arg
  push_cast
  constructor <;> linarith

theorem hum_arg_bound (v : sensor_value) (h : v.in_range) :
    -((2147485796 : Nat) : ℚ) < hum_arg v ∧ hum_arg v < ((2147485796 : Nat) : ℚ) :=
  temp_arg_bound v h

theorem press_arg_bound (v : sensor_value) (h : v.in_range) :
    -((21474857955 : Nat) : ℚ) < press_arg v ∧ press_arg v < ((21474857955 : Nat) : ℚ) := by
  obtain ⟨⟨a1, a2⟩, ⟨b1, b2⟩⟩ := h
  have a1' : (-2147483648 : ℚ) ≤ v.val1 := by exact_mod_cast a1
  have a2' : (v.val1 : ℚ) ≤ 2147483647 := by exact_mod_cast a2
  have b1' : (-2147483648 : ℚ) ≤ v.val2 := by exact_mod_cast b1
  have b2' : (v.val2 : ℚ) ≤ 2147483647 := by exact_mod_cast b2
  unfold press_arg
  push_cast
  constructor <;> linarith

/-- The formatted JSON text of in-range readings has at most 92 characters. -/
theorem json_format_length (eui64 : otExtAddress) (temp press hum : sensor_value)
    (ht : temp.in_range) (hp : press.in_range) (hh : hum.in_range) :
    (json_format (eui64_id eui64) (temp_arg temp) (press_arg press) (hum_arg hum)).length
      ≤ 92 := by
  have h1 := fmt_2f_length (temp_arg temp) 10 2147485796 (by decide) (by norm_num)
    (temp_arg_bound temp ht).1 (temp_arg_bound temp ht).2
  have h2 := fmt_2f_length (press_arg press) 11 21474857955 (by decide) (by norm_num)
    (press_arg_bound press hp).1 (press_arg_bound press hp).2
  have h3 := fmt_2f_length (hum_arg hum) 10 2147485796 (by decide) (by norm_num)
    (hum_arg_bound hum hh).1 (hum_arg_bound hum hh).2
  have h4 := eui64_id_length eui64
  unfold json_format
  simp only [List.length_append, h4]
  have e1 : ("\x7b\"id\":\"".toList).length = 7 := by decide
  have e2 : ("\",\"temp\":".toList).length = 9 := by decide
  have e3 : (",\"press\":".toList).length = 9 := by decide
  have e4 : (",\"hum\":".toList).length = 7 := by decide
  have e5 : ("\x7d".toList).length = 1 := by decide
  rw [e1, e2, e3, e4, e5]
  omega

/-- For in-range readings `json_buf` holds the whole formatted text. -/
theorem json_buf_eq (eui64 : otExtAddress) (temp press hum : sensor_value)
    (ht : temp.in_range) (hp : press.in_range) (hh : hum.in_range) :
    json_buf eui64 temp press hum =
      json_format (eui64_id eui64) (temp_arg temp) (press_arg press) (hum_arg hum) := by
  unfold json_buf snprintk
  apply List.take_of_length_le
  have := json_format_length eui64 temp press hum ht hp hh
  omega


theorem two_decimals_chars (l : List Char) (h : two_decimals l) :
    ∀ c ∈ l, c ∈ dec_chars ∨ c = '-' ∨ c = '.' := by
  obtain ⟨sign, whole, d1, d2, rfl, hs, _, hw, h1, h2⟩ := h
  intro c hc
  simp only [List.mem_append, List.mem_cons, List.mem_singleton, List.not_mem_nil,
    or_false] at hc
  rcases hc with (hc | hc) | hc | hc | hc
  · rcases hs with hs | hs
    · rw [hs] at hc; exact absurd hc (List.not_mem_nil _)
    · rw [hs, List.mem_singleton] at hc; exact Or.inr (Or.inl hc)
  · exact Or.inl (hw c hc)
  · exact Or.inr (Or.inr hc)
  · rw [hc]; exact Or.inl h1
  · rw [hc]; exact Or.inl h2

theorem fmt_2f_no_space (x : ℚ) : ∀ c ∈ fmt_2f x, c.isWhitespace = false := by
  intro c hc
  have hdec : ∀ c ∈ dec_chars, c.isWhitespace = false := by decide
  rcases two_decimals_chars _ (fmt_2f_two_decimals x) c hc with h | h | h
  · exact hdec c h
  · rw [h]; decide
  · rw [h]; decide

theorem json_format_no_space (id : List Char) (t p h : ℚ)
    (hid : ∀ c ∈ id, c ∈ hex_chars) :
    ∀ c ∈ json_format id t p h, c.isWhitespace = false := by
  have hhex : ∀ c ∈ hex_chars, c.isWhitespace = false := by decide
  have e1 : ∀ c ∈ "\x7b\"id\":\"".toList, c.isWhitespace = false := by decide
  have e2 : ∀ c ∈ "\",\"temp\":".toList, c.isWhitespace = false := by decide
  have e3 : ∀ c ∈ ",\"press\":".toList, c.isWhitespace = false := by decide
  have e4 : ∀ c ∈ ",\"hum\":".toList, c.isWhitespace = false := by decide
  have e5 : ∀ c ∈ "\x7d".toList, c.isWhitespace = false := by decide
  intro c hc
  unfold json_format at hc
  simp only [List.mem_append] at hc
  rcases hc with (((((((hc | hc) | hc) | hc) | hc) | hc) | hc) | hc) | hc
  · exact e1 c hc
  · exact hhex c (hid c hc)
  · exact e2 c hc
  · exact fmt_2f_no_space t c hc
  · exact e3 c hc
  · exact fmt_2f_no_space p c hc
  · exact e4 c hc
  · exact fmt_2f_no_space h c hc
  · exact e5 c hc

theorem appended_send_sensor_request (env : RequestEnv) (eui64 : otExtAddress)
    (temp press hum : sensor_value) :
    ∀ bytes ∈ appended (send_sensor_request env eui64 temp press hum),
      bytes = json_buf eui64 temp press hum := by
  obtain ⟨a, e1, e2, e3, e4, e5⟩ := env
  cases a <;>
    by_cases k1 : e1 = OT_ERROR_NONE <;>
    by_cases k2 : e2 = OT_ERROR_NONE <;>
    by_cases k3 : e3 = OT_ERROR_NONE <;>
    by_cases k4 : e4 = OT_ERROR_NONE <;>
    by_cases k5 : e5 = OT_ERROR_NONE <;>
    simp [send_sensor_request, appended, k1, k2, k3, k4, k5]

/-- Rendering of a non-negative value that is a whole number `n` of hundredths. -/
theorem fmt_2f_exact (x : ℚ) (n : Nat) (h : x * 100 = n) :
    fmt_2f x = Nat.toDigits 10 (n / 100) ++
      ['.', Nat.digitChar (n / 10 % 10), Nat.digitChar (n % 10)] := by
  have hx : ¬ x < 0 := by
    intro hneg
    have : (0 : ℚ) ≤ n := Nat.cast_nonneg n
    linarith
  have hr : round_half_even (x * 100) = n := by
    rw [h]
    unfold round_half_even
    simp
  unfold fmt_2f
  simp only [if_neg hx, hr, Int.toNat_ofNat, List.nil_append]

theorem fmt_2f_example_temp : fmt_2f (temp_arg ⟨21, 500000⟩) = "21.50".toList := by
  rw [fmt_2f_exact _ 2150 (by norm_num [temp_arg])]
  decide

theorem fmt_2f_example_press : fmt_2f (press_arg ⟨1013, 25000⟩) = "10130.25".toList := by
  rw [fmt_2f_exact _ 1013025 (by norm_num [press_arg])]
  decide

theorem fmt_2f_example_hum : fmt_2f (hum_arg ⟨45, 0⟩) = "45.00".toList := by
  rw [fmt_2f_exact _ 4500 (by norm_num [hum_arg])]
  decide

/-! ## Telemetry payload -/

/-- C9: sensor value conversion in `send_sensor_request`, the doubles read as
exact rationals.  For all `int32_t` sub-fields the text in `json_buf` is the
format string filled with temperature `val1 + val2 / 10^6`, pressure
`10 * (val1 + val2 / 10^6)` (the code computes it as `val1 * 10 + val2 / 10^5`)
and humidity `val1 + val2 / 10^6`, each rendered with exactly two fractional
digits; for temp (21, 500000), press (1013, 25000), hum (45, 0) the text is
`{"id":"<id>","temp":21.50,"press":10130.25,"hum":45.00}`. -/
theorem send_sensor_request_conversion (eui64 : otExtAddress)
    (temp press hum : sensor_value)
    (ht : temp.in_range) (hp : press.in_range) (hh : hum.in_range) :
    json_buf eui64 temp press hum =
      json_format (eui64_id eui64)
        ((temp.val1 : ℚ) + (temp.val2 : ℚ) / 10 ^ 6)
        (10 * ((press.val1 : ℚ) + (press.val2 : ℚ) / 10 ^ 6))
        ((hum.val1 : ℚ) + (hum.val2 : ℚ) / 10 ^ 6) ∧
    press_arg press = (press.val1 : ℚ) * 10 + (press.val2 : ℚ) / 10 ^ 5 ∧
    two_decimals (fmt_2f (temp_arg temp)) ∧
    two_decimals (fmt_2f (press_arg press)) ∧
    two_decimals (fmt_2f (hum_arg hum)) ∧
    (temp = ⟨21, 500000⟩ → press = ⟨1013, 25000⟩ → hum = ⟨45, 0⟩ →
      json_buf eui64 temp press hum =
        "\x7b\"id\":\"".toList ++ eui64_id eui64 ++
          "\",\"temp\":21.50,\"press\":10130.25,\"hum\":45.00\x7d".toList) := by
  have hbuf := json_buf_eq eui64 temp press hum ht hp hh
  have hpress : press_arg press = 10 * ((press.val1 : ℚ) + (press.val2 : ℚ) / 10 ^ 6) := by
    unfold press_arg; ring
  refine ⟨?_, ?_, fmt_2f_two_decimals _, fmt_2f_two_decimals _, fmt_2f_two_decimals _, ?_⟩
  · rw [hbuf, hpress]
    unfold temp_arg hum_arg
    norm_num
  · unfold press_arg; norm_num
  · intro h1 h2 h3
    subst h1 h2 h3
    rw [hbuf]
    unfold json_format
    rw [fmt_2f_example_temp, fmt_2f_example_press, fmt_2f_example_hum]
    simp

/-- Witness for C9: the scenario readings with the example EUI-64. -/
theorem send_sensor_request_conversion_witness :
    (⟨21, 500000⟩ : sensor_value).in_range ∧
    (⟨1013, 25000⟩ : sensor_value).in_range ∧
    (⟨45, 0⟩ : sensor_value).in_range ∧
    json_buf eui64_example ⟨21, 500000⟩ ⟨1013, 25000⟩ ⟨45, 0⟩ =
      ("\x7b\"id\":\"F4CE36000AB19C7F\"," ++
        "\"temp\":21.50,\"press\":10130.25,\"hum\":45.00\x7d").toList := by
  refine ⟨by decide, by decide, by decide, ?_⟩
  rw [(send_sensor_request_conversion eui64_example ⟨21, 500000⟩ ⟨1013, 25000⟩ ⟨45, 0⟩
    (by decide) (by decide) (by decide)).2.2.2.2.2 rfl rfl rfl]
  decide

/-- C10: telemetry payload shape.  For every EUI-64 and all `int32_t` readings
the text in `json_buf`, which is the payload handed to `otMessageAppend`, is
exactly `{"id":"<ID>","temp":<t>,"press":<p>,"hum":<h>}`, keys in that order,
without whitespace; `<ID>` is the 16 characters made of the two upper-case
hexadecimal digits of each of the 8 EUI-64 bytes in order, and `<t>`, `<p>`,
`<h>` are decimal numbers with exactly two fractional digits. -/
theorem json_buf_shape (eui64 : otExtAddress) (temp press hum : sensor_value)
    (ht : temp.in_range) (hp : press.in_range) (hh : hum.in_range) :
    json_buf eui64 temp press hum =
      "\x7b\"id\":\"".toList ++ eui64_id eui64 ++
      "\",\"temp\":".toList ++ fmt_2f (temp_arg temp) ++
      ",\"press\":".toList ++ fmt_2f (press_arg press) ++
      ",\"hum\":".toList ++ fmt_2f (hum_arg hum) ++ "\x7d".toList ∧
    eui64_id eui64 = (List.finRange 8).flatMap (fun i =>
      [hex_digit_upper ((eui64.m8 i).val / 16),
        hex_digit_upper ((eui64.m8 i).val % 16)]) ∧
    (eui64_id eui64).length = 16 ∧
    (∀ c ∈ eui64_id eui64, c ∈ hex_chars) ∧
    two_decimals (fmt_2f (temp_arg temp)) ∧
    two_decimals (fmt_2f (press_arg press)) ∧
    two_decimals (fmt_2f (hum_arg hum)) ∧
    (∀ c ∈ json_buf eui64 temp press hum, c.isWhitespace = false) ∧
    (∀ env, ∀ bytes ∈ appended (send_sensor_request env eui64 temp press hum),
      bytes = json_buf eui64 temp press hum) ∧
    appended (send_sensor_request request_env_ok eui64 temp press hum) =
      [json_buf eui64 temp press hum] := by
  have hbuf := json_buf_eq eui64 temp press hum ht hp hh
  refine ⟨?_, eui64_id_eq eui64, eui64_id_length eui64, eui64_id_hex eui64,
    fmt_2f_two_decimals _, fmt_2f_two_decimals _, fmt_2f_two_decimals _, ?_, ?_, ?_⟩
  · rw [hbuf]; rfl
  · rw [hbuf]
    exact json_format_no_space _ _ _ _ (eui64_id_hex eui64)
  · intro env
    exact appended_send_sensor_request env eui64 temp press hum
  · simp [send_sensor_request, appended, request_env_ok, OT_ERROR_NONE]

/-- Witness for C10: a reading below zero with the example EUI-64. -/
theorem json_buf_shape_witness :
    (⟨-5, -250000⟩ : sensor_value).in_range ∧
    (⟨98, 5000⟩ : sensor_value).in_range ∧
    (⟨60, 120000⟩ : sensor_value).in_range ∧
    eui64_id eui64_example = "F4CE36000AB19C7F".toList ∧
    json_buf eui64_example ⟨-5, -250000⟩ ⟨98, 5000⟩ ⟨60, 120000⟩ =
      ("\x7b\"id\":\"F4CE36000AB19C7F\"," ++
        "\"temp\":-5.25,\"press\":980.05,\"hum\":60.12\x7d").toList := by
  have h := json_buf_shape eui64_example ⟨-5, -250000⟩ ⟨98, 5000⟩ ⟨60, 120000⟩
    (by decide) (by decide) (by decide)
  have ht : fmt_2f (temp_arg ⟨-5, -250000⟩) = "-5.25".toList := by
    simp [fmt_2f, temp_arg, round_half_even]
    norm_num
    decide
  have hp : fmt_2f (press_arg ⟨98, 5000⟩) = "980.05".toList := by
    rw [fmt_2f_exact _ 98005 (by norm_num [press_arg])]
    decide
  have hh : fmt_2f (hum_arg ⟨60, 120000⟩) = "60.12".toList := by
    rw [fmt_2f_exact _ 6012 (by norm_num [hum_arg])]
    decide
  refine ⟨by decide, by decide, by decide, by decide, ?_⟩
  rw [h.1, ht, hp, hh]
  decide

end ot_coap_bme280

namespace ot_coap_bme280

/-! ## The telemetry text fits its buffer -/

/-- C19: the telemetry JSON always fits its buffer.  For every EUI-64 and all
`int32_t` values of the six sensor sub-fields the formatted JSON text has at most
99 characters (in fact at most 92), so `snprintk` into the 100-byte `json_buf`
does not truncate it: `json_buf` is the whole text, ending with the closing
brace, and it is what every `otMessageAppend` of `send_sensor_request` is
given. -/
theorem json_buf_fits (eui64 : otExtAddress) (temp press hum : sensor_value)
    (ht : temp.in_range) (hp : press.in_range) (hh : hum.in_range) :
    (json_format (eui64_id eui64) (temp_arg temp) (press_arg press)
      (hum_arg hum)).length ≤ 99 ∧
    json_buf eui64 temp press hum =
      json_format (eui64_id eui64) (temp_arg temp) (press_arg press) (hum_arg hum) ∧
    (json_buf eui64 temp press hum).getLast? = some '\x7d' ∧
    (∀ env, ∀ bytes ∈ appended (send_sensor_request env eui64 temp press hum),
      bytes = json_format (eui64_id eui64) (temp_arg temp) (press_arg press)
        (hum_arg hum)) := by
  have hlen := json_format_length eui64 temp press hum ht hp hh
  have hbuf := json_buf_eq eui64 temp press hum ht hp hh
  refine ⟨by omega, hbuf, ?_, ?_⟩
  · rw [hbuf]
    unfold json_format
    rw [List.getLast?_append]
    rfl
  · intro env bytes hb
    rw [← hbuf]
    exact appended_send_sensor_request env eui64 temp press hum bytes hb

/-- Witness for C19: every sub-field at the least `int32_t` value, the longest
text. -/
theorem json_buf_fits_witness :
    (⟨-2147483648, -2147483648⟩ : sensor_value).in_range ∧
    (json_format (eui64_id eui64_example)
      (temp_arg ⟨-2147483648, -2147483648⟩) (press_arg ⟨-2147483648, -2147483648⟩)
      (hum_arg ⟨-2147483648, -2147483648⟩)).length ≤ 99 :=
  ⟨by decide,
    (json_buf_fits eui64_example ⟨-2147483648, -2147483648⟩
      ⟨-2147483648, -2147483648⟩ ⟨-2147483648, -2147483648⟩
      (by decide) (by decide) (by decide)).1⟩

end ot_coap_bme280

namespace ot_coap_led

open openthread
open openthread.otCoapType

/-! ## Unrecognised control byte -/

/-- C20, as stated, fails: a Confirmable PUT `'7'` in state 1, when
`otMessageAppend` reports an error, leaves the state at 1 and gives the LED no
command, but is not answered: the response is freed and nothing is emitted. -/
theorem led_requested_unrecognised_byte_counterexample :
    led_requested ⟨true, 0, 0, 1, 0⟩ 0
        ⟨OT_COAP_TYPE_CONFIRMABLE, OT_COAP_CODE_PUT, ['7'.toNat]⟩ 1 =
      (1, [Effect.otCoapNewMessage true,
        Effect.otCoapMessageInitResponse OT_COAP_TYPE_ACKNOWLEDGMENT
          OT_COAP_CODE_CHANGED OT_ERROR_NONE,
        Effect.otCoapMessageSetPayloadMarker OT_ERROR_NONE,
        Effect.otMessageAppend ['1'.toNat] 1,
        Effect.otMessageFree]) ∧
    emitted (led_requested ⟨true, 0, 0, 1, 0⟩ 0
        ⟨OT_COAP_TYPE_CONFIRMABLE, OT_COAP_CODE_PUT, ['7'.toNat]⟩ 1).2 = [] := by
  decide

/-- C20, amended: unrecognised control byte.  For every prior state `s` and
every PUT of type Confirmable or NonConfirmable whose first payload byte is none
of `'0'`, `'1'`, `'2'`, `led_requested` leaves `led_state` equal to `s` and
gives the LED output no command.  A Confirmable request is nevertheless
answered, when every stack call of `led_send_response` succeeds, by one response
(Acknowledgment, Changed) carrying the byte of the unchanged state, and gets no
response when one of the stack calls fails; for a NonConfirmable request no call
is made at all. -/
theorem led_requested_unrecognised_byte (env : StackEnv) (buf0 : Nat) (req : Request)
    (s : Int) (b : Nat)
    (ht : req.type = OT_COAP_TYPE_CONFIRMABLE ∨ req.type = OT_COAP_TYPE_NON_CONFIRMABLE)
    (hc : req.code = OT_COAP_CODE_PUT)
    (hb : req.payload.head? = some b)
    (h0 : b ≠ '0'.toNat) (h1 : b ≠ '1'.toNat) (h2 : b ≠ '2'.toNat) :
    (led_requested env buf0 req s).1 = s ∧
    led_commands (led_requested env buf0 req s).2 = [] ∧
    (req.type = OT_COAP_TYPE_CONFIRMABLE →
      emitted (led_requested env buf0 req s).2 =
        (if env.ok then
          [⟨OT_COAP_TYPE_ACKNOWLEDGMENT, OT_COAP_CODE_CHANGED, [state_byte s]⟩]
        else [])) ∧
    (req.type = OT_COAP_TYPE_NON_CONFIRMABLE →
      (led_requested env buf0 req s).2 = []) := by
  have hpg : OT_COAP_CODE_PUT ≠ OT_COAP_CODE_GET := by decide
  obtain ⟨hst, hcmd⟩ := led_requested_put env buf0 req s b ht hc hb
  rw [if_neg h0, if_neg h1, if_neg h2] at hst hcmd
  refine ⟨hst, hcmd, ?_, ?_⟩
  · intro hcon
    rw [emitted_led_requested, hst]
    by_cases hok : env.ok <;> simp [hok, hcon, hc, hpg]
  · intro hnon
    have hr := otMessageRead_head req buf0 b hb
    have k0 : ¬ b = 48 := h0
    have k1 : ¬ b = 49 := h1
    have k2 : ¬ b = 50 := h2
    simp [led_requested, hnon, hc, hr, k0, k1, k2]

/-- Witness for C20: a Confirmable PUT `'7'` in state 1 on a working stack. -/
theorem led_requested_unrecognised_byte_witness :
    env_ok.ok ∧
    (led_requested env_ok 0 ⟨OT_COAP_TYPE_CONFIRMABLE, OT_COAP_CODE_PUT, ['7'.toNat]⟩ 1).1
      = 1 ∧
    emitted
      (led_requested env_ok 0 ⟨OT_COAP_TYPE_CONFIRMABLE, OT_COAP_CODE_PUT, ['7'.toNat]⟩ 1).2
      = [⟨OT_COAP_TYPE_ACKNOWLEDGMENT, OT_COAP_CODE_CHANGED, ['1'.toNat]⟩] := by
  have h := led_requested_unrecognised_byte env_ok 0
    ⟨OT_COAP_TYPE_CONFIRMABLE, OT_COAP_CODE_PUT, ['7'.toNat]⟩ 1 '7'.toNat
    (Or.inl rfl) rfl rfl (by decide) (by decide) (by decide)
  refine ⟨by decide, h.1, ?_⟩
  rw [h.2.2.1 rfl]
  decide

end ot_coap_led

/-! ## Builders: build order and release of the message -/

namespace ot_coap_bme280

open openthread
open openthread.otCoapType

/-- The calls of `send_sensor_request` follow the build order. -/
theorem send_sensor_request_build_order (env : RequestEnv) (eui64 : otExtAddress)
    (temp press hum : sensor_value) :
    send_sensor_request env eui64 temp press hum =
      if env.otCoapNewMessage = false then [Call.otCoapNewMessage false]
      else Call.otCoapNewMessage true :: build_order_spec Call.otMessageFree
        [(Call.otCoapMessageInit OT_COAP_TYPE_NON_CONFIRMABLE OT_COAP_CODE_PUT, true),
         (Call.otCoapMessageAppendUriPathOptions "sensor"
            env.otCoapMessageAppendUriPathOptions,
          decide (env.otCoapMessageAppendUriPathOptions = OT_ERROR_NONE)),
         (Call.otCoapMessageAppendContentFormatOption OT_COAP_OPTION_CONTENT_FORMAT_JSON
            env.otCoapMessageAppendContentFormatOption,
          decide (env.otCoapMessageAppendContentFormatOption = OT_ERROR_NONE)),
         (Call.otCoapMessageSetPayloadMarker env.otCoapMessageSetPayloadMarker,
          decide (env.otCoapMessageSetPayloadMarker = OT_ERROR_NONE)),
         (Call.otMessageAppend (json_buf eui64 temp press hum) env.otMessageAppend,
          decide (env.otMessageAppend = OT_ERROR_NONE)),
         (Call.otCoapSendRequest
            ⟨OT_COAP_TYPE_NON_CONFIRMABLE, OT_COAP_CODE_PUT, ["sensor"],
              some OT_COAP_OPTION_CONTENT_FORMAT_JSON, json_buf eui64 temp press hum⟩
            ⟨"ff03::1", OT_DEFAULT_COAP_PORT⟩ env.otCoapSendRequest,
          decide (env.otCoapSendRequest = OT_ERROR_NONE))] := by
  obtain ⟨a, e1, e2, e3, e4, e5⟩ := env
  cases a <;>
    by_cases k1 : e1 = OT_ERROR_NONE <;>
    by_cases k2 : e2 = OT_ERROR_NONE <;>
    by_cases k3 : e3 = OT_ERROR_NONE <;>
    by_cases k4 : e4 = OT_ERROR_NONE <;>
    by_cases k5 : e5 = OT_ERROR_NONE <;>
    simp [send_sensor_request, build_order_spec, SEND_TO_ADDR, k1, k2, k3, k4, k5]

/-- `send_sensor_request` does not leak its message. -/
theorem send_sensor_request_no_leak (env : RequestEnv) (eui64 : otExtAddress)
    (temp press hum : sensor_value) (halloc : env.otCoapNewMessage = true) :
    no_leak Call.otMessageFree request_accepted
      (send_sensor_request env eui64 temp press hum) := by
  obtain ⟨a, e1, e2, e3, e4, e5⟩ := env
  simp only at halloc
  subst halloc
  by_cases k1 : e1 = OT_ERROR_NONE <;>
    by_cases k2 : e2 = OT_ERROR_NONE <;>
    by_cases k3 : e3 = OT_ERROR_NONE <;>
    by_cases k4 : e4 = OT_ERROR_NONE <;>
    by_cases k5 : e5 = OT_ERROR_NONE <;>
    simp [send_sensor_request, no_leak, request_accepted, List.countP_cons,
      List.count_cons, k1, k2, k3, k4, k5]

/-- `send_sensor_request` appends payload bytes only after the payload marker
was set successfully. -/
theorem send_sensor_request_marker_before_append (env : RequestEnv)
    (eui64 : otExtAddress) (temp press hum : sensor_value) (bytes : List Char) (e : Nat)
    (h : Call.otMessageAppend bytes e ∈ send_sensor_request env eui64 temp press hum) :
    Call.otCoapMessageSetPayloadMarker OT_ERROR_NONE ∈
      send_sensor_request env eui64 temp press hum := by
  obtain ⟨a, e1, e2, e3, e4, e5⟩ := env
  revert h
  cases a <;>
    by_cases k1 : e1 = OT_ERROR_NONE <;>
    by_cases k2 : e2 = OT_ERROR_NONE <;>
    by_cases k3 : e3 = OT_ERROR_NONE <;>
    by_cases k4 : e4 = OT_ERROR_NONE <;>
    by_cases k5 : e5 = OT_ERROR_NONE <;>
    simp [send_sensor_request, k1, k2, k3, k4, k5]

end ot_coap_bme280

namespace ot_coap_button

open openthread
open openthread.otCoapType
open ot_coap_bme280 (Call CoapRequest otMessageInfo)

/-- The calls of `send_led_request` follow the build order. -/
theorem plain_send_led_request_build_order (env : ButtonEnv) :
    send_led_request env =
      if env.otCoapNewMessage = false then [Call.otCoapNewMessage false]
      else Call.otCoapNewMessage true :: build_order_spec Call.otMessageFree
        [(Call.otCoapMessageInit OT_COAP_TYPE_CONFIRMABLE OT_COAP_CODE_PUT, true),
         (Call.otCoapMessageAppendUriPathOptions "led"
            env.otCoapMessageAppendUriPathOptions,
          decide (env.otCoapMessageAppendUriPathOptions = OT_ERROR_NONE)),
         (Call.otCoapMessageSetPayloadMarker env.otCoapMessageSetPayloadMarker,
          decide (env.otCoapMessageSetPayloadMarker = OT_ERROR_NONE)),
         (Call.otMessageAppend ['2'] env.otMessageAppend,
          decide (env.otMessageAppend = OT_ERROR_NONE)),
         (Call.otCoapSendRequest
            ⟨OT_COAP_TYPE_CONFIRMABLE, OT_COAP_CODE_PUT, ["led"], none, ['2']⟩
            ⟨"ff03::1", OT_DEFAULT_COAP_PORT⟩
            env.otCoapSendRequest,
          decide (env.otCoapSendRequest = OT_ERROR_NONE))] := by
  obtain ⟨a, e1, e2, e3, e4⟩ := env
  cases a <;>
    by_cases k1 : e1 = OT_ERROR_NONE <;>
    by_cases k2 : e2 = OT_ERROR_NONE <;>
    by_cases k3 : e3 = OT_ERROR_NONE <;>
    by_cases k4 : e4 = OT_ERROR_NONE <;>
    simp [send_led_request, build_order_spec, SEND_TO_ADDR, k1, k2, k3, k4]

/-- `send_led_request` does not leak its message. -/
theorem plain_send_led_request_no_leak (env : ButtonEnv)
    (halloc : env.otCoapNewMessage = true) :
    no_leak Call.otMessageFree request_accepted (send_led_request env) := by
  obtain ⟨a, e1, e2, e3, e4⟩ := env
  simp only at halloc
  subst halloc
  by_cases k1 : e1 = OT_ERROR_NONE <;>
    by_cases k2 : e2 = OT_ERROR_NONE <;>
    by_cases k3 : e3 = OT_ERROR_NONE <;>
    by_cases k4 : e4 = OT_ERROR_NONE <;>
    simp [send_led_request, no_leak, request_accepted, List.countP_cons,
      List.count_cons, k1, k2, k3, k4]

/-- `send_led_request` appends payload bytes only after the payload marker was
set successfully. -/
theorem plain_send_led_request_marker_before_append (env : ButtonEnv)
    (bytes : List Char) (e : Nat)
    (h : Call.otMessageAppend bytes e ∈ send_led_request env) :
    Call.otCoapMessageSetPayloadMarker OT_ERROR_NONE ∈ send_led_request env := by
  obtain ⟨a, e1, e2, e3, e4⟩ := env
  revert h
  cases a <;>
    by_cases k1 : e1 = OT_ERROR_NONE <;>
    by_cases k2 : e2 = OT_ERROR_NONE <;>
    by_cases k3 : e3 = OT_ERROR_NONE <;>
    by_cases k4 : e4 = OT_ERROR_NONE <;>
    simp [send_led_request, k1, k2, k3, k4]

end ot_coap_button

namespace ot_coaps_button

open openthread
open openthread.otCoapType

/-- The calls of `send_led_request` follow the build order. -/
theorem psk_send_led_request_build_order (env : SecureRequestEnv) :
    send_led_request env =
      if env.otCoapNewMessage = false then [SecureCall.otCoapNewMessage false]
      else SecureCall.otCoapNewMessage true :: build_order_spec SecureCall.otMessageFree
        [(SecureCall.otCoapMessageInit OT_COAP_TYPE_CONFIRMABLE OT_COAP_CODE_PUT, true),
         (SecureCall.otCoapMessageAppendUriPathOptions "led"
            env.otCoapMessageAppendUriPathOptions,
          decide (env.otCoapMessageAppendUriPathOptions = OT_ERROR_NONE)),
         (SecureCall.otCoapMessageSetPayloadMarker env.otCoapMessageSetPayloadMarker,
          decide (env.otCoapMessageSetPayloadMarker = OT_ERROR_NONE)),
         (SecureCall.otMessageAppend ['2'] env.otMessageAppend,
          decide (env.otMessageAppend = OT_ERROR_NONE)),
         (SecureCall.otCoapSecureSendRequest
            ⟨OT_COAP_TYPE_CONFIRMABLE, OT_COAP_CODE_PUT, ["led"], none, ['2']⟩
            env.otCoapSecureSendRequest,
          decide (env.otCoapSecureSendRequest = OT_ERROR_NONE))] := by
  obtain ⟨a, e1, e2, e3, e4⟩ := env
  cases a <;>
    by_cases k1 : e1 = OT_ERROR_NONE <;>
    by_cases k2 : e2 = OT_ERROR_NONE <;>
    by_cases k3 : e3 = OT_ERROR_NONE <;>
    by_cases k4 : e4 = OT_ERROR_NONE <;>
    simp [send_led_request, build_order_spec, k1, k2, k3, k4]

/-- `send_led_request` does not leak its message. -/
theorem psk_send_led_request_no_leak (env : SecureRequestEnv)
    (halloc : env.otCoapNewMessage = true) :
    no_leak SecureCall.otMessageFree SecureCall.accepted (send_led_request env) := by
  obtain ⟨a, e1, e2, e3, e4⟩ := env
  simp only at halloc
  subst halloc
  by_cases k1 : e1 = OT_ERROR_NONE <;>
    by_cases k2 : e2 = OT_ERROR_NONE <;>
    by_cases k3 : e3 = OT_ERROR_NONE <;>
    by_cases k4 : e4 = OT_ERROR_NONE <;>
    simp [send_led_request, no_leak, SecureCall.accepted, List.countP_cons,
      List.count_cons, k1, k2, k3, k4]

/-- `send_led_request` appends payload bytes only after the payload marker was
set successfully. -/
theorem psk_send_led_request_marker_before_append (env : SecureRequestEnv)
    (bytes : List Char) (e : Nat)
    (h : SecureCall.otMessageAppend bytes e ∈ send_led_request env) :
    SecureCall.otCoapMessageSetPayloadMarker OT_ERROR_NONE ∈ send_led_request env := by
  obtain ⟨a, e1, e2, e3, e4⟩ := env
  revert h
  cases a <;>
    by_cases k1 : e1 = OT_ERROR_NONE <;>
    by_cases k2 : e2 = OT_ERROR_NONE <;>
    by_cases k3 : e3 = OT_ERROR_NONE <;>
    by_cases k4 : e4 = OT_ERROR_NONE <;>
    simp [send_led_request, k1, k2, k3, k4]

end ot_coaps_button

namespace ot_coaps_x509_button

open openthread
open openthread.otCoapType

/-- The calls of `send_led_request` follow the build order. -/
theorem x509_send_led_request_build_order (env : SecureRequestEnv) :
    send_led_request env =
      if env.otCoapNewMessage = false then [SecureCall.otCoapNewMessage false]
      else SecureCall.otCoapNewMessage true :: build_order_spec SecureCall.otMessageFree
        [(SecureCall.otCoapMessageInit OT_COAP_TYPE_CONFIRMABLE OT_COAP_CODE_PUT, true),
         (SecureCall.otCoapMessageAppendUriPathOptions "led"
            env.otCoapMessageAppendUriPathOptions,
          decide (env.otCoapMessageAppendUriPathOptions = OT_ERROR_NONE)),
         (SecureCall.otCoapMessageSetPayloadMarker env.otCoapMessageSetPayloadMarker,
          decide (env.otCoapMessageSetPayloadMarker = OT_ERROR_NONE)),
         (SecureCall.otMessageAppend ['2'] env.otMessageAppend,
          decide (env.otMessageAppend = OT_ERROR_NONE)),
         (SecureCall.otCoapSecureSendRequest
            ⟨OT_COAP_TYPE_CONFIRMABLE, OT_COAP_CODE_PUT, ["led"], none, ['2']⟩
            env.otCoapSecureSendRequest,
          decide (env.otCoapSecureSendRequest = OT_ERROR_NONE))] := by
  obtain ⟨a, e1, e2, e3, e4⟩ := env
  cases a <;>
    by_cases k1 : e1 = OT_ERROR_NONE <;>
    by_cases k2 : e2 = OT_ERROR_NONE <;>
    by_cases k3 : e3 = OT_ERROR_NONE <;>
    by_cases k4 : e4 = OT_ERROR_NONE <;>
    simp [send_led_request, build_order_spec, k1, k2, k3, k4]

/-- `send_led_request` does not leak its message. -/
theorem x509_send_led_request_no_leak (env : SecureRequestEnv)
    (halloc : env.otCoapNewMessage = true) :
    no_leak SecureCall.otMessageFree SecureCall.accepted (send_led_request env) := by
  obtain ⟨a, e1, e2, e3, e4⟩ := env
  simp only at halloc
  subst halloc
  by_cases k1 : e1 = OT_ERROR_NONE <;>
    by_cases k2 : e2 = OT_ERROR_NONE <;>
    by_cases k3 : e3 = OT_ERROR_NONE <;>
    by_cases k4 : e4 = OT_ERROR_NONE <;>
    simp [send_led_request, no_leak, SecureCall.accepted, List.countP_cons,
      List.count_cons, k1, k2, k3, k4]

/-- `send_led_request` appends payload bytes only after the payload marker was
set successfully. -/
theorem x509_send_led_request_marker_before_append (env : SecureRequestEnv)
    (bytes : List Char) (e : Nat)
    (h : SecureCall.otMessageAppend bytes e ∈ send_led_request env) :
    SecureCall.otCoapMessageSetPayloadMarker OT_ERROR_NONE ∈ send_led_request env := by
  obtain ⟨a, e1, e2, e3, e4⟩ := env
  revert h
  cases a <;>
    by_cases k1 : e1 = OT_ERROR_NONE <;>
    by_cases k2 : e2 = OT_ERROR_NONE <;>
    by_cases k3 : e3 = OT_ERROR_NONE <;>
    by_cases k4 : e4 = OT_ERROR_NONE <;>
    simp [send_led_request, k1, k2, k3, k4]

end ot_coaps_x509_button

namespace ot_coap_led

open openthread
open openthread.otCoapType

/-- The calls of `led_send_response` follow the build order. -/
theorem led_send_response_build_order (env : StackEnv) (req : Request) (s : Int) :
    led_send_response env req s =
      if env.otCoapNewMessage = false then [Effect.otCoapNewMessage false]
      else
        match deriveResponse_spec req with
        | none => [Effect.otCoapNewMessage true, Effect.otMessageFree]
        | some (t, c) =>
          Effect.otCoapNewMessage true :: build_order_spec Effect.otMessageFree
            [(Effect.otCoapMessageInitResponse t c env.otCoapMessageInitResponse,
              decide (env.otCoapMessageInitResponse = OT_ERROR_NONE)),
             (Effect.otCoapMessageSetPayloadMarker env.otCoapMessageSetPayloadMarker,
              decide (env.otCoapMessageSetPayloadMarker = OT_ERROR_NONE)),
             (Effect.otMessageAppend [state_byte s] env.otMessageAppend,
              decide (env.otMessageAppend = OT_ERROR_NONE)),
             (Effect.otCoapSendResponse ⟨t, c, [state_byte s]⟩ env.otCoapSendResponse,
              decide (env.otCoapSendResponse = OT_ERROR_NONE))] := by
  obtain ⟨a, e1, e2, e3, e4⟩ := env
  obtain ⟨t, c, p⟩ := req
  have hpg : OT_COAP_CODE_PUT ≠ OT_COAP_CODE_GET := by decide
  cases a <;> cases t <;>
    by_cases h1 : c = OT_COAP_CODE_GET <;>
    by_cases h2 : c = OT_COAP_CODE_PUT <;>
    by_cases k1 : e1 = OT_ERROR_NONE <;>
    by_cases k2 : e2 = OT_ERROR_NONE <;>
    by_cases k3 : e3 = OT_ERROR_NONE <;>
    by_cases k4 : e4 = OT_ERROR_NONE <;>
    simp [led_send_response, deriveResponse_spec, build_order_spec,
      OT_COAP_CODE_CONTENT, OT_COAP_CODE_CHANGED, h1, h2, k1, k2, k3, k4, hpg]

/-- `led_send_response` does not leak its message. -/
theorem led_send_response_no_leak (env : StackEnv) (req : Request) (s : Int)
    (halloc : env.otCoapNewMessage = true) :
    no_leak Effect.otMessageFree Effect.accepted (led_send_response env req s) := by
  obtain ⟨a, e1, e2, e3, e4⟩ := env
  obtain ⟨t, c, p⟩ := req
  have hpg : OT_COAP_CODE_PUT ≠ OT_COAP_CODE_GET := by decide
  simp only at halloc
  subst halloc
  cases t <;>
    by_cases h1 : c = OT_COAP_CODE_GET <;>
    by_cases h2 : c = OT_COAP_CODE_PUT <;>
    by_cases k1 : e1 = OT_ERROR_NONE <;>
    by_cases k2 : e2 = OT_ERROR_NONE <;>
    by_cases k3 : e3 = OT_ERROR_NONE <;>
    by_cases k4 : e4 = OT_ERROR_NONE <;>
    simp [led_send_response, no_leak, Effect.accepted, List.countP_cons,
      List.count_cons, h1, h2, k1, k2, k3, k4, hpg]

/-- `led_send_response` appends payload bytes only after the payload marker was
set successfully. -/
theorem led_send_response_marker_before_append (env : StackEnv) (req : Request)
    (s : Int) (bytes : List Nat) (e : Nat)
    (h : Effect.otMessageAppend bytes e ∈ led_send_response env req s) :
    Effect.otCoapMessageSetPayloadMarker OT_ERROR_NONE ∈
      led_send_response env req s := by
  obtain ⟨a, e1, e2, e3, e4⟩ := env
  obtain ⟨t, c, p⟩ := req
  have hpg : OT_COAP_CODE_PUT ≠ OT_COAP_CODE_GET := by decide
  revert h
  cases a <;> cases t <;>
    by_cases h1 : c = OT_COAP_CODE_GET <;>
    by_cases h2 : c = OT_COAP_CODE_PUT <;>
    by_cases k1 : e1 = OT_ERROR_NONE <;>
    by_cases k2 : e2 = OT_ERROR_NONE <;>
    by_cases k3 : e3 = OT_ERROR_NONE <;>
    by_cases k4 : e4 = OT_ERROR_NONE <;>
    simp [led_send_response, h1, h2, k1, k2, k3, k4, hpg]

end ot_coap_led

namespace ot_srp_coap_led

open openthread
open openthread.otCoapType
open ot_coap_led (Request CoapMessage StackEnv Effect state_byte otMessageRead
  deriveResponse_spec)

/-- The calls of `led_send_response` follow the build order. -/
theorem srp_led_send_response_build_order (env : StackEnv) (req : Request) (s : Int) :
    led_send_response env req s =
      if env.otCoapNewMessage = false then [Effect.otCoapNewMessage false]
      else
        match deriveResponse_spec req with
        | none => [Effect.otCoapNewMessage true, Effect.otMessageFree]
        | some (t, c) =>
          Effect.otCoapNewMessage true :: build_order_spec Effect.otMessageFree
            [(Effect.otCoapMessageInitResponse t c env.otCoapMessageInitResponse,
              decide (env.otCoapMessageInitResponse = OT_ERROR_NONE)),
             (Effect.otCoapMessageSetPayloadMarker env.otCoapMessageSetPayloadMarker,
              decide (env.otCoapMessageSetPayloadMarker = OT_ERROR_NONE)),
             (Effect.otMessageAppend [state_byte s] env.otMessageAppend,
              decide (env.otMessageAppend = OT_ERROR_NONE)),
             (Effect.otCoapSendResponse ⟨t, c, [state_byte s]⟩ env.otCoapSendResponse,
              decide (env.otCoapSendResponse = OT_ERROR_NONE))] := by
  obtain ⟨a, e1, e2, e3, e4⟩ := env
  obtain ⟨t, c, p⟩ := req
  have hpg : OT_COAP_CODE_PUT ≠ OT_COAP_CODE_GET := by decide
  cases a <;> cases t <;>
    by_cases h1 : c = OT_COAP_CODE_GET <;>
    by_cases h2 : c = OT_COAP_CODE_PUT <;>
    by_cases k1 : e1 = OT_ERROR_NONE <;>
    by_cases k2 : e2 = OT_ERROR_NONE <;>
    by_cases k3 : e3 = OT_ERROR_NONE <;>
    by_cases k4 : e4 = OT_ERROR_NONE <;>
    simp [led_send_response, deriveResponse_spec, build_order_spec,
      OT_COAP_CODE_CONTENT, OT_COAP_CODE_CHANGED, h1, h2, k1, k2, k3, k4, hpg]

/-- `led_send_response` does not leak its message. -/
theorem srp_led_send_response_no_leak (env : StackEnv) (req : Request) (s : Int)
    (halloc : env.otCoapNewMessage = true) :
    no_leak Effect.otMessageFree Effect.accepted (led_send_response env req s) := by
  obtain ⟨a, e1, e2, e3, e4⟩ := env
  obtain ⟨t, c, p⟩ := req
  have hpg : OT_COAP_CODE_PUT ≠ OT_COAP_CODE_GET := by decide
  simp only at halloc
  subst halloc
  cases t <;>
    by_cases h1 : c = OT_COAP_CODE_GET <;>
    by_cases h2 : c = OT_COAP_CODE_PUT <;>
    by_cases k1 : e1 = OT_ERROR_NONE <;>
    by_cases k2 : e2 = OT_ERROR_NONE <;>
    by_cases k3 : e3 = OT_ERROR_NONE <;>
    by_cases k4 : e4 = OT_ERROR_NONE <;>
    simp [led_send_response, no_leak, Effect.accepted, List.countP_cons,
      List.count_cons, h1, h2, k1, k2, k3, k4, hpg]

/-- `led_send_response` appends payload bytes only after the payload marker was
set successfully. -/
theorem srp_led_send_response_marker_before_append (env : StackEnv) (req : Request)
    (s : Int) (bytes : List Nat) (e : Nat)
    (h : Effect.otMessageAppend bytes e ∈ led_send_response env req s) :
    Effect.otCoapMessageSetPayloadMarker OT_ERROR_NONE ∈
      led_send_response env req s := by
  obtain ⟨a, e1, e2, e3, e4⟩ := env
  obtain ⟨t, c, p⟩ := req
  have hpg : OT_COAP_CODE_PUT ≠ OT_COAP_CODE_GET := by decide
  revert h
  cases a <;> cases t <;>
    by_cases h1 : c = OT_COAP_CODE_GET <;>
    by_cases h2 : c = OT_COAP_CODE_PUT <;>
    by_cases k1 : e1 = OT_ERROR_NONE <;>
    by_cases k2 : e2 = OT_ERROR_NONE <;>
    by_cases k3 : e3 = OT_ERROR_NONE <;>
    by_cases k4 : e4 = OT_ERROR_NONE <;>
    simp [led_send_response, h1, h2, k1, k2, k3, k4, hpg]

end ot_srp_coap_led

namespace ot_coaps_x509_led

open openthread
open openthread.otCoapType
open ot_coap_led (Request CoapMessage state_byte otMessageRead deriveResponse_spec)

/-- The calls of `led_send_response` follow the build order. -/
theorem secure_led_send_response_build_order (env : SecureStackEnv) (req : Request) (s : Int) :
    led_send_response env req s =
      if env.otCoapNewMessage = false then [SecureEffect.otCoapNewMessage false]
      else
        match deriveResponse_spec req with
        | none => [SecureEffect.otCoapNewMessage true, SecureEffect.otMessageFree]
        | some (t, c) =>
          SecureEffect.otCoapNewMessage true :: build_order_spec SecureEffect.otMessageFree
            [(SecureEffect.otCoapMessageInitResponse t c env.otCoapMessageInitResponse,
              decide (env.otCoapMessageInitResponse = OT_ERROR_NONE)),
             (SecureEffect.otCoapMessageSetPayloadMarker env.otCoapMessageSetPayloadMarker,
              decide (env.otCoapMessageSetPayloadMarker = OT_ERROR_NONE)),
             (SecureEffect.otMessageAppend [state_byte s] env.otMessageAppend,
              decide (env.otMessageAppend = OT_ERROR_NONE)),
             (SecureEffect.otCoapSecureSendResponse ⟨t, c, [state_byte s]⟩ env.otCoapSecureSendResponse,
              decide (env.otCoapSecureSendResponse = OT_ERROR_NONE))] := by
  obtain ⟨a, e1, e2, e3, e4⟩ := env
  obtain ⟨t, c, p⟩ := req
  have hpg : OT_COAP_CODE_PUT ≠ OT_COAP_CODE_GET := by decide
  cases a <;> cases t <;>
    by_cases h1 : c = OT_COAP_CODE_GET <;>
    by_cases h2 : c = OT_COAP_CODE_PUT <;>
    by_cases k1 : e1 = OT_ERROR_NONE <;>
    by_cases k2 : e2 = OT_ERROR_NONE <;>
    by_cases k3 : e3 = OT_ERROR_NONE <;>
    by_cases k4 : e4 = OT_ERROR_NONE <;>
    simp [led_send_response, deriveResponse_spec, build_order_spec,
      OT_COAP_CODE_CONTENT, OT_COAP_CODE_CHANGED, h1, h2, k1, k2, k3, k4, hpg]

/-- `led_send_response` does not leak its message. -/
theorem secure_led_send_response_no_leak (env : SecureStackEnv) (req : Request) (s : Int)
    (halloc : env.otCoapNewMessage = true) :
    no_leak SecureEffect.otMessageFree SecureEffect.accepted (led_send_response env req s) := by
  obtain ⟨a, e1, e2, e3, e4⟩ := env
  obtain ⟨t, c, p⟩ := req
  have hpg : OT_COAP_CODE_PUT ≠ OT_COAP_CODE_GET := by decide
  simp only at halloc
  subst halloc
  cases t <;>
    by_cases h1 : c = OT_COAP_CODE_GET <;>
    by_cases h2 : c = OT_COAP_CODE_PUT <;>
    by_cases k1 : e1 = OT_ERROR_NONE <;>
    by_cases k2 : e2 = OT_ERROR_NONE <;>
    by_cases k3 : e3 = OT_ERROR_NONE <;>
    by_cases k4 : e4 = OT_ERROR_NONE <;>
    simp [led_send_response, no_leak, SecureEffect.accepted, List.countP_cons,
      List.count_cons, h1, h2, k1, k2, k3, k4, hpg]

/-- `led_send_response` appends payload bytes only after the payload marker was
set successfully. -/
theorem secure_led_send_response_marker_before_append (env : SecureStackEnv) (req : Request)
    (s : Int) (bytes : List Nat) (e : Nat)
    (h : SecureEffect.otMessageAppend bytes e ∈ led_send_response env req s) :
    SecureEffect.otCoapMessageSetPayloadMarker OT_ERROR_NONE ∈
      led_send_response env req s := by
  obtain ⟨a, e1, e2, e3, e4⟩ := env
  obtain ⟨t, c, p⟩ := req
  have hpg : OT_COAP_CODE_PUT ≠ OT_COAP_CODE_GET := by decide
  revert h
  cases a <;> cases t <;>
    by_cases h1 : c = OT_COAP_CODE_GET <;>
    by_cases h2 : c = OT_COAP_CODE_PUT <;>
    by_cases k1 : e1 = OT_ERROR_NONE <;>
    by_cases k2 : e2 = OT_ERROR_NONE <;>
    by_cases k3 : e3 = OT_ERROR_NONE <;>
    by_cases k4 : e4 = OT_ERROR_NONE <;>
    simp [led_send_response, h1, h2, k1, k2, k3, k4, hpg]

end ot_coaps_x509_led

/-! ## The LED resource over the three transports -/

namespace ot_coaps_x509_led

open openthread
open openthread.otCoapType
open ot_coap_led (Request CoapMessage state_byte otMessageRead)

/-- The calls of the secured `led_send_response` are those of the plain one
with the send primitive renamed. -/
theorem secure_led_send_response_plain (env : SecureStackEnv) (req : Request) (s : Int) :
    (led_send_response env req s).map plain_effect =
      ot_coap_led.led_send_response (plain_env env) req s := by
  obtain ⟨a, e1, e2, e3, e4⟩ := env
  obtain ⟨t, c, p⟩ := req
  have hpg : OT_COAP_CODE_PUT ≠ OT_COAP_CODE_GET := by decide
  cases a <;> cases t <;>
    by_cases h1 : c = OT_COAP_CODE_GET <;>
    by_cases h2 : c = OT_COAP_CODE_PUT <;>
    by_cases k1 : e1 = OT_ERROR_NONE <;>
    by_cases k2 : e2 = OT_ERROR_NONE <;>
    by_cases k3 : e3 = OT_ERROR_NONE <;>
    by_cases k4 : e4 = OT_ERROR_NONE <;>
    simp [led_send_response, ot_coap_led.led_send_response, plain_env, plain_effect,
      h1, h2, k1, k2, k3, k4, hpg]

/-- The secured `led_requested` computes the state of the plain one and makes
its calls, with the send primitive renamed. -/
theorem secure_led_requested_plain (env : SecureStackEnv) (buf0 : Nat) (req : Request)
    (s : Int) :
    (led_requested env buf0 req s).1 =
      (ot_coap_led.led_requested (plain_env env) buf0 req s).1 ∧
    (led_requested env buf0 req s).2.map plain_effect =
      (ot_coap_led.led_requested (plain_env env) buf0 req s).2 := by
  unfold led_requested ot_coap_led.led_requested
  simp only []
  split_ifs <;>
    simp [List.map_append, secure_led_send_response_plain, plain_effect]

end ot_coaps_x509_led

namespace ot_srp_coap_led

open openthread
open openthread.otCoapType
open ot_coap_led (Request CoapMessage StackEnv Effect state_byte otMessageRead)

/-- The `led_send_response` of the SRP variant is that of the plain one. -/
theorem srp_led_send_response_plain (env : StackEnv) (req : Request) (s : Int) :
    led_send_response env req s = ot_coap_led.led_send_response env req s := rfl

/-- The `led_requested` of the SRP variant is that of the plain one. -/
theorem srp_led_requested_plain (env : StackEnv) (buf0 : Nat) (req : Request) (s : Int) :
    led_requested env buf0 req s = ot_coap_led.led_requested env buf0 req s := rfl

end ot_srp_coap_led

/-! ## Service registration -/

namespace ot_srp_coap_led

open openthread
open otDeviceRole

/-- In the trace of `init_srp`, `is_srp_client_running` is set exactly when the
three checked calls return no error, and an accepted `otSrpClientAddService`
call is recorded exactly then.  The allocation of the entry is not among the
checked calls. -/
theorem init_srp_result (env : SrpEnv) (running : Bool) :
    (init_srp env running).1 = (if env.ok then true else running) ∧
    registrations (init_srp env running).2 = (if env.ok then 1 else 0) ∧
    (init_srp env running).2 ≠ [] := by
  obtain ⟨e1, e2, a, e3⟩ := env
  by_cases k1 : e1 = OT_ERROR_NONE <;>
    by_cases k2 : e2 = OT_ERROR_NONE <;>
    by_cases k3 : e3 = OT_ERROR_NONE <;>
    simp [init_srp, SrpEnv.ok, registrations, k1, k2, k3]

/-- `on_thread_state_changed` runs `init_srp` exactly on a role-change
notification that finds the device attached and `is_srp_client_running`
false; otherwise it does nothing. -/
theorem on_thread_state_changed_eq (flags : Nat) (role : otDeviceRole) (env : SrpEnv)
    (running : Bool) :
    on_thread_state_changed flags role env running =
      if flags &&& OT_CHANGED_THREAD_ROLE ≠ 0 ∧ role.attached = true ∧ running = false
      then init_srp env running else (running, []) := by
  unfold on_thread_state_changed
  by_cases hf : flags &&& OT_CHANGED_THREAD_ROLE ≠ 0 <;>
    cases role <;> cases running <;> simp [hf, otDeviceRole.attached]

/-- Once `is_srp_client_running` is true, no notification does anything. -/
theorem notify_running (ns : List Notification) :
    (notify true ns).1 = true ∧ ∀ tr ∈ (notify true ns).2, tr = [] := by
  induction ns with
  | nil => simp [notify]
  | cons n ns ih =>
    have h : on_thread_state_changed n.flags n.role n.env true = (true, []) := by
      rw [on_thread_state_changed_eq]; simp
    simp only [notify, h]
    refine ⟨ih.1, ?_⟩
    intro tr htr
    rcases List.mem_cons.1 htr with h1 | h1
    · exact h1
    · exact ih.2 tr h1

/-- Over any sequence of notifications the traces hold one accepted
`otSrpClientAddService` call when `is_srp_client_running` ends true and none
otherwise. -/
theorem notify_registrations (ns : List Notification) :
    ((notify false ns).2.map registrations).sum =
      (if (notify false ns).1 = true then 1 else 0) := by
  induction ns with
  | nil => simp [notify]
  | cons n ns ih =>
    simp only [notify, List.map_cons, List.sum_cons]
    have key : ((on_thread_state_changed n.flags n.role n.env false).1 = true ∧
          registrations (on_thread_state_changed n.flags n.role n.env false).2 = 1) ∨
        ((on_thread_state_changed n.flags n.role n.env false).1 = false ∧
          registrations (on_thread_state_changed n.flags n.role n.env false).2 = 0) := by
      rw [on_thread_state_changed_eq]
      by_cases hc : n.flags &&& OT_CHANGED_THREAD_ROLE ≠ 0 ∧ n.role.attached = true ∧
          false = false
      · rw [if_pos hc]
        obtain ⟨h1, h2, _⟩ := init_srp_result n.env false
        by_cases hk : n.env.ok
        · rw [if_pos hk] at h1 h2
          exact Or.inl ⟨h1, h2⟩
        · rw [if_neg hk] at h1 h2
          exact Or.inr ⟨h1, h2⟩
      · rw [if_neg hc]
        exact Or.inr ⟨rfl, rfl⟩
    rcases key with ⟨h1, h2⟩ | ⟨h1, h2⟩
    · simp only [h1, h2]
      have hr := notify_running ns
      have hz : ((notify true ns).2.map registrations).sum = 0 := by
        apply List.sum_eq_zero
        intro x hx
        obtain ⟨tr, htr, rfl⟩ := List.mem_map.1 hx
        rw [hr.2 tr htr]; rfl
      simp only [hz, hr.1]; simp
    · simp only [h1, h2, ih]; simp

/-- C16, as stated, fails.  With every SRP call succeeding, a first join
(role child) registers the service, and after a detach the second join
registers nothing.  And when `init_srp` fails on the join, a later change from
child to router, which is no join, registers the service. -/
theorem srp_registration_counterexample :
    (notify is_srp_client_running_init
      [⟨OT_CHANGED_THREAD_ROLE, OT_DEVICE_ROLE_CHILD, srp_env_ok⟩,
       ⟨OT_CHANGED_THREAD_ROLE, OT_DEVICE_ROLE_DETACHED, srp_env_ok⟩,
       ⟨OT_CHANGED_THREAD_ROLE, OT_DEVICE_ROLE_CHILD, srp_env_ok⟩]).2.map registrations
      = [1, 0, 0] ∧
    (notify is_srp_client_running_init
      [⟨OT_CHANGED_THREAD_ROLE, OT_DEVICE_ROLE_DETACHED, srp_env_ok⟩,
       ⟨OT_CHANGED_THREAD_ROLE, OT_DEVICE_ROLE_CHILD, ⟨1, 0, true, 0⟩⟩,
       ⟨OT_CHANGED_THREAD_ROLE, OT_DEVICE_ROLE_ROUTER, srp_env_ok⟩]).2.map registrations
      = [0, 0, 1] := by
  decide

/-- On a run of `init_srp` that does not meet a `NULL` service entry, the flag
is set and the service registered exactly when every call succeeds. -/
theorem init_srp_result_entry (env : SrpEnv) (running : Bool)
    (hentry : SrpCall.otSrpClientBuffersAllocateService false ∉
      (init_srp env running).2) :
    (init_srp env running).1 = (if env.all_succeed then true else running) ∧
    registrations (init_srp env running).2 = (if env.all_succeed then 1 else 0) := by
  obtain ⟨e1, e2, a, e3⟩ := env
  revert hentry
  cases a <;>
    by_cases k1 : e1 = OT_ERROR_NONE <;>
    by_cases k2 : e2 = OT_ERROR_NONE <;>
    by_cases k3 : e3 = OT_ERROR_NONE <;>
    simp [init_srp, SrpEnv.all_succeed, registrations, k1, k2, k3]

/-- C16, amended: registration happens at most once per run of the program.
`on_thread_state_changed` runs `init_srp` exactly on the notifications that
carry the role-changed flag, find the device in role child, router or leader,
and find `is_srp_client_running` false.  On executions in which no allocation
of the service entry returns `NULL`: such a run registers the service and sets
the flag exactly when setting the host name, enabling auto host address,
allocating the entry and adding the service all succeed; and over the whole
sequence of notifications the service is registered once if the flag ends set
and never otherwise.  Once the flag is set no notification causes any call.
What `init_srp` does with a `NULL` entry is not part of this statement. -/
theorem srp_registration_once (ns : List Notification) (n : Notification)
    (running : Bool) :
    ((on_thread_state_changed n.flags n.role n.env running).2 ≠ [] ↔
      n.flags &&& OT_CHANGED_THREAD_ROLE ≠ 0 ∧ n.role.attached = true ∧
        running = false) ∧
    (n.flags &&& OT_CHANGED_THREAD_ROLE ≠ 0 → n.role.attached = true →
      running = false →
      SrpCall.otSrpClientBuffersAllocateService false ∉
        (on_thread_state_changed n.flags n.role n.env running).2 →
      registrations (on_thread_state_changed n.flags n.role n.env running).2 =
        (if n.env.all_succeed then 1 else 0) ∧
      (on_thread_state_changed n.flags n.role n.env running).1 =
        (if n.env.all_succeed then true else false)) ∧
    ((notify true ns).1 = true ∧ ∀ tr ∈ (notify true ns).2, tr = []) ∧
    ((∀ tr ∈ (notify is_srp_client_running_init ns).2,
        SrpCall.otSrpClientBuffersAllocateService false ∉ tr) →
      ((notify is_srp_client_running_init ns).2.map registrations).sum =
        (if (notify is_srp_client_running_init ns).1 = true then 1 else 0) ∧
      ((notify is_srp_client_running_init ns).2.map registrations).sum ≤ 1) := by
  have hsum := notify_registrations ns
  refine ⟨?_, ?_, notify_running ns, ?_⟩
  · rw [on_thread_state_changed_eq]
    by_cases hc : n.flags &&& OT_CHANGED_THREAD_ROLE ≠ 0 ∧ n.role.attached = true ∧
        running = false
    · rw [if_pos hc]
      exact ⟨fun _ => hc, fun _ => (init_srp_result n.env running).2.2⟩
    · rw [if_neg hc]
      exact ⟨fun h => absurd rfl h, fun h => absurd h hc⟩
  · intro hf ha hr
    rw [on_thread_state_changed_eq, if_pos ⟨hf, ha, hr⟩]
    intro hentry
    obtain ⟨h1, h2⟩ := init_srp_result_entry n.env running hentry
    subst hr
    exact ⟨h2, h1⟩
  · intro _
    unfold is_srp_client_running_init at hsum ⊢
    refine ⟨hsum, ?_⟩
    rw [hsum]
    split_ifs <;> omega

/-- Witness for C16: a join on which every SRP call succeeds, then a detach and
a second join.  No allocation returns `NULL`, the first join registers the
service and sets the flag, and the service is registered once in all. -/
theorem srp_registration_once_witness :
    (∀ tr ∈ (notify is_srp_client_running_init
        [⟨OT_CHANGED_THREAD_ROLE, OT_DEVICE_ROLE_CHILD, srp_env_ok⟩,
         ⟨OT_CHANGED_THREAD_ROLE, OT_DEVICE_ROLE_DETACHED, srp_env_ok⟩,
         ⟨OT_CHANGED_THREAD_ROLE, OT_DEVICE_ROLE_CHILD, srp_env_ok⟩]).2,
      SrpCall.otSrpClientBuffersAllocateService false ∉ tr) ∧
    registrations (on_thread_state_changed OT_CHANGED_THREAD_ROLE
      OT_DEVICE_ROLE_CHILD srp_env_ok false).2 = 1 ∧
    (on_thread_state_changed OT_CHANGED_THREAD_ROLE
      OT_DEVICE_ROLE_CHILD srp_env_ok false).1 = true ∧
    ((notify is_srp_client_running_init
        [⟨OT_CHANGED_THREAD_ROLE, OT_DEVICE_ROLE_CHILD, srp_env_ok⟩,
         ⟨OT_CHANGED_THREAD_ROLE, OT_DEVICE_ROLE_DETACHED, srp_env_ok⟩,
         ⟨OT_CHANGED_THREAD_ROLE, OT_DEVICE_ROLE_CHILD, srp_env_ok⟩]).2.map
      registrations).sum = 1 := by
  have h := srp_registration_once
    [⟨OT_CHANGED_THREAD_ROLE, OT_DEVICE_ROLE_CHILD, srp_env_ok⟩,
     ⟨OT_CHANGED_THREAD_ROLE, OT_DEVICE_ROLE_DETACHED, srp_env_ok⟩,
     ⟨OT_CHANGED_THREAD_ROLE, OT_DEVICE_ROLE_CHILD, srp_env_ok⟩]
    ⟨OT_CHANGED_THREAD_ROLE, OT_DEVICE_ROLE_CHILD, srp_env_ok⟩ false
  have hn : ∀ tr ∈ (notify is_srp_client_running_init
      [⟨OT_CHANGED_THREAD_ROLE, OT_DEVICE_ROLE_CHILD, srp_env_ok⟩,
       ⟨OT_CHANGED_THREAD_ROLE, OT_DEVICE_ROLE_DETACHED, srp_env_ok⟩,
       ⟨OT_CHANGED_THREAD_ROLE, OT_DEVICE_ROLE_CHILD, srp_env_ok⟩]).2,
      SrpCall.otSrpClientBuffersAllocateService false ∉ tr := by decide
  have h2 := h.2.1 (by decide) (by decide) rfl (by decide)
  have h4 := (h.2.2.2 hn).1
  refine ⟨hn, ?_, ?_, ?_⟩
  · rw [h2.1]; decide
  · rw [h2.2]; decide
  · rw [h4]; decide

end ot_srp_coap_led

/-! ## Claims about all the applications -/

namespace applications

open openthread
open openthread.otCoapType
open ot_coap_led (Request CoapMessage StackEnv Effect state_byte deriveResponse_spec)
open ot_coap_bme280 (Call CoapRequest otMessageInfo RequestEnv otExtAddress sensor_value
  json_buf)
open ot_coap_button (ButtonEnv)
open ot_coaps_x509_led (SecureStackEnv SecureEffect)

/-- C17: build order in every builder.  In each of the seven builders the calls
made are the allocation followed, in this order, by the call that sets type and
code (init or init-response), the Uri-Path option (requests), the Content-Format
option (sensor publication only), the payload marker, the payload bytes and the
send call, cut after the first call that fails and then followed by the free.
So each step is executed only if every earlier step succeeded, and payload bytes
are appended only in a trace where the payload marker was set successfully. -/
theorem builders_build_order (renv : RequestEnv) (eui64 : otExtAddress)
    (temp press hum : sensor_value) (benv : ButtonEnv) (penv cenv : SecureRequestEnv)
    (env senv : StackEnv) (xenv : SecureStackEnv) (req : Request) (s : Int) :
    (ot_coap_bme280.send_sensor_request renv eui64 temp press hum =
      (if renv.otCoapNewMessage = false then [Call.otCoapNewMessage false]
      else Call.otCoapNewMessage true :: build_order_spec Call.otMessageFree
        [(Call.otCoapMessageInit OT_COAP_TYPE_NON_CONFIRMABLE OT_COAP_CODE_PUT, true),
         (Call.otCoapMessageAppendUriPathOptions "sensor"
            renv.otCoapMessageAppendUriPathOptions,
          decide (renv.otCoapMessageAppendUriPathOptions = OT_ERROR_NONE)),
         (Call.otCoapMessageAppendContentFormatOption OT_COAP_OPTION_CONTENT_FORMAT_JSON
            renv.otCoapMessageAppendContentFormatOption,
          decide (renv.otCoapMessageAppendContentFormatOption = OT_ERROR_NONE)),
         (Call.otCoapMessageSetPayloadMarker renv.otCoapMessageSetPayloadMarker,
          decide (renv.otCoapMessageSetPayloadMarker = OT_ERROR_NONE)),
         (Call.otMessageAppend (json_buf eui64 temp press hum) renv.otMessageAppend,
          decide (renv.otMessageAppend = OT_ERROR_NONE)),
         (Call.otCoapSendRequest
            ⟨OT_COAP_TYPE_NON_CONFIRMABLE, OT_COAP_CODE_PUT, ["sensor"],
              some OT_COAP_OPTION_CONTENT_FORMAT_JSON, json_buf eui64 temp press hum⟩
            ⟨"ff03::1", OT_DEFAULT_COAP_PORT⟩ renv.otCoapSendRequest,
          decide (renv.otCoapSendRequest = OT_ERROR_NONE))])) ∧
    (ot_coap_button.send_led_request benv =
      (if benv.otCoapNewMessage = false then [Call.otCoapNewMessage false]
      else Call.otCoapNewMessage true :: build_order_spec Call.otMessageFree
        [(Call.otCoapMessageInit OT_COAP_TYPE_CONFIRMABLE OT_COAP_CODE_PUT, true),
         (Call.otCoapMessageAppendUriPathOptions "led"
            benv.otCoapMessageAppendUriPathOptions,
          decide (benv.otCoapMessageAppendUriPathOptions = OT_ERROR_NONE)),
         (Call.otCoapMessageSetPayloadMarker benv.otCoapMessageSetPayloadMarker,
          decide (benv.otCoapMessageSetPayloadMarker = OT_ERROR_NONE)),
         (Call.otMessageAppend ['2'] benv.otMessageAppend,
          decide (benv.otMessageAppend = OT_ERROR_NONE)),
         (Call.otCoapSendRequest
            ⟨OT_COAP_TYPE_CONFIRMABLE, OT_COAP_CODE_PUT, ["led"], none, ['2']⟩ ⟨"ff03::1", OT_DEFAULT_COAP_PORT⟩
            benv.otCoapSendRequest,
          decide (benv.otCoapSendRequest = OT_ERROR_NONE))])) ∧
    (ot_coaps_button.send_led_request penv =
      (if penv.otCoapNewMessage = false then [SecureCall.otCoapNewMessage false]
      else SecureCall.otCoapNewMessage true :: build_order_spec SecureCall.otMessageFree
        [(SecureCall.otCoapMessageInit OT_COAP_TYPE_CONFIRMABLE OT_COAP_CODE_PUT, true),
         (SecureCall.otCoapMessageAppendUriPathOptions "led"
            penv.otCoapMessageAppendUriPathOptions,
          decide (penv.otCoapMessageAppendUriPathOptions = OT_ERROR_NONE)),
         (SecureCall.otCoapMessageSetPayloadMarker penv.otCoapMessageSetPayloadMarker,
          decide (penv.otCoapMessageSetPayloadMarker = OT_ERROR_NONE)),
         (SecureCall.otMessageAppend ['2'] penv.otMessageAppend,
          decide (penv.otMessageAppend = OT_ERROR_NONE)),
         (SecureCall.otCoapSecureSendRequest
            ⟨OT_COAP_TYPE_CONFIRMABLE, OT_COAP_CODE_PUT, ["led"], none, ['2']⟩
            penv.otCoapSecureSendRequest,
          decide (penv.otCoapSecureSendRequest = OT_ERROR_NONE))])) ∧
    (ot_coaps_x509_button.send_led_request cenv =
      (if cenv.otCoapNewMessage = false then [SecureCall.otCoapNewMessage false]
      else SecureCall.otCoapNewMessage true :: build_order_spec SecureCall.otMessageFree
        [(SecureCall.otCoapMessageInit OT_COAP_TYPE_CONFIRMABLE OT_COAP_CODE_PUT, true),
         (SecureCall.otCoapMessageAppendUriPathOptions "led"
            cenv.otCoapMessageAppendUriPathOptions,
          decide (cenv.otCoapMessageAppendUriPathOptions = OT_ERROR_NONE)),
         (SecureCall.otCoapMessageSetPayloadMarker cenv.otCoapMessageSetPayloadMarker,
          decide (cenv.otCoapMessageSetPayloadMarker = OT_ERROR_NONE)),
         (SecureCall.otMessageAppend ['2'] cenv.otMessageAppend,
          decide (cenv.otMessageAppend = OT_ERROR_NONE)),
         (SecureCall.otCoapSecureSendRequest
            ⟨OT_COAP_TYPE_CONFIRMABLE, OT_COAP_CODE_PUT, ["led"], none, ['2']⟩
            cenv.otCoapSecureSendRequest,
          decide (cenv.otCoapSecureSendRequest = OT_ERROR_NONE))])) ∧
    (ot_coap_led.led_send_response env req s =
      (if env.otCoapNewMessage = false then [Effect.otCoapNewMessage false]
      else
        match deriveResponse_spec req with
        | none => [Effect.otCoapNewMessage true, Effect.otMessageFree]
        | some (t, c) =>
          Effect.otCoapNewMessage true :: build_order_spec Effect.otMessageFree
            [(Effect.otCoapMessageInitResponse t c env.otCoapMessageInitResponse,
              decide (env.otCoapMessageInitResponse = OT_ERROR_NONE)),
             (Effect.otCoapMessageSetPayloadMarker env.otCoapMessageSetPayloadMarker,
              decide (env.otCoapMessageSetPayloadMarker = OT_ERROR_NONE)),
             (Effect.otMessageAppend [state_byte s] env.otMessageAppend,
              decide (env.otMessageAppend = OT_ERROR_NONE)),
             (Effect.otCoapSendResponse ⟨t, c, [state_byte s]⟩ env.otCoapSendResponse,
              decide (env.otCoapSendResponse = OT_ERROR_NONE))])) ∧
    (ot_srp_coap_led.led_send_response senv req s =
      (if senv.otCoapNewMessage = false then [Effect.otCoapNewMessage false]
      else
        match deriveResponse_spec req with
        | none => [Effect.otCoapNewMessage true, Effect.otMessageFree]
        | some (t, c) =>
          Effect.otCoapNewMessage true :: build_order_spec Effect.otMessageFree
            [(Effect.otCoapMessageInitResponse t c senv.otCoapMessageInitResponse,
              decide (senv.otCoapMessageInitResponse = OT_ERROR_NONE)),
             (Effect.otCoapMessageSetPayloadMarker senv.otCoapMessageSetPayloadMarker,
              decide (senv.otCoapMessageSetPayloadMarker = OT_ERROR_NONE)),
             (Effect.otMessageAppend [state_byte s] senv.otMessageAppend,
              decide (senv.otMessageAppend = OT_ERROR_NONE)),
             (Effect.otCoapSendResponse ⟨t, c, [state_byte s]⟩ senv.otCoapSendResponse,
              decide (senv.otCoapSendResponse = OT_ERROR_NONE))])) ∧
    (ot_coaps_x509_led.led_send_response xenv req s =
      (if xenv.otCoapNewMessage = false then [SecureEffect.otCoapNewMessage false]
      else
        match deriveResponse_spec req with
        | none => [SecureEffect.otCoapNewMessage true, SecureEffect.otMessageFree]
        | some (t, c) =>
          SecureEffect.otCoapNewMessage true :: build_order_spec SecureEffect.otMessageFree
            [(SecureEffect.otCoapMessageInitResponse t c xenv.otCoapMessageInitResponse,
              decide (xenv.otCoapMessageInitResponse = OT_ERROR_NONE)),
             (SecureEffect.otCoapMessageSetPayloadMarker xenv.otCoapMessageSetPayloadMarker,
              decide (xenv.otCoapMessageSetPayloadMarker = OT_ERROR_NONE)),
             (SecureEffect.otMessageAppend [state_byte s] xenv.otMessageAppend,
              decide (xenv.otMessageAppend = OT_ERROR_NONE)),
             (SecureEffect.otCoapSecureSendResponse ⟨t, c, [state_byte s]⟩ xenv.otCoapSecureSendResponse,
              decide (xenv.otCoapSecureSendResponse = OT_ERROR_NONE))])) ∧
    (∀ bytes e,
      Call.otMessageAppend bytes e ∈
        ot_coap_bme280.send_sensor_request renv eui64 temp press hum →
      Call.otCoapMessageSetPayloadMarker OT_ERROR_NONE ∈
        ot_coap_bme280.send_sensor_request renv eui64 temp press hum) ∧
    (∀ bytes e, Call.otMessageAppend bytes e ∈ ot_coap_button.send_led_request benv →
      Call.otCoapMessageSetPayloadMarker OT_ERROR_NONE ∈
        ot_coap_button.send_led_request benv) ∧
    (∀ bytes e,
      SecureCall.otMessageAppend bytes e ∈ ot_coaps_button.send_led_request penv →
      SecureCall.otCoapMessageSetPayloadMarker OT_ERROR_NONE ∈
        ot_coaps_button.send_led_request penv) ∧
    (∀ bytes e,
      SecureCall.otMessageAppend bytes e ∈ ot_coaps_x509_button.send_led_request cenv →
      SecureCall.otCoapMessageSetPayloadMarker OT_ERROR_NONE ∈
        ot_coaps_x509_button.send_led_request cenv) ∧
    (∀ bytes e,
      Effect.otMessageAppend bytes e ∈ ot_coap_led.led_send_response env req s →
      Effect.otCoapMessageSetPayloadMarker OT_ERROR_NONE ∈
        ot_coap_led.led_send_response env req s) ∧
    (∀ bytes e,
      Effect.otMessageAppend bytes e ∈ ot_srp_coap_led.led_send_response senv req s →
      Effect.otCoapMessageSetPayloadMarker OT_ERROR_NONE ∈
        ot_srp_coap_led.led_send_response senv req s) ∧
    (∀ bytes e,
      SecureEffect.otMessageAppend bytes e ∈
        ot_coaps_x509_led.led_send_response xenv req s →
      SecureEffect.otCoapMessageSetPayloadMarker OT_ERROR_NONE ∈
        ot_coaps_x509_led.led_send_response xenv req s) := by
  refine ⟨ot_coap_bme280.send_sensor_request_build_order renv eui64 temp press hum,
    ot_coap_button.plain_send_led_request_build_order benv,
    ot_coaps_button.psk_send_led_request_build_order penv,
    ot_coaps_x509_button.x509_send_led_request_build_order cenv,
    ot_coap_led.led_send_response_build_order env req s,
    ot_srp_coap_led.srp_led_send_response_build_order senv req s,
    ot_coaps_x509_led.secure_led_send_response_build_order xenv req s, ?_, ?_, ?_, ?_, ?_, ?_, ?_⟩
  · intro bytes e h
    exact ot_coap_bme280.send_sensor_request_marker_before_append renv eui64 temp press
      hum bytes e h
  · intro bytes e h
    exact ot_coap_button.plain_send_led_request_marker_before_append benv bytes e h
  · intro bytes e h
    exact ot_coaps_button.psk_send_led_request_marker_before_append penv bytes e h
  · intro bytes e h
    exact ot_coaps_x509_button.x509_send_led_request_marker_before_append cenv bytes e h
  · intro bytes e h
    exact ot_coap_led.led_send_response_marker_before_append env req s bytes e h
  · intro bytes e h
    exact ot_srp_coap_led.srp_led_send_response_marker_before_append senv req s bytes e h
  · intro bytes e h
    exact ot_coaps_x509_led.secure_led_send_response_marker_before_append xenv req s bytes e h

/-- C12: no message leak in any builder.  In each of the seven builders, on
every execution in which the message was allocated and whatever the later stack
calls answer, either one send call accepted the message and it is not freed, or
no send call accepted it and it is freed exactly once, by the last call. -/
theorem builders_no_leak (renv : RequestEnv) (eui64 : otExtAddress)
    (temp press hum : sensor_value) (benv : ButtonEnv) (penv cenv : SecureRequestEnv)
    (env senv : StackEnv) (xenv : SecureStackEnv) (req : Request) (s : Int) :
    (renv.otCoapNewMessage = true →
      no_leak Call.otMessageFree request_accepted
        (ot_coap_bme280.send_sensor_request renv eui64 temp press hum)) ∧
    (benv.otCoapNewMessage = true →
      no_leak Call.otMessageFree request_accepted
        (ot_coap_button.send_led_request benv)) ∧
    (penv.otCoapNewMessage = true →
      no_leak SecureCall.otMessageFree SecureCall.accepted
        (ot_coaps_button.send_led_request penv)) ∧
    (cenv.otCoapNewMessage = true →
      no_leak SecureCall.otMessageFree SecureCall.accepted
        (ot_coaps_x509_button.send_led_request cenv)) ∧
    (env.otCoapNewMessage = true →
      no_leak Effect.otMessageFree Effect.accepted
        (ot_coap_led.led_send_response env req s)) ∧
    (senv.otCoapNewMessage = true →
      no_leak Effect.otMessageFree Effect.accepted
        (ot_srp_coap_led.led_send_response senv req s)) ∧
    (xenv.otCoapNewMessage = true →
      no_leak SecureEffect.otMessageFree SecureEffect.accepted
        (ot_coaps_x509_led.led_send_response xenv req s)) := by
  refine ⟨?_, ?_, ?_, ?_, ?_, ?_, ?_⟩
  · exact ot_coap_bme280.send_sensor_request_no_leak renv eui64 temp press hum
  · exact ot_coap_button.plain_send_led_request_no_leak benv
  · exact ot_coaps_button.psk_send_led_request_no_leak penv
  · exact ot_coaps_x509_button.x509_send_led_request_no_leak cenv
  · exact ot_coap_led.led_send_response_no_leak env req s
  · exact ot_srp_coap_led.srp_led_send_response_no_leak senv req s
  · exact ot_coaps_x509_led.secure_led_send_response_no_leak xenv req s

/-- C13: transport independence of the LED resource.  For every prior state and
every inbound request, `led_requested` and `led_send_response` of the SRP
variant are those of the plain variant; those of the DTLS-secured variant
compute the same new `led_state` and make the same calls with the same
arguments and results, but for the send primitive, which is
`otCoapSecureSendResponse` in place of `otCoapSendResponse`.  So the decision
whether to respond and the type, code and payload of the response are the same
in the three variants. -/
theorem led_transport_independent (env : StackEnv) (xenv : SecureStackEnv)
    (buf0 : Nat) (req : Request) (s : Int) :
    ot_srp_coap_led.led_requested env buf0 req s =
      ot_coap_led.led_requested env buf0 req s ∧
    ot_srp_coap_led.led_send_response env req s =
      ot_coap_led.led_send_response env req s ∧
    (ot_coaps_x509_led.led_requested xenv buf0 req s).1 =
      (ot_coap_led.led_requested (ot_coaps_x509_led.plain_env xenv) buf0 req s).1 ∧
    (ot_coaps_x509_led.led_requested xenv buf0 req s).2.map
        ot_coaps_x509_led.plain_effect =
      (ot_coap_led.led_requested (ot_coaps_x509_led.plain_env xenv) buf0 req s).2 ∧
    (ot_coaps_x509_led.led_send_response xenv req s).map
        ot_coaps_x509_led.plain_effect =
      ot_coap_led.led_send_response (ot_coaps_x509_led.plain_env xenv) req s ∧
    ot_coap_led.emitted ((ot_coaps_x509_led.led_requested xenv buf0 req s).2.map
        ot_coaps_x509_led.plain_effect) =
      ot_coap_led.emitted
        (ot_coap_led.led_requested (ot_coaps_x509_led.plain_env xenv) buf0 req s).2 ∧
    (∀ m e, ot_coaps_x509_led.plain_effect
        (SecureEffect.otCoapSecureSendResponse m e) = Effect.otCoapSendResponse m e) := by
  have hx := ot_coaps_x509_led.secure_led_requested_plain xenv buf0 req s
  refine ⟨ot_srp_coap_led.srp_led_requested_plain env buf0 req s,
    ot_srp_coap_led.srp_led_send_response_plain env req s, hx.1, hx.2,
    ot_coaps_x509_led.secure_led_send_response_plain xenv req s, ?_, ?_⟩
  · rw [hx.2]
  · intro m e
    rfl

end applications

namespace applications

open openthread
open openthread.otCoapType
open ot_coap_bme280 (Call CoapRequest otMessageInfo RequestEnv otExtAddress sensor_value)
open ot_coap_button (ButtonEnv button_env_ok)

/-! ## Destination addressing -/

/-- Every send call of `send_sensor_request` is addressed to `ff03::1`. -/
theorem send_sensor_request_peer (env : RequestEnv) (eui64 : otExtAddress)
    (temp press hum : sensor_value) (m : CoapRequest) (info : otMessageInfo) (e : Nat)
    (h : Call.otCoapSendRequest m info e ∈
      ot_coap_bme280.send_sensor_request env eui64 temp press hum) :
    info = ⟨"ff03::1", OT_DEFAULT_COAP_PORT⟩ := by
  rw [ot_coap_bme280.send_sensor_request_build_order] at h
  obtain ⟨a, e1, e2, e3, e4, e5⟩ := env
  revert h
  cases a <;>
    by_cases k1 : e1 = OT_ERROR_NONE <;>
    by_cases k2 : e2 = OT_ERROR_NONE <;>
    by_cases k3 : e3 = OT_ERROR_NONE <;>
    by_cases k4 : e4 = OT_ERROR_NONE <;>
    by_cases k5 : e5 = OT_ERROR_NONE <;>
    simp [build_order_spec, k1, k2, k3, k4, k5] <;>
    intros <;> simp_all

/-- Every send call of the plain `send_led_request` carries the Confirmable PUT
to `led` with payload `'2'` and is addressed to `ff03::1`. -/
theorem send_led_request_peer (env : ButtonEnv) (m : CoapRequest)
    (info : otMessageInfo) (e : Nat)
    (h : Call.otCoapSendRequest m info e ∈ ot_coap_button.send_led_request env) :
    m = ⟨OT_COAP_TYPE_CONFIRMABLE, OT_COAP_CODE_PUT, ["led"], none, ['2']⟩ ∧
    info = ⟨"ff03::1", OT_DEFAULT_COAP_PORT⟩ := by
  rw [ot_coap_button.plain_send_led_request_build_order] at h
  obtain ⟨a, e1, e2, e3, e4⟩ := env
  revert h
  cases a <;>
    by_cases k1 : e1 = OT_ERROR_NONE <;>
    by_cases k2 : e2 = OT_ERROR_NONE <;>
    by_cases k3 : e3 = OT_ERROR_NONE <;>
    by_cases k4 : e4 = OT_ERROR_NONE <;>
    simp [build_order_spec, k1, k2, k3, k4] <;>
    intros <;> simp_all

/-- Every connection attempt of the `init_coap` of the PSK client goes to
`server_address`, port 5684. -/
theorem psk_init_coap_connect (env : SecureInitEnv) (addr : String) (port e : Nat)
    (h : SecureCall.otCoapSecureConnect addr port e ∈ ot_coaps_button.init_coap env) :
    addr = "fd3a:3a7a:3ffe:406f:d732:851f:52af:fd79" ∧
    port = OT_DEFAULT_COAP_SECURE_PORT := by
  obtain ⟨e1, e2, e3⟩ := env
  revert h
  by_cases k1 : e1 = OT_ERROR_NONE <;>
    by_cases k2 : e2 = OT_ERROR_NONE <;>
    simp [ot_coaps_button.init_coap, ot_coaps_button.server_address, k1, k2]
  intros
  simp_all

/-- Every connection attempt of the `init_coap` of the certificate client goes
to `server_address`, port 5684. -/
theorem x509_init_coap_connect (env : SecureInitEnv) (addr : String) (port e : Nat)
    (h : SecureCall.otCoapSecureConnect addr port e ∈
      ot_coaps_x509_button.init_coap env) :
    addr = "fd3a:3a7a:3ffe:406f:d732:851f:52af:fd79" ∧
    port = OT_DEFAULT_COAP_SECURE_PORT := by
  obtain ⟨e1, e2, e3⟩ := env
  revert h
  by_cases k1 : e1 = OT_ERROR_NONE <;>
    by_cases k2 : e2 = OT_ERROR_NONE <;>
    simp [ot_coaps_x509_button.init_coap, ot_coaps_x509_button.server_address, k1, k2]
  intros
  simp_all

/-- C11, as stated, fails for the plain button client: with every stack call
succeeding, its `send_led_request` hands `otCoapSendRequest` a Confirmable PUT
addressed to `ff03::1`, a multicast address. -/
theorem destination_addressing_counterexample :
    ot_coap_button.send_led_request button_env_ok =
      [Call.otCoapNewMessage true,
       Call.otCoapMessageInit OT_COAP_TYPE_CONFIRMABLE OT_COAP_CODE_PUT,
       Call.otCoapMessageAppendUriPathOptions "led" OT_ERROR_NONE,
       Call.otCoapMessageSetPayloadMarker OT_ERROR_NONE,
       Call.otMessageAppend ['2'] OT_ERROR_NONE,
       Call.otCoapSendRequest
         ⟨OT_COAP_TYPE_CONFIRMABLE, OT_COAP_CODE_PUT, ["led"], none, ['2']⟩
         ⟨"ff03::1", OT_DEFAULT_COAP_PORT⟩ OT_ERROR_NONE] ∧
    is_multicast "ff03::1" = true := by
  decide

/-- C11, amended: the sensor publication built by `send_sensor_request` and the
Confirmable actuator-control request built by the plain `send_led_request` are
both addressed to the multicast address `ff03::1`, port 5683.  The PSK and
certificate clients give their send call no address: their requests go over the
DTLS session, and every connection attempt of their `init_coap` is to the
unicast address `fd3a:3a7a:3ffe:406f:d732:851f:52af:fd79`, port 5684. -/
theorem destination_addressing (renv : RequestEnv) (eui64 : otExtAddress)
    (temp press hum : sensor_value) (benv : ButtonEnv) (penv cenv : SecureInitEnv) :
    (∀ m info e, Call.otCoapSendRequest m info e ∈
        ot_coap_bme280.send_sensor_request renv eui64 temp press hum →
      info = ⟨"ff03::1", OT_DEFAULT_COAP_PORT⟩) ∧
    (∀ m info e, Call.otCoapSendRequest m info e ∈
        ot_coap_button.send_led_request benv →
      m.type = OT_COAP_TYPE_CONFIRMABLE ∧ info = ⟨"ff03::1", OT_DEFAULT_COAP_PORT⟩) ∧
    is_multicast "ff03::1" = true ∧
    (∀ addr port e, SecureCall.otCoapSecureConnect addr port e ∈
        ot_coaps_button.init_coap penv →
      addr = "fd3a:3a7a:3ffe:406f:d732:851f:52af:fd79" ∧
      port = OT_DEFAULT_COAP_SECURE_PORT) ∧
    (∀ addr port e, SecureCall.otCoapSecureConnect addr port e ∈
        ot_coaps_x509_button.init_coap cenv →
      addr = "fd3a:3a7a:3ffe:406f:d732:851f:52af:fd79" ∧
      port = OT_DEFAULT_COAP_SECURE_PORT) ∧
    is_multicast "fd3a:3a7a:3ffe:406f:d732:851f:52af:fd79" = false := by
  refine ⟨?_, ?_, by decide, ?_, ?_, by decide⟩
  · intro m info e h
    exact send_sensor_request_peer renv eui64 temp press hum m info e h
  · intro m info e h
    obtain ⟨hm, hi⟩ := send_led_request_peer benv m info e h
    exact ⟨by rw [hm], hi⟩
  · intro addr port e h
    exact psk_init_coap_connect penv addr port e h
  · intro addr port e h
    exact x509_init_coap_connect cenv addr port e h

/-! ## Authentication mode setup -/

/-- C14: authentication mode setup.  In the `init_coap` of each secured
application the credential calls come first, before the secure service is
started and before any connection attempt, and there are no others: the PSK
client makes the one call that installs the PSK `1234` with identity `my-id`
and installs no certificate material; the certificate client and the
certificate server install the local certificate with its private key, then the
CA chain, then set the authentication mode to `true` (verify the peer), and
install no PSK. -/
theorem init_coap_credentials (penv cenv : SecureInitEnv) (start_error : Nat) :
    (∃ rest, ot_coaps_button.init_coap penv =
        SecureCall.otCoapSecureSetPsk "1234" "my-id" ::
          SecureCall.otCoapSecureStart OT_DEFAULT_COAP_SECURE_PORT
            penv.otCoapSecureStart :: rest ∧
      (∀ c ∈ rest, c.is_credential = false)) ∧
    (∀ c ∈ ot_coaps_button.init_coap penv, c.is_certificate = false) ∧
    (∃ rest, ot_coaps_x509_button.init_coap cenv =
        SecureCall.otCoapSecureSetCertificate Credential.DTLS_X509_CERT
            Credential.DTLS_PRIVKEY ::
          SecureCall.otCoapSecureSetCaCertificateChain Credential.DTLS_CA_CERT ::
          SecureCall.otCoapSecureSetSslAuthMode true ::
          SecureCall.otCoapSecureStart OT_DEFAULT_COAP_SECURE_PORT
            cenv.otCoapSecureStart :: rest ∧
      (∀ c ∈ rest, c.is_credential = false)) ∧
    (∀ c ∈ ot_coaps_x509_button.init_coap cenv, c.is_psk = false) ∧
    (∃ rest, ot_coaps_x509_led.init_coap start_error =
        SecureCall.otCoapSecureSetCertificate Credential.DTLS_X509_CERT
            Credential.DTLS_PRIVKEY ::
          SecureCall.otCoapSecureSetCaCertificateChain Credential.DTLS_CA_CERT ::
          SecureCall.otCoapSecureSetSslAuthMode true ::
          SecureCall.otCoapSecureStart OT_DEFAULT_COAP_SECURE_PORT start_error :: rest ∧
      (∀ c ∈ rest, c.is_credential = false)) ∧
    (∀ c ∈ ot_coaps_x509_led.init_coap start_error, c.is_psk = false) := by
  obtain ⟨p1, p2, p3⟩ := penv
  obtain ⟨c1, c2, c3⟩ := cenv
  refine ⟨?_, ?_, ?_, ?_, ?_, ?_⟩
  · by_cases k1 : p1 = OT_ERROR_NONE <;> by_cases k2 : p2 = OT_ERROR_NONE <;>
      simp [ot_coaps_button.init_coap, ot_coaps_button.psk, ot_coaps_button.psk_id,
        SecureCall.is_credential, k1, k2]
  · by_cases k1 : p1 = OT_ERROR_NONE <;> by_cases k2 : p2 = OT_ERROR_NONE <;>
      simp [ot_coaps_button.init_coap, SecureCall.is_certificate, k1, k2]
  · by_cases k1 : c1 = OT_ERROR_NONE <;> by_cases k2 : c2 = OT_ERROR_NONE <;>
      simp [ot_coaps_x509_button.init_coap, SecureCall.is_credential, k1, k2]
  · by_cases k1 : c1 = OT_ERROR_NONE <;> by_cases k2 : c2 = OT_ERROR_NONE <;>
      simp [ot_coaps_x509_button.init_coap, SecureCall.is_psk, k1, k2]
  · by_cases k1 : start_error = OT_ERROR_NONE <;>
      simp [ot_coaps_x509_led.init_coap, SecureCall.is_credential, k1]
  · by_cases k1 : start_error = OT_ERROR_NONE <;>
      simp [ot_coaps_x509_led.init_coap, SecureCall.is_psk, k1]

end applications

namespace ot_coap_led

open openthread
open openthread.otCoapType

/-! ## Actuator consistency -/

theorem led_level_append (level : Int) (xs ys : List Effect) :
    led_level level (xs ++ ys) = led_level (led_level level xs) ys := by
  unfold led_level
  rw [List.foldl_append]

/-- Only the commands to the LED output change its level. -/
theorem led_level_led_commands (trace : List Effect) :
    ∀ level : Int, led_level level trace = led_level level (led_commands trace) := by
  induction trace with
  | nil => intro level; rfl
  | cons x xs ih =>
    intro level
    cases x <;> simp [led_level, led_commands, led_level_step] <;>
      exact ih _

/-- One `led_requested` keeps `led_state` equal to the level commanded to the
LED output. -/
theorem led_level_led_requested (env : StackEnv) (buf0 : Nat) (req : Request)
    (s : Int) :
    led_level s (led_requested env buf0 req s).2 = (led_requested env buf0 req s).1 := by
  rw [led_level_led_commands, led_commands_led_requested, led_requested_state]
  split_ifs <;> simp [led_level, led_level_step]

/-- Any sequence of deliveries keeps `led_state` equal to the level commanded to
the LED output. -/
theorem led_level_run (ds : List Delivery) :
    ∀ s : Int, led_level s (run s ds).2 = (run s ds).1 := by
  induction ds with
  | nil => intro s; rfl
  | cons d ds ih =>
    intro s
    simp only [run]
    rw [led_level_append, led_level_led_requested, ih]

/-- C15: actuator consistency under failure.  Whatever the stack answers while
the response is built and sent, and whatever the message, after `led_requested`
returns `led_state` equals the level last commanded to the LED output: 0 after
a set-off, 1 after a set-on, flipped after a toggle, unchanged when no command
was given.  From the start of the program, where `main` commands the LED off
and `led_state` is 0, this holds after any sequence of inbound messages. -/
theorem actuator_consistent (env : StackEnv) (buf0 : Nat) (req : Request) (s : Int)
    (ds : List Delivery) (level0 : Int) :
    led_level s (led_requested env buf0 req s).2 = (led_requested env buf0 req s).1 ∧
    led_level level0 (main_led_command ++ (run led_state_init ds).2) =
      (run led_state_init ds).1 ∧
    led_level s [Effect.gpio_pin_set_dt 0] = 0 ∧
    led_level s [Effect.gpio_pin_set_dt 1] = 1 ∧
    led_level s [Effect.gpio_pin_toggle_dt] = 1 - s ∧
    led_level s (led_send_response env req s) = s := by
  refine ⟨led_level_led_requested env buf0 req s, ?_, rfl, rfl, rfl, ?_⟩
  · rw [led_level_append]
    have h : led_level level0 main_led_command = led_state_init := rfl
    rw [h]
    exact led_level_run ds led_state_init
  · rw [led_level_led_commands, led_commands_led_send_response]
    rfl

end ot_coap_led

namespace applications

open openthread
open openthread.otCoapType
open ot_coap_led (Request CoapMessage StackEnv Effect state_byte led_commands emitted)
open ot_coap_bme280 (Call CoapRequest otMessageInfo)
open ot_coap_button (ButtonEnv button_env_ok secure_request_env_ok delivered)
open ot_coaps_x509_led (SecureStackEnv SecureEffect)

/-! ## Actuator request shape -/

/-- Every send call of the `send_led_request` of the PSK client carries the
Confirmable PUT to `led` with payload `'2'`. -/
theorem psk_send_led_request_message (env : SecureRequestEnv) (m : CoapRequest)
    (e : Nat)
    (h : SecureCall.otCoapSecureSendRequest m e ∈ ot_coaps_button.send_led_request env) :
    m = ⟨OT_COAP_TYPE_CONFIRMABLE, OT_COAP_CODE_PUT, ["led"], none, ['2']⟩ := by
  rw [ot_coaps_button.psk_send_led_request_build_order] at h
  obtain ⟨a, e1, e2, e3, e4⟩ := env
  revert h
  cases a <;>
    by_cases k1 : e1 = OT_ERROR_NONE <;>
    by_cases k2 : e2 = OT_ERROR_NONE <;>
    by_cases k3 : e3 = OT_ERROR_NONE <;>
    by_cases k4 : e4 = OT_ERROR_NONE <;>
    simp [build_order_spec, k1, k2, k3, k4] <;>
    intros <;> simp_all

/-- Every send call of the `send_led_request` of the certificate client carries
the Confirmable PUT to `led` with payload `'2'`. -/
theorem x509_send_led_request_message (env : SecureRequestEnv) (m : CoapRequest)
    (e : Nat)
    (h : SecureCall.otCoapSecureSendRequest m e ∈
      ot_coaps_x509_button.send_led_request env) :
    m = ⟨OT_COAP_TYPE_CONFIRMABLE, OT_COAP_CODE_PUT, ["led"], none, ['2']⟩ := by
  rw [ot_coaps_x509_button.x509_send_led_request_build_order] at h
  obtain ⟨a, e1, e2, e3, e4⟩ := env
  revert h
  cases a <;>
    by_cases k1 : e1 = OT_ERROR_NONE <;>
    by_cases k2 : e2 = OT_ERROR_NONE <;>
    by_cases k3 : e3 = OT_ERROR_NONE <;>
    by_cases k4 : e4 = OT_ERROR_NONE <;>
    simp [build_order_spec, k1, k2, k3, k4] <;>
    intros <;> simp_all

/-- C18, as stated, fails: the request of the button clients, delivered to
`led_requested` in state 0 when `otCoapMessageSetPayloadMarker` reports an
error, toggles the LED and sets `led_state` to 1, but is not answered: the
response is freed and nothing is emitted. -/
theorem led_request_shape_counterexample :
    ot_coap_led.led_requested ⟨true, 0, 1, 0, 0⟩ 0
        (delivered ⟨OT_COAP_TYPE_CONFIRMABLE, OT_COAP_CODE_PUT, ["led"], none, ['2']⟩) 0 =
      (1, [Effect.gpio_pin_toggle_dt,
        Effect.otCoapNewMessage true,
        Effect.otCoapMessageInitResponse OT_COAP_TYPE_ACKNOWLEDGMENT
          OT_COAP_CODE_CHANGED OT_ERROR_NONE,
        Effect.otCoapMessageSetPayloadMarker 1,
        Effect.otMessageFree]) ∧
    emitted (ot_coap_led.led_requested ⟨true, 0, 1, 0, 0⟩ 0
        (delivered
          ⟨OT_COAP_TYPE_CONFIRMABLE, OT_COAP_CODE_PUT, ["led"], none, ['2']⟩) 0).2 =
      [] := by
  decide

/-- C18, amended: actuator request shape.  In the three button clients every
send call of `send_led_request` is handed the same message: type Confirmable,
code PUT, the single Uri-Path `led`, no Content-Format option, and the one
payload byte `'2'` (0x32); when every stack call succeeds that send call is made
and accepted.  Delivered to `led_requested` in any state `s`, that message
commands a toggle and sets `led_state` to `1 - s`; when every stack call of
`led_send_response` succeeds it is answered by one response (Acknowledgment,
Changed) carrying the byte of the new state, and when one of them fails it gets
no response.  The secured server computes the same state. -/
theorem led_request_shape (benv : ButtonEnv) (penv cenv : SecureRequestEnv)
    (env : StackEnv) (xenv : SecureStackEnv) (buf0 : Nat) (s : Int) :
    (∀ m info e, Call.otCoapSendRequest m info e ∈
        ot_coap_button.send_led_request benv →
      m = ⟨OT_COAP_TYPE_CONFIRMABLE, OT_COAP_CODE_PUT, ["led"], none, ['2']⟩) ∧
    (∀ m e, SecureCall.otCoapSecureSendRequest m e ∈
        ot_coaps_button.send_led_request penv →
      m = ⟨OT_COAP_TYPE_CONFIRMABLE, OT_COAP_CODE_PUT, ["led"], none, ['2']⟩) ∧
    (∀ m e, SecureCall.otCoapSecureSendRequest m e ∈
        ot_coaps_x509_button.send_led_request cenv →
      m = ⟨OT_COAP_TYPE_CONFIRMABLE, OT_COAP_CODE_PUT, ["led"], none, ['2']⟩) ∧
    Call.otCoapSendRequest
        ⟨OT_COAP_TYPE_CONFIRMABLE, OT_COAP_CODE_PUT, ["led"], none, ['2']⟩
        ⟨"ff03::1", OT_DEFAULT_COAP_PORT⟩ OT_ERROR_NONE ∈
      ot_coap_button.send_led_request button_env_ok ∧
    SecureCall.otCoapSecureSendRequest
        ⟨OT_COAP_TYPE_CONFIRMABLE, OT_COAP_CODE_PUT, ["led"], none, ['2']⟩
        OT_ERROR_NONE ∈
      ot_coaps_button.send_led_request secure_request_env_ok ∧
    SecureCall.otCoapSecureSendRequest
        ⟨OT_COAP_TYPE_CONFIRMABLE, OT_COAP_CODE_PUT, ["led"], none, ['2']⟩
        OT_ERROR_NONE ∈
      ot_coaps_x509_button.send_led_request secure_request_env_ok ∧
    delivered ⟨OT_COAP_TYPE_CONFIRMABLE, OT_COAP_CODE_PUT, ["led"], none, ['2']⟩ =
      ⟨OT_COAP_TYPE_CONFIRMABLE, OT_COAP_CODE_PUT, [0x32]⟩ ∧
    (ot_coap_led.led_requested env buf0
        ⟨OT_COAP_TYPE_CONFIRMABLE, OT_COAP_CODE_PUT, [0x32]⟩ s).1 = 1 - s ∧
    led_commands (ot_coap_led.led_requested env buf0
        ⟨OT_COAP_TYPE_CONFIRMABLE, OT_COAP_CODE_PUT, [0x32]⟩ s).2 =
      [Effect.gpio_pin_toggle_dt] ∧
    emitted (ot_coap_led.led_requested env buf0
        ⟨OT_COAP_TYPE_CONFIRMABLE, OT_COAP_CODE_PUT, [0x32]⟩ s).2 =
      (if env.ok then
        [⟨OT_COAP_TYPE_ACKNOWLEDGMENT, OT_COAP_CODE_CHANGED, [state_byte (1 - s)]⟩]
      else []) ∧
    (ot_coaps_x509_led.led_requested xenv buf0
        ⟨OT_COAP_TYPE_CONFIRMABLE, OT_COAP_CODE_PUT, [0x32]⟩ s).1 = 1 - s := by
  have hpg : OT_COAP_CODE_PUT ≠ OT_COAP_CODE_GET := by decide
  have hput : ∀ e : StackEnv,
      (ot_coap_led.led_requested e buf0
        ⟨OT_COAP_TYPE_CONFIRMABLE, OT_COAP_CODE_PUT, [0x32]⟩ s).1 = 1 - s ∧
      led_commands (ot_coap_led.led_requested e buf0
        ⟨OT_COAP_TYPE_CONFIRMABLE, OT_COAP_CODE_PUT, [0x32]⟩ s).2 =
        [Effect.gpio_pin_toggle_dt] := by
    intro e
    have h := ot_coap_led.led_requested_put e buf0
      ⟨OT_COAP_TYPE_CONFIRMABLE, OT_COAP_CODE_PUT, [0x32]⟩ s 0x32 (Or.inl rfl) rfl rfl
    exact ⟨h.1, h.2⟩
  refine ⟨?_, ?_, ?_, by decide, by decide, by decide, rfl, (hput env).1,
    (hput env).2, ?_, ?_⟩
  · intro m info e h
    exact (send_led_request_peer benv m info e h).1
  · intro m e h
    exact psk_send_led_request_message penv m e h
  · intro m e h
    exact x509_send_led_request_message cenv m e h
  · rw [ot_coap_led.emitted_led_requested, (hput env).1]
    by_cases hok : env.ok <;> simp [hok, hpg]
  · rw [(ot_coaps_x509_led.secure_led_requested_plain xenv buf0 _ s).1]
    exact (hput _).1

end applications

namespace ot_coap_led

open openthread
open openthread.otCoapType

/-! ## Empty payload -/

/-- C21 fails on the code: a Confirmable PUT without payload bytes, handled in
state 0 while the uninitialised local `buf[0]` holds `'1'` (0x31), makes
`led_requested` command the LED on, set `led_state` to 1 and acknowledge with
`'1'`; while it holds `'2'` (as after an earlier toggle request) the LED is
toggled.  `otMessageRead` copied no byte and its return value is not looked
at. -/
theorem led_requested_empty_payload :
    otMessageRead ⟨OT_COAP_TYPE_CONFIRMABLE, OT_COAP_CODE_PUT, []⟩ '1'.toNat = '1'.toNat ∧
    led_requested env_ok '1'.toNat ⟨OT_COAP_TYPE_CONFIRMABLE, OT_COAP_CODE_PUT, []⟩ 0 =
      (1, [Effect.gpio_pin_set_dt 1,
        Effect.otCoapNewMessage true,
        Effect.otCoapMessageInitResponse OT_COAP_TYPE_ACKNOWLEDGMENT
          OT_COAP_CODE_CHANGED OT_ERROR_NONE,
        Effect.otCoapMessageSetPayloadMarker OT_ERROR_NONE,
        Effect.otMessageAppend ['1'.toNat] OT_ERROR_NONE,
        Effect.otCoapSendResponse
          ⟨OT_COAP_TYPE_ACKNOWLEDGMENT, OT_COAP_CODE_CHANGED, ['1'.toNat]⟩
          OT_ERROR_NONE]) ∧
    led_requested env_ok '2'.toNat ⟨OT_COAP_TYPE_NON_CONFIRMABLE, OT_COAP_CODE_PUT, []⟩ 0 =
      (1, [Effect.gpio_pin_toggle_dt]) := by
  decide

/-! ## Reachability of the unsupported-request branches -/

/-- The calls of one `led_requested`: its commands to the LED output, then those
of `led_send_response` for the same request and the state on exit, when the
request is a Confirmable PUT or a Confirmable or NonConfirmable GET. -/
theorem led_requested_calls (env : StackEnv) (buf0 : Nat) (req : Request) (s : Int) :
    (led_requested env buf0 req s).2 =
      led_commands (led_requested env buf0 req s).2 ++
        (if (req.type = OT_COAP_TYPE_CONFIRMABLE ∧ req.code = OT_COAP_CODE_PUT) ∨
            ((req.type = OT_COAP_TYPE_CONFIRMABLE ∨
                req.type = OT_COAP_TYPE_NON_CONFIRMABLE) ∧
              req.code = OT_COAP_CODE_GET)
          then led_send_response env req (led_requested env buf0 req s).1 else []) := by
  have hgp : OT_COAP_CODE_GET ≠ OT_COAP_CODE_PUT := by decide
  have hpg : OT_COAP_CODE_PUT ≠ OT_COAP_CODE_GET := by decide
  obtain ⟨t, c, p⟩ := req
  by_cases h1 : c = OT_COAP_CODE_GET <;> by_cases h2 : c = OT_COAP_CODE_PUT <;>
    cases t <;>
    simp [led_requested, h1, h2, hgp, hpg, led_commands, led_commands_append,
      led_commands_led_send_response] <;>
    split_ifs <;>
    simp [led_commands, led_commands_append, led_commands_led_send_response]

/-- C22: the unsupported-request branches of `led_send_response` are unreachable
from `led_requested`.  `led_requested` calls `led_send_response` exactly for a
Confirmable PUT and for a Confirmable or NonConfirmable GET, after its commands
to the LED output and with the same request.  On every such call the request
type is Confirmable or NonConfirmable and the code is GET or PUT, so the
derivation of the response type and code succeeds: once the response is
allocated `otCoapMessageInitResponse` is called, and no response is emitted
exactly when the allocation, the init-response, the payload marker, the append
or the send reports an error. -/
theorem led_send_response_unsupported_unreachable (env : StackEnv) (buf0 : Nat)
    (req : Request) (s : Int) :
    (led_requested env buf0 req s).2 =
      led_commands (led_requested env buf0 req s).2 ++
        (if (req.type = OT_COAP_TYPE_CONFIRMABLE ∧ req.code = OT_COAP_CODE_PUT) ∨
            ((req.type = OT_COAP_TYPE_CONFIRMABLE ∨
                req.type = OT_COAP_TYPE_NON_CONFIRMABLE) ∧
              req.code = OT_COAP_CODE_GET)
          then led_send_response env req (led_requested env buf0 req s).1 else []) ∧
    ((req.type = OT_COAP_TYPE_CONFIRMABLE ∧ req.code = OT_COAP_CODE_PUT) ∨
        ((req.type = OT_COAP_TYPE_CONFIRMABLE ∨
            req.type = OT_COAP_TYPE_NON_CONFIRMABLE) ∧
          req.code = OT_COAP_CODE_GET) →
      (req.type = OT_COAP_TYPE_CONFIRMABLE ∨ req.type = OT_COAP_TYPE_NON_CONFIRMABLE) ∧
      (req.code = OT_COAP_CODE_GET ∨ req.code = OT_COAP_CODE_PUT) ∧
      (∃ t c, deriveResponse_spec req = some (t, c) ∧
        (env.otCoapNewMessage = true →
          ∃ rest, led_send_response env req (led_requested env buf0 req s).1 =
            Effect.otCoapNewMessage true ::
              Effect.otCoapMessageInitResponse t c env.otCoapMessageInitResponse ::
                rest)) ∧
      (emitted (led_send_response env req (led_requested env buf0 req s).1) = [] ↔
        env.otCoapNewMessage = false ∨
        env.otCoapMessageInitResponse ≠ OT_ERROR_NONE ∨
        env.otCoapMessageSetPayloadMarker ≠ OT_ERROR_NONE ∨
        env.otMessageAppend ≠ OT_ERROR_NONE ∨
        env.otCoapSendResponse ≠ OT_ERROR_NONE)) := by
  refine ⟨led_requested_calls env buf0 req s, ?_⟩
  intro hcall
  have ht : req.type = OT_COAP_TYPE_CONFIRMABLE ∨
      req.type = OT_COAP_TYPE_NON_CONFIRMABLE := by
    rcases hcall with ⟨h, _⟩ | ⟨h, _⟩
    · exact Or.inl h
    · exact h
  have hc : req.code = OT_COAP_CODE_GET ∨ req.code = OT_COAP_CODE_PUT := by
    rcases hcall with ⟨_, h⟩ | ⟨_, h⟩
    · exact Or.inr h
    · exact Or.inl h
  have hpg : OT_COAP_CODE_PUT ≠ OT_COAP_CODE_GET := by decide
  have hder : ∃ t c, deriveResponse_spec req = some (t, c) := by
    obtain ⟨t, c, p⟩ := req
    simp only at ht hc
    rcases ht with rfl | rfl <;> rcases hc with rfl | rfl <;>
      simp [deriveResponse_spec, hpg]
  obtain ⟨t, c, htc⟩ := hder
  refine ⟨ht, hc, ⟨t, c, htc, ?_⟩, ?_⟩
  · intro halloc
    rw [led_send_response_build_order, htc]
    obtain ⟨a, e1, e2, e3, e4⟩ := env
    simp only at halloc
    subst halloc
    by_cases k1 : e1 = OT_ERROR_NONE <;> simp [build_order_spec, k1]
  · rw [emitted_led_send_response]
    obtain ⟨a, e1, e2, e3, e4⟩ := env
    cases a <;>
      by_cases k1 : e1 = OT_ERROR_NONE <;>
      by_cases k2 : e2 = OT_ERROR_NONE <;>
      by_cases k3 : e3 = OT_ERROR_NONE <;>
      by_cases k4 : e4 = OT_ERROR_NONE <;>
      simp [StackEnv.ok, ht, hc, k1, k2, k3, k4]

end ot_coap_led

namespace ot_srp_coap_led

open openthread

/-! ## The missing service entry -/

/-- C23 fails on the code: when `otSrpClientBuffersAllocateService` returns no
entry (`NULL`) after the host name and the auto host address were set,
`init_srp` logs an error and goes on: it writes the instance name, the service
name and the port through the `NULL` entry and calls `otSrpClientAddService`
with it; when that call reports no error it enables auto-start mode and sets
`is_srp_client_running`.  The other error branches of `init_srp` return. -/
theorem init_srp_null_entry :
    init_srp ⟨OT_ERROR_NONE, OT_ERROR_NONE, false, OT_ERROR_NONE⟩
        is_srp_client_running_init =
      (true,
        [SrpCall.otSrpClientSetCallback,
         SrpCall.otSrpClientSetHostName "ot-example" OT_ERROR_NONE,
         SrpCall.otSrpClientEnableAutoHostAddress OT_ERROR_NONE,
         SrpCall.otSrpClientBuffersAllocateService false,
         SrpCall.write_instance_name false "ot-service",
         SrpCall.write_service_name false "_example._udp",
         SrpCall.write_port false OT_DEFAULT_COAP_PORT,
         SrpCall.otSrpClientAddService false OT_ERROR_NONE,
         SrpCall.otSrpClientEnableAutoStartMode]) ∧
    init_srp ⟨OT_ERROR_NONE, 7, true, OT_ERROR_NONE⟩ is_srp_client_running_init =
      (false,
        [SrpCall.otSrpClientSetCallback,
         SrpCall.otSrpClientSetHostName "ot-example" OT_ERROR_NONE,
         SrpCall.otSrpClientEnableAutoHostAddress 7]) := by
  decide

end ot_srp_coap_led
